import Mathlib

/-!
Verification development for the Cosmic synthetic financial data generator.

The source is a TypeScript project that synthesizes Plaid-style financial
data: a company profile feeds an account generator, whose accounts feed a
transaction generator; a main generator orchestrates the pipeline and a
validator checks the assembled output.

Embedding conventions:
* JavaScript numbers are modelled by an executable rational type `Q`
  (an integer numerator with a positive natural denominator, arithmetic
  without normalisation); `Q.val` maps into `ℚ` for specification work.
* `Math.random()` is modelled by a stream `r : Nat → Q` of draws together
  with a cursor threaded in state-monad style (`GenM`); each call site of
  `Math.random()` consumes the next draw, in source order.
* JavaScript `Date` values are modelled as integer day numbers since the
  Unix epoch (UTC); `Date.now()` is a rational instant `now` measured in
  days.  Calendar conversion follows the civil-calendar algorithms, so
  `toISOString`-style formatting is the civil date of the day number.
* Thrown errors are modelled with `Except String`.
-/

namespace Cosmic

/-- Executable rational: JavaScript numeric values.  The denominator is kept
positive; arithmetic does not normalise, so every operation is a plain
integer computation that the kernel can evaluate. -/
structure Q where
  num : Int
  den : Nat
  dpos : 0 < den

/-- Embed an integer. -/
def Q.ofInt (n : Int) : Q := ⟨n, 1, Nat.one_pos⟩

/-- Decimal literal m·10⁻ᵏ; for example 0.7 is written Q.dec 7 1. -/
def Q.dec (m : Int) (k : Nat) : Q := ⟨m, 10 ^ k, pow_pos (by norm_num) k⟩

/-- Addition of JavaScript numbers. -/
def Q.add (a b : Q) : Q := ⟨a.num * b.den + b.num * a.den, a.den * b.den, Nat.mul_pos a.dpos b.dpos⟩

/-- Multiplication of JavaScript numbers. -/
def Q.mul (a b : Q) : Q := ⟨a.num * b.num, a.den * b.den, Nat.mul_pos a.dpos b.dpos⟩

/-- Negation. -/
def Q.neg (a : Q) : Q := ⟨-a.num, a.den, a.dpos⟩

/-- Subtraction. -/
def Q.sub (a b : Q) : Q := a.add b.neg

/-- Math.floor, as an integer. -/
def Q.floor (a : Q) : Int := a.num / (a.den : Int)

/-- Math.round (JavaScript rounds half up: floor(x + 1/2)). -/
def Q.round (a : Q) : Int := (a.add (Q.dec 5 1)).floor

/-- Strict less-than test, as the JavaScript `<` on numbers. -/
def Q.ltB (a b : Q) : Bool := decide (a.num * (b.den : Int) < b.num * (a.den : Int))

/-- JavaScript truthiness of a number (false exactly on zero). -/
def Q.truthy (a : Q) : Bool := a.num != 0

/-- The rational value represented. -/
def Q.val (a : Q) : ℚ := (a.num : ℚ) / (a.den : ℚ)

theorem Q.den_ne (a : Q) : ((a.den : ℚ)) ≠ 0 := by
  have := a.dpos
  positivity

theorem Q.den_pos (a : Q) : (0 : ℚ) < (a.den : ℚ) := by exact_mod_cast a.dpos

theorem Q.val_ofInt (n : Int) : (Q.ofInt n).val = (n : ℚ) := by
  simp [Q.ofInt, Q.val]

theorem Q.val_dec (m : Int) (k : Nat) : (Q.dec m k).val = (m : ℚ) / 10 ^ k := by
  simp [Q.dec, Q.val]

theorem Q.val_add (a b : Q) : (a.add b).val = a.val + b.val := by
  have ha := a.den_pos
  have hb := b.den_pos
  rw [Q.add, Q.val, Q.val, Q.val]
  push_cast
  field_simp

theorem Q.val_mul (a b : Q) : (a.mul b).val = a.val * b.val := by
  have ha := a.den_pos
  have hb := b.den_pos
  rw [Q.mul, Q.val, Q.val, Q.val]
  push_cast
  field_simp

theorem Q.val_neg (a : Q) : a.neg.val = -a.val := by
  rw [Q.neg, Q.val, Q.val]
  push_cast
  ring

theorem Q.val_sub (a b : Q) : (a.sub b).val = a.val - b.val := by
  rw [Q.sub, Q.val_add, Q.val_neg]
  ring

theorem Q.floor_val (a : Q) : a.floor = ⌊a.val⌋ := by
  rw [Q.floor, Q.val]
  exact_mod_cast (Rat.floor_intCast_div_natCast a.num a.den).symm

theorem Q.ltB_iff (a b : Q) : a.ltB b = true ↔ a.val < b.val := by
  have ha := a.den_pos
  have hb := b.den_pos
  rw [Q.ltB, decide_eq_true_iff, Q.val, Q.val, div_lt_div_iff₀ ha hb]
  constructor
  · intro h
    exact_mod_cast h
  · intro h
    exact_mod_cast h

theorem Q.round_val (a : Q) : a.round = ⌊a.val + 1 / 2⌋ := by
  rw [Q.round, Q.floor_val, Q.val_add, Q.val_dec]
  norm_num

/-- A stream of Math.random() draws. -/
def RandStream : Type := Nat → Q

/-- Every draw of the stream lies in [0, 1), as Math.random() guarantees. -/
def OkStream (r : RandStream) : Prop := ∀ n, 0 ≤ (r n).val ∧ (r n).val < 1

/-- Generation computations: value plus the cursor into the draw stream. -/
abbrev GenM (α : Type) : Type := StateM Nat α

/-- Consume the next Math.random() draw. -/
def rnd (r : RandStream) : GenM Q := fun s => (r s, s + 1)

/-- Prefix test on character lists (helper for the substring test). -/
def listPrefixB : List Char → List Char → Bool
  | [], _ => true
  | _ :: _, [] => false
  | a :: as, b :: bs => a == b && listPrefixB as bs

/-- Contiguous-sublist test on character lists. -/
def listSubB (pat : List Char) : List Char → Bool
  | [] => pat.isEmpty
  | b :: bs => listPrefixB pat (b :: bs) || listSubB pat bs

/-- JavaScript String.prototype.includes. -/
def sIncludes (s pat : String) : Bool := listSubB pat.toList s.toList

/-- Split a character list at a separator character (String.prototype.split). -/
def splitOnCharAux (c : Char) : List Char → List Char → List (List Char)
  | [], acc => [acc.reverse]
  | x :: xs, acc =>
    if x == c then acc.reverse :: splitOnCharAux c xs [] else splitOnCharAux c xs (x :: acc)

/-- Split a string at a separator character. -/
def splitOnChar (c : Char) (s : String) : List String :=
  (splitOnCharAux c s.toList []).map (fun l => String.mk l)

/-- Decimal digit character. -/
def natDigitChar (d : Nat) : Char := Char.ofNat (48 + d)

/-- Numeric value of a decimal digit character. -/
def digitVal (c : Char) : Nat := c.toNat - 48

/-- Reversed decimal digits of a natural number (fuel-based so that the
kernel can evaluate it; fuel bounds the number of digits). -/
def natDigitsRev : Nat → Nat → List Char
  | 0, _ => []
  | fuel + 1, n =>
    if n < 10 then [natDigitChar n]
    else natDigitChar (n % 10) :: natDigitsRev fuel (n / 10)

/-- Decimal string of a natural number (Number.prototype.toString for the
integral values appearing in the generator; 30 digits of fuel). -/
def natToStr (n : Nat) : String := String.mk (natDigitsRev 30 n).reverse

/-- Decimal string of an integer. -/
def intToStr (i : Int) : String :=
  if i < 0 then "-" ++ natToStr (-i).toNat else natToStr i.toNat

/-- Pad a number to two digits (String.prototype.padStart(2, "0")). -/
def pad2 (n : Nat) : String := if n < 10 then "0" ++ natToStr n else natToStr n

/-- Pad a number to the four year digits of toISOString. -/
def pad4 (n : Nat) : String :=
  if n < 10 then "000" ++ natToStr n
  else if n < 100 then "00" ++ natToStr n
  else if n < 1000 then "0" ++ natToStr n
  else natToStr n

/-- Civil date (year, month 1-12, day 1-31) of a day number since the Unix
epoch, following the standard civil-from-days algorithm. -/
def civilFromDays (z0 : Int) : Int × Nat × Nat :=
  let z := z0 + 719468
  let era := z / 146097
  let doe := (z - era * 146097).toNat
  let yoe := (doe - doe / 1460 + doe / 36524 - doe / 146096) / 365
  let y := (yoe : Int) + era * 400
  let doy := doe - (365 * yoe + yoe / 4 - yoe / 100)
  let mp := (5 * doy + 2) / 153
  let d := doy - (153 * mp + 2) / 5 + 1
  let m := if mp < 10 then mp + 3 else mp - 9
  (if m ≤ 2 then y + 1 else y, m, d)

/-- Day number since the Unix epoch of a civil date (days-from-civil). -/
def daysFromCivil (y : Int) (m d : Nat) : Int :=
  let y2 := if m ≤ 2 then y - 1 else y
  let era := y2 / 400
  let yoe := (y2 - era * 400).toNat
  let mp := if 2 < m then m - 3 else m + 9
  let doy := (153 * mp + 2) / 5 + d - 1
  let doe := yoe * 365 + yoe / 4 - yoe / 100 + doy
  era * 146097 + (doe : Int) - 719468

/-- formatPlaidDate: YYYY-MM-DD rendering of a day number
(date.toISOString().split("T")[0] in the source). -/
def formatPlaidDate (day : Int) : String :=
  let c := civilFromDays day
  pad4 c.1.toNat ++ "-" ++ pad2 c.2.1 ++ "-" ++ pad2 c.2.2

/-- Numeric value of a string of decimal digits. -/
def parseNatChars (l : List Char) : Nat :=
  l.foldl (fun acc c => acc * 10 + digitVal c) 0

/-- Day number of a YYYY-MM-DD string (new Date(s).getTime(), in days).
Ill-formed strings, which the generator never produces, map to day 0. -/
def parsePlaidDate (s : String) : Int :=
  match splitOnChar (Char.ofNat 45) s with
  | [ys, ms, ds] => daysFromCivil (parseNatChars ys.toList) (parseNatChars ms.toList) (parseNatChars ds.toList)
  | _ => 0

/-- JavaScript Date.prototype.getMonth (0-based month) of a day number. -/
def getMonthJS (day : Int) : Nat := (civilFromDays day).2.1 - 1

/-- JavaScript Date.prototype.getDate (day of month) of a day number. -/
def getDateJS (day : Int) : Nat := (civilFromDays day).2.2

/-- JavaScript String.prototype.charAt (empty string when out of range). -/
def charAtStr (s : String) (i : Nat) : String :=
  match s.toList.get? i with
  | some c => String.mk [c]
  | none => ""

/-- JavaScript String.prototype.substring(0, n). -/
def substrTo (s : String) (n : Nat) : String := String.mk (s.toList.take n)

/-- Base-36 digit character (lowercase, as Number.prototype.toString(36)). -/
def b36Char (d : Nat) : Char := if d < 10 then natDigitChar d else Char.ofNat (87 + d)

/-- Fractional base-36 digits of a number in [0, 1), stopping at zero
(models the digits of Math.random().toString(36) after "0."). -/
def b36Frac : Nat → Q → List Char
  | 0, _ => []
  | fuel + 1, q =>
    if q.truthy then
      let q2 := q.mul (Q.ofInt 36)
      b36Char q2.floor.toNat :: b36Frac fuel (q2.sub (Q.ofInt q2.floor))
    else []

/-- Plaid account types (the closed union in plaid-types.ts). -/
inductive AccountType
  | depository
  | credit
  | loan
  | investment
  | other
deriving DecidableEq

/-- JSON rendering of an account type. -/
def AccountType.str : AccountType → String
  | .depository => "depository"
  | .credit => "credit"
  | .loan => "loan"
  | .investment => "investment"
  | .other => "other"

/-- Account balance block (AccountBalance in plaid-types.ts). -/
structure AccountBalance where
  available : Option Q
  current : Q
  iso_currency_code : String
  limit : Option Q
  unofficial_currency_code : Option String

/-- Account (plaid-types.ts); official_name is always set by the generators. -/
structure Account where
  account_id : String
  balances : AccountBalance
  mask : String
  name : String
  official_name : String
  subtype : String
  type : AccountType

/-- Transaction location block, fields in the generator's literal order. -/
structure TransactionLocation where
  address : Option String
  city : Option String
  region : Option String
  postal_code : Option String
  country : Option String
  lat : Option Q
  lon : Option Q
  store_number : Option String

/-- Payment metadata as the transaction generator actually produces it. -/
structure PaymentMeta where
  reference_number : Option String
  payment_method : Option String
  payment_processor : Option String
  reason : Option String
  payee_id : Option String
  payer_id : Option String
  check_number : Option String
  ach_class : Option String

/-- Transaction, fields in the order of generateBaseTransaction's literal. -/
structure Transaction where
  transaction_id : String
  account_id : String
  amount : Q
  iso_currency_code : String
  unofficial_currency_code : Option String
  category : List String
  category_id : String
  pending : Bool
  pending_transaction_id : Option String
  original_description : String
  merchant_name : String
  name : String
  date : String
  authorized_date : Option String
  location : TransactionLocation
  payment_meta : PaymentMeta
  account_owner : Option String
  transaction_code : Option String

/-- Removed-transaction stub (RemovedTransaction in plaid-types.ts). -/
structure RemovedTransaction where
  transaction_id : String
  account_id : String

/-- Full generation result (PlaidTransactionsResponse). -/
structure PlaidTransactionsResponse where
  accounts : List Account
  added : List Transaction
  modified : List Transaction
  removed : List RemovedTransaction
  next_cursor : String
  has_more : Bool
  request_id : String
  transactions_update_status : String

/-- Complete company profile (CompanyProfile in plaid-types.ts);
founding_date is a day number. -/
structure CompanyProfile where
  company_name : String
  industry : String
  business_model : String
  company_size : String
  founding_date : Int
  location : Option String
  annual_revenue : Option Q

/-- Partial company profile as supplied by the form layer. -/
structure PartialCompanyProfile where
  company_name : Option String
  industry : Option String
  business_model : Option String
  company_size : Option String
  founding_date : Option Int
  location : Option String
  annual_revenue : Option Q

/-- Data generation options (dataGenerationOptionsSchema in schema.ts);
dates are day numbers. -/
structure DataGenerationOptions where
  num_transactions : Nat
  start_date : Int
  end_date : Int
  include_deposits : Bool
  include_payments : Bool
  include_investments : Bool
  include_loans : Bool

/-- Options record taken by generateTransactionSet. -/
structure TransactionSetOptions where
  addedCount : Option Nat
  modifiedCount : Option Nat
  removedCount : Option Nat
  startDate : Option Int
  endDate : Option Int

/-- Per-bank catalog entry of BANK_OPTIONS in config.ts. -/
structure BankInfo where
  businessChecking : List String
  businessSavings : List String
  creditCards : List String
  loanOptions : List String
  routingNumberPrefixes : List String

/-- BANK_OPTIONS from config.ts, in object-literal key order. -/
def BANK_OPTIONS : List (String × BankInfo) :=
  [ ("Chase",
     ⟨["Business Complete Checking", "Performance Business Checking", "Platinum Business Checking"],
      ["Business Premier Savings", "Business Total Savings"],
      ["Ink Business Preferred", "Ink Business Cash", "Ink Business Unlimited"],
      ["SBA Loans", "Business Lines of Credit", "Commercial Real Estate Loans"],
      ["021", "267", "322", "325"]⟩),
    ("Bank of America",
     ⟨["Business Advantage Fundamentals", "Business Advantage Relationship"],
      ["Business Advantage Savings", "Business Investment Account"],
      ["Business Advantage Cash Rewards", "Business Advantage Travel Rewards"],
      ["Business Advantage Term Loans", "Business Advantage Line of Credit"],
      ["051", "053", "063", "121"]⟩),
    ("Wells Fargo",
     ⟨["Initiate Business Checking", "Navigate Business Checking", "Optimize Business Checking"],
      ["Business Market Rate Savings", "Business Platinum Savings"],
      ["Business Platinum", "Business Elite", "Business Secured"],
      ["Equipment Express Loan", "BusinessLoan Term Loan", "FastFlex Small Business Loan"],
      ["121", "122", "123", "125"]⟩),
    ("Citibank",
     ⟨["CitiBusiness Streamlined Checking", "CitiBusiness Flexible Checking"],
      ["CitiBusiness Savings", "CitiBusiness Insured Money Market Account"],
      ["Costco Anywhere Visa Business", "CitiBusiness AAdvantage Platinum Select"],
      ["Commercial Mortgages", "Term Loans", "SBA Loans"],
      ["021", "031", "271", "321"]⟩),
    ("Capital One",
     ⟨["Basic Business Checking", "Unlimited Business Checking"],
      ["Business Advantage Savings", "Business Money Market Account"],
      ["Spark Cash Plus", "Spark Cash Select", "Spark Miles"],
      ["Small Business Loans", "Business Installment Loans", "Lines of Credit"],
      ["051", "056", "065", "255"]⟩),
    ("TD Bank",
     ⟨["Business Convenience Checking", "Business Value Checking", "Business Premier Checking"],
      ["Business Savings", "Business Money Market"],
      ["Business Solutions", "Business Convenience Plus", "Business Premier"],
      ["Small Business Loans", "Business Lines of Credit", "Equipment Financing"],
      ["011", "031", "036", "053"]⟩),
    ("PNC Bank",
     ⟨["Business Checking", "Business Checking Plus", "Analysis Business Checking"],
      ["Standard Business Savings", "Premiere Business Money Market"],
      ["PNC Cash Rewards Visa", "PNC Points Visa", "PNC Visa Business"],
      ["Term Loans", "Equipment Loans", "SBA Loans"],
      ["031", "041", "043", "071"]⟩),
    ("US Bank",
     ⟨["Silver Business Checking", "Gold Business Checking", "Platinum Business Checking"],
      ["Business Savings", "Business Premium Money Market"],
      ["Business Leverage Visa", "Business Cash Rewards", "Business Platinum"],
      ["Quick Loan", "Lines of Credit", "Practice Financing"],
      ["041", "042", "081", "082"]⟩) ]

/-- Lookup in BANK_OPTIONS by bank name. -/
def bankLookup (name : String) : Option BankInfo :=
  (BANK_OPTIONS.find? (fun p => p.1 == name)).map (fun p => p.2)

/-- Object.keys(BANK_OPTIONS). -/
def bankNames : List String := BANK_OPTIONS.map (fun p => p.1)

/-- COMMON_VENDORS from config.ts. -/
def COMMON_VENDORS : List String :=
  ["Amazon Business", "Staples", "Office Depot", "UPS", "FedEx", "USPS",
   "Microsoft 365", "Google Workspace", "QuickBooks", "Zoom", "Adobe",
   "Verizon", "AT&T", "Comcast Business", "Electric Company", "Water Utility",
   "Commercial Rent", "Janitorial Services", "City Business License",
   "State Filing Fee", "HR Software", "Payroll Services", "Health Insurance",
   "Office Snacks", "Coffee Service", "IT Support", "Cybersecurity Services",
   "Legal Services", "Accounting Services"]

/-- INDUSTRY_VENDORS from config.ts. -/
def INDUSTRY_VENDORS : List (String × List String) :=
  [ ("Technology",
     ["AWS", "Microsoft Azure", "Google Cloud", "Adobe Creative Cloud", "Slack",
      "GitHub", "JetBrains", "Digital Ocean", "Mailchimp", "Asana", "Atlassian",
      "MongoDB Atlas", "Heroku", "Cloudflare", "Twilio", "SendGrid", "New Relic",
      "DataDog", "Docker"]),
    ("Retail",
     ["Shopify", "Square", "Inventory Management Software", "Point of Sale System",
      "Shopping Bags Supplier", "Store Fixtures", "Facebook Ads", "Google Ads",
      "Instagram Ads", "Packaging Suppliers", "Shopping Malls Ltd",
      "Display Fixtures Co", "Visual Merchandising Inc", "Retail Space Leasing",
      "Security Systems"]),
    ("Healthcare",
     ["Electronic Health Records", "Medical Suppliers Co", "Insurance Providers",
      "Medical Equipment Corp", "Healthcare Software Inc", "Sterilization Services",
      "Professional Medical Associations", "Pharmaceutical Distributors",
      "Lab Testing Services", "Patient Management Systems", "Medical Waste Disposal",
      "Compliance Training"]),
    ("Financial Services",
     ["Bloomberg Terminal", "Thomson Reuters", "Financial Information Exchange",
      "Trading Software", "Compliance Systems", "Risk Management Software",
      "Financial Planning Software", "Payment Processors", "Credit Bureau Services",
      "Investment Research Tools", "Anti-Money Laundering Software"]),
    ("Manufacturing",
     ["Steel Suppliers Inc", "Machinery Parts Co", "Factory Equipment Ltd",
      "Industrial Supplies", "Shipping Partners", "Packaging Solutions",
      "Maintenance Services", "Quality Control Systems", "Raw Materials Distributors",
      "Warehouse Leasing", "Forklift Rentals", "Safety Equipment"]),
    ("Consulting",
     ["American Airlines", "Delta", "Marriott", "Hilton", "Uber", "Lyft", "Coursera",
      "Udemy", "WeWork", "Professional Certifications", "LinkedIn Premium",
      "Conference Registration", "Professional Association Dues", "Client Entertainment"]),
    ("Real Estate",
     ["Property Management Software", "Listing Services", "CRM for Real Estate",
      "Professional Photography", "Virtual Tour Software", "Home Inspection Services",
      "Title Insurance", "Real Estate Marketing Services", "Landscaping Services",
      "Renovation Contractors"]),
    ("Education",
     ["Learning Management System", "Textbook Publishers", "Educational Software",
      "Library Resources", "Student Information System", "Campus Management Software",
      "Educational Assessment Tools", "Online Learning Platforms",
      "Student Recruitment Services", "Accreditation Fees"]),
    ("Hospitality",
     ["Booking Software", "Hotel Supplies", "Food Suppliers", "Beverage Distributors",
      "Linen Services", "Cleaning Services", "Reservation Systems",
      "Point of Sale for Restaurants", "Guest Amenities", "Entertainment Services"]),
    ("Media & Entertainment",
     ["Adobe Creative Cloud", "Camera Equipment", "Audio Equipment", "Editing Software",
      "Stock Media Services", "Talent Agencies", "Production Insurance",
      "Streaming Services", "Licensing Fees", "Studio Rentals"]) ]

/-- Lookup in INDUSTRY_VENDORS by industry ([] on a miss, as the source's
|| [] fallback). -/
def industryVendors (industry : String) : List String :=
  match (INDUSTRY_VENDORS.find? (fun p => p.1 == industry)).map (fun p => p.2) with
  | some l => l
  | none => []

/-- Company size catalog entry. -/
structure SizeInfo where
  minE : Nat
  maxE : Nat
  index : Nat

/-- COMPANY_SIZES from company-generator.ts, in key order. -/
def COMPANY_SIZES : List (String × SizeInfo) :=
  [ ("Startup (1-10)", ⟨1, 10, 0⟩),
    ("Small (11-50)", ⟨11, 50, 1⟩),
    ("Medium (51-200)", ⟨51, 200, 2⟩),
    ("Large (201-1000)", ⟨201, 1000, 3⟩),
    ("Enterprise (1000+)", ⟨1001, 50000, 4⟩) ]

/-- INDUSTRIES from company-generator.ts. -/
def INDUSTRIES : List String :=
  ["Technology", "Retail", "Healthcare", "Financial Services", "Manufacturing",
   "Consulting", "Real Estate", "Education", "Hospitality", "Media & Entertainment"]

/-- BUSINESS_MODELS from company-generator.ts. -/
def BUSINESS_MODELS : List String :=
  ["B2B", "B2C", "B2B2C", "D2C", "Marketplace", "SaaS", "Subscription"]

/-- JavaScript string || fallback (empty string is falsy). -/
def jsOrStr (o : Option String) (d : String) : String :=
  match o with
  | some s => if s.isEmpty then d else s
  | none => d

/-- JavaScript number || fallback (zero is falsy). -/
def jsOrQ (o : Option Q) (d : Q) : Q :=
  match o with
  | some v => if v.truthy then v else d
  | none => d

/-- Capitalize the first character (charAt(0).toUpperCase() + slice(1)). -/
def capFirst (s : String) : String :=
  match s.toList with
  | [] => ""
  | c :: cs => String.mk (c.toUpper :: cs)

/-- Absolute value of a JavaScript number. -/
def Q.abs (a : Q) : Q := ⟨|a.num|, a.den, a.dpos⟩

section Generators

variable (r : RandStream)

/-- arr[Math.floor(Math.random() * arr.length)] — one draw, then index. -/
def randPick {α : Type} (dflt : α) (l : List α) : GenM α := do
  let u ← rnd r
  pure (l.getD ((u.mul (Q.ofInt l.length)).floor.toNat) dflt)

/-- Monadic string || fallback: the fallback generator runs (and consumes
draws) only when the provided value is missing or empty. -/
def jsOrStrM (o : Option String) (m : GenM String) : GenM String :=
  match o with
  | some s => if s.isEmpty then m else pure s
  | none => m

/-- Run a generator body for indices i, i+1, ..., collecting k results. -/
def forGen {α : Type} (f : Nat → GenM α) : Nat → Nat → GenM (List α)
  | _, 0 => pure []
  | i, k + 1 => do
    let a ← f i
    let rest ← forGen f (i + 1) k
    pure (a :: rest)

/-- Name prefix pool of generateCompanyName. -/
def companyNameLeft : List String :=
  ["Tech", "Global", "Advanced", "Premier", "Elite", "Smart", "Innovative",
   "Quantum", "Stellar", "Cosmic", "Apex", "Nova", "Omni", "Peak", "Prime"]

/-- Name suffix pool of generateCompanyName. -/
def companyNameRight : List String :=
  ["Solutions", "Systems", "Technologies", "Group", "Partners", "Enterprises",
   "Industries", "Networks", "Dynamics", "Ventures", "Labs", "Hub", "AI",
   "Tech", "Connect"]

/-- generateCompanyName from company-generator.ts. -/
def generateCompanyName : GenM String := do
  let p ← randPick r "" companyNameLeft
  let s ← randPick r "" companyNameRight
  pure (p ++ s)

/-- generateRandomDate from company-generator.ts: new Date(year, month, day)
with uniform year in [startYear, endYear], month in [0, 11], day in [1, 28]. -/
def generateRandomDate (startYear endYear : Int) : GenM Int := do
  let u1 ← rnd r
  let year := startYear + (u1.mul (Q.ofInt (endYear - startYear + 1))).floor
  let u2 ← rnd r
  let month := (u2.mul (Q.ofInt 12)).floor.toNat
  let u3 ← rnd r
  let day := (u3.mul (Q.ofInt 28)).floor.toNat + 1
  pure (daysFromCivil year (month + 1) day)

/-- Industry revenue multipliers of calculateFinancialMetrics. -/
def industryMultipliers : List (String × Q) :=
  [ ("Technology", Q.dec 15 1), ("Financial Services", Q.dec 18 1),
    ("Healthcare", Q.dec 12 1), ("Retail", Q.dec 7 1),
    ("Manufacturing", Q.dec 10 1), ("Consulting", Q.dec 13 1),
    ("Real Estate", Q.dec 14 1), ("Education", Q.dec 6 1),
    ("Hospitality", Q.dec 5 1), ("Media & Entertainment", Q.dec 11 1) ]

/-- Base revenue per size tier of calculateFinancialMetrics. -/
def baseRevenues : List Int :=
  [500000, 2000000, 10000000, 50000000, 200000000]

/-- calculateFinancialMetrics from company-generator.ts: annual_revenue =
round(baseRevenue * industryMultiplier * (0.8 + random * 0.4)). -/
def calculateFinancialMetrics (profile : CompanyProfile) : GenM CompanyProfile := do
  let sizeIndex :=
    match (COMPANY_SIZES.find? (fun p => p.1 == profile.company_size)).map (fun p => p.2.index) with
    | some i => i
    | none => 0
  let baseRevenue := baseRevenues.getD sizeIndex 0
  let industryMultiplier :=
    jsOrQ ((industryMultipliers.find? (fun p => p.1 == profile.industry)).map (fun p => p.2)) (Q.ofInt 1)
  let u ← rnd r
  let randomFactor := (Q.dec 8 1).add (u.mul (Q.dec 4 1))
  let annualRevenue := (((Q.ofInt baseRevenue).mul industryMultiplier).mul randomFactor).round
  pure { profile with annual_revenue := some (Q.ofInt annualRevenue) }

/-- generateCompanyProfile from company-generator.ts: fill unset fields,
then add financial metrics. -/
def generateCompanyProfile (partialProfile : PartialCompanyProfile) : GenM CompanyProfile := do
  let industry ← jsOrStrM partialProfile.industry (randPick r "" INDUSTRIES)
  let businessModel ← jsOrStrM partialProfile.business_model (randPick r "" BUSINESS_MODELS)
  let companySize ← jsOrStrM partialProfile.company_size (randPick r "" (COMPANY_SIZES.map (fun p => p.1)))
  let companyName ← jsOrStrM partialProfile.company_name (generateCompanyName r)
  let foundingDate ←
    match partialProfile.founding_date with
    | some d => pure d
    | none => generateRandomDate r 1980 2023
  let profile : CompanyProfile :=
    { company_name := companyName
      industry := industry
      business_model := businessModel
      company_size := companySize
      founding_date := foundingDate
      location := some (jsOrStr partialProfile.location "New York, NY")
      annual_revenue := none }
  calculateFinancialMetrics r profile

/-- Character pool of generateAccountId / generateTransactionId. -/
def idChars : String :=
  "ABCDEFGHIJKLMNOPQRSTUVWXYZabcdefghijklmnopqrstuvwxyz0123456789"

/-- Build an id of k random characters from idChars. -/
def genIdAux : Nat → String → GenM String
  | 0, acc => pure acc
  | k + 1, acc => do
    let u ← rnd r
    genIdAux k (acc ++ charAtStr idChars ((u.mul (Q.ofInt 62)).floor.toNat))

/-- generateAccountId from account-generator.ts (22 random characters). -/
def generateAccountId : GenM String := genIdAux r 22 ""

/-- generateAccountMask from account-generator.ts:
Math.floor(1000 + Math.random() * 9000).toString(). -/
def generateAccountMask : GenM String := do
  let u ← rnd r
  pure (natToStr (((Q.ofInt 1000).add (u.mul (Q.ofInt 9000))).floor.toNat))

/-- Empty bank catalog entry (fallback default, never reached in practice). -/
def emptyBank : BankInfo := ⟨[], [], [], [], []⟩

/-- The BANK_OPTIONS[bankName] || BANK_OPTIONS[random key] resolution shared
by the account constructors; a draw is consumed only on a miss. -/
def resolveBank (bankName : String) : GenM BankInfo :=
  match bankLookup bankName with
  | some b => pure b
  | none => do
    let u ← rnd r
    pure ((bankLookup (bankNames.getD ((u.mul (Q.ofInt bankNames.length)).floor.toNat) "")).getD emptyBank)

/-- generateBankAccount from account-generator.ts (depository accounts). -/
def generateBankAccount (bankName : String) (accountType : String) (balance : Option Q) : GenM Account := do
  let bank ← resolveBank r bankName
  let pair ←
    if accountType == "checking" then do
      let o ← randPick r "" bank.businessChecking
      pure ("Primary Checking", o)
    else if accountType == "savings" then do
      let o ← randPick r "" bank.businessSavings
      pure ("Business Savings", o)
    else if accountType == "cd" then
      pure ("Business CD", "Business Certificate of Deposit")
    else
      pure ("Money Market", "Business Money Market Savings")
  let accountBalance ←
    match balance with
    | some b => pure b
    | none => do
      let u ← rnd r
      pure (if accountType == "checking" then (Q.ofInt 10000).add (u.mul (Q.ofInt 90000))
            else if accountType == "savings" then (Q.ofInt 20000).add (u.mul (Q.ofInt 180000))
            else if accountType == "cd" then (Q.ofInt 50000).add (u.mul (Q.ofInt 150000))
            else (Q.ofInt 30000).add (u.mul (Q.ofInt 120000)))
  let accId ← generateAccountId r
  let mask ← generateAccountMask r
  pure
    { account_id := accId
      balances :=
        { available := some accountBalance
          current := accountBalance
          iso_currency_code := "USD"
          limit := none
          unofficial_currency_code := none }
      mask := mask
      name := pair.1
      official_name := pair.2
      subtype := accountType
      type := AccountType.depository }

/-- generateCreditCard from account-generator.ts; creditLimit uses the
JavaScript || fallback (a zero limit triggers the random default). -/
def generateCreditCard (bankName : String) (creditLimit currentBalance : Option Q) : GenM Account := do
  let bank ← resolveBank r bankName
  let cardProduct ← randPick r "" bank.creditCards
  let limit ←
    match creditLimit with
    | some l =>
      if l.truthy then pure l
      else do
        let u ← rnd r
        pure (Q.ofInt (((Q.ofInt 10000).add (u.mul (Q.ofInt 90000))).floor))
    | none => do
      let u ← rnd r
      pure (Q.ofInt (((Q.ofInt 10000).add (u.mul (Q.ofInt 90000))).floor))
  let balance ←
    match currentBalance with
    | some b => pure b
    | none => do
      let u ← rnd r
      pure (Q.ofInt (-((((Q.dec 2 1).add (u.mul (Q.dec 5 1))).mul limit).floor)))
  let accId ← generateAccountId r
  let mask ← generateAccountMask r
  pure
    { account_id := accId
      balances :=
        { available := some (limit.add balance)
          current := balance
          iso_currency_code := "USD"
          limit := some limit
          unofficial_currency_code := none }
      mask := mask
      name := "Business " ++ cardProduct
      official_name := bankName ++ " " ++ cardProduct ++ " Credit Card"
      subtype := "credit card"
      type := AccountType.credit }

/-- generateInvestmentAccount from account-generator.ts. -/
def generateInvestmentAccount (_bankName : String) (investmentType : String) (balance : Option Q) : GenM Account := do
  let accountBalance ←
    match balance with
    | some b => pure b
    | none => do
      let u ← rnd r
      pure (if investmentType == "brokerage" then (Q.ofInt 50000).add (u.mul (Q.ofInt 450000))
            else if investmentType == "401k" then (Q.ofInt 100000).add (u.mul (Q.ofInt 900000))
            else if investmentType == "ira" then (Q.ofInt 50000).add (u.mul (Q.ofInt 450000))
            else if investmentType == "roth" then (Q.ofInt 30000).add (u.mul (Q.ofInt 270000))
            else (Q.ofInt 100000).add (u.mul (Q.ofInt 400000)))
  let accId ← generateAccountId r
  let mask ← generateAccountMask r
  pure
    { account_id := accId
      balances :=
        { available := none
          current := accountBalance
          iso_currency_code := "USD"
          limit := none
          unofficial_currency_code := none }
      mask := mask
      name := investmentType.toUpper
      official_name := "Business " ++ investmentType.toUpper ++ " Investment Account"
      subtype := investmentType
      type := AccountType.investment }

/-- generateLoanAccount from account-generator.ts.  A "line of credit" is
typed "credit" with limit |balance|; the other loan kinds are typed "loan"
with null limit and availability. -/
def generateLoanAccount (bankName : String) (loanType : String) (balance : Option Q) : GenM Account := do
  let _bank ← resolveBank r bankName
  let loanBalance ←
    match balance with
    | some b => pure b
    | none => do
      let u ← rnd r
      pure (if loanType == "line of credit" then Q.ofInt (-(((Q.ofInt 50000).add (u.mul (Q.ofInt 200000))).floor))
            else if loanType == "commercial" then Q.ofInt (-(((Q.ofInt 200000).add (u.mul (Q.ofInt 800000))).floor))
            else if loanType == "construction" then Q.ofInt (-(((Q.ofInt 300000).add (u.mul (Q.ofInt 1200000))).floor))
            else if loanType == "mortgage" then Q.ofInt (-(((Q.ofInt 500000).add (u.mul (Q.ofInt 2000000))).floor))
            else Q.ofInt (-(((Q.ofInt 100000).add (u.mul (Q.ofInt 400000))).floor)))
  let limit : Option Q := if loanType == "line of credit" then some loanBalance.abs else none
  let accId ← generateAccountId r
  let mask ← generateAccountMask r
  pure
    { account_id := accId
      balances :=
        { available := if loanType == "line of credit" then some (loanBalance.abs.add loanBalance) else none
          current := loanBalance
          iso_currency_code := "USD"
          limit := limit
          unofficial_currency_code := none }
      mask := mask
      name := capFirst loanType
      official_name := "Business " ++ capFirst loanType
      subtype := loanType
      type := if loanType == "line of credit" then AccountType.credit else AccountType.loan }

/-- Account-count table row of generateAccountSet. -/
structure AccountDist where
  total : Nat
  checking : Nat
  savings : Nat
  credit : Nat
  investment : Nat
  loan : Nat

/-- sizeToAccountCount from generateAccountSet. -/
def sizeToAccountCount : List (String × AccountDist) :=
  [ ("Startup (1-10)", ⟨3, 1, 1, 1, 0, 0⟩),
    ("Small (11-50)", ⟨5, 1, 1, 2, 1, 0⟩),
    ("Medium (51-200)", ⟨7, 2, 1, 2, 1, 1⟩),
    ("Large (201-1000)", ⟨10, 2, 2, 3, 2, 1⟩),
    ("Enterprise (1000+)", ⟨15, 3, 2, 4, 3, 3⟩) ]

/-- Investment subtype rotation of generateAccountSet. -/
def investmentTypes : List String := ["brokerage", "401k", "ira", "roth"]

/-- Loan subtype rotation of generateAccountSet. -/
def loanTypes : List String := ["line of credit", "commercial", "construction", "mortgage"]

/-- Account distribution by size with the "Small (11-50)" fallback of
generateAccountSet. -/
def accountDistFor (companySize : String) : AccountDist :=
  match (sizeToAccountCount.find? (fun p => p.1 == companySize)).map (fun p => p.2) with
  | some d => d
  | none => ⟨5, 1, 1, 2, 1, 0⟩

/-- Checking-account loop body of generateAccountSet. -/
def checkingLoopBody (primaryBank : String) (annualRevenue : Q) : Nat → GenM Account := fun i => do
  let u ← rnd r
  let balance :=
    if i == 0 then Q.ofInt ((annualRevenue.mul (Q.dec 8 2) |>.mul ((Q.dec 7 1).add (u.mul (Q.dec 6 1)))).floor)
    else Q.ofInt ((annualRevenue.mul (Q.dec 3 2) |>.mul ((Q.dec 7 1).add (u.mul (Q.dec 6 1)))).floor)
  generateBankAccount r primaryBank "checking" (some balance)

/-- Savings-account loop body of generateAccountSet. -/
def savingsLoopBody (primaryBank : String) (annualRevenue : Q) : Nat → GenM Account := fun _ => do
  let u ← rnd r
  let balance := Q.ofInt ((annualRevenue.mul (Q.dec 15 2) |>.mul ((Q.dec 7 1).add (u.mul (Q.dec 6 1)))).floor)
  generateBankAccount r primaryBank "savings" (some balance)

/-- Credit-card loop body of generateAccountSet. -/
def creditLoopBody (primaryBank : String) (annualRevenue : Q) : Nat → GenM Account := fun i => do
  let limit :=
    if i == 0 then Q.ofInt ((annualRevenue.mul (Q.dec 5 2)).floor)
    else Q.ofInt ((annualRevenue.mul (Q.dec 2 2)).floor)
  let u ← rnd r
  let balance := Q.ofInt (-((limit.mul ((Q.dec 3 1).add (u.mul (Q.dec 4 1)))).floor))
  let cardBank ← if i == 0 then pure primaryBank else randPick r "" bankNames
  generateCreditCard r cardBank (some limit) (some balance)

/-- Investment-account loop body of generateAccountSet. -/
def investmentLoopBody (primaryBank : String) (annualRevenue : Q) : Nat → GenM Account := fun i => do
  let investmentType := investmentTypes.getD (i % investmentTypes.length) ""
  let u ← rnd r
  let balance := Q.ofInt ((annualRevenue.mul ((Q.dec 5 1).add (u.mul (Q.ofInt 1)))).floor)
  generateInvestmentAccount r primaryBank investmentType (some balance)

/-- Loan-account loop body of generateAccountSet. -/
def loanLoopBody (primaryBank : String) (annualRevenue : Q) : Nat → GenM Account := fun i => do
  let loanType := loanTypes.getD (i % loanTypes.length) ""
  let u ← rnd r
  let balance :=
    if loanType == "line of credit" then Q.ofInt (-((annualRevenue.mul ((Q.dec 1 1).add (u.mul (Q.dec 3 1)))).floor))
    else if loanType == "commercial" then Q.ofInt (-((annualRevenue.mul ((Q.dec 5 1).add (u.mul (Q.ofInt 1)))).floor))
    else if loanType == "construction" then Q.ofInt (-((annualRevenue.mul ((Q.dec 3 1).add (u.mul (Q.dec 7 1)))).floor))
    else Q.ofInt (-((annualRevenue.mul ((Q.ofInt 1).add (u.mul (Q.ofInt 2)))).floor))
  generateLoanAccount r primaryBank loanType (some balance)

/-- generateAccountSet from account-generator.ts. -/
def generateAccountSet (profile : CompanyProfile) : GenM (List Account) := do
  let accountDistribution := accountDistFor profile.company_size
  let annualRevenue := jsOrQ profile.annual_revenue (Q.ofInt 1000000)
  let primaryBank ← randPick r "" bankNames
  let checkings ← forGen (checkingLoopBody r primaryBank annualRevenue) 0 accountDistribution.checking
  let savingsAccounts ← forGen (savingsLoopBody r primaryBank annualRevenue) 0 accountDistribution.savings
  let creditCards ← forGen (creditLoopBody r primaryBank annualRevenue) 0 accountDistribution.credit
  let investments ← forGen (investmentLoopBody r primaryBank annualRevenue) 0 accountDistribution.investment
  let loans ← forGen (loanLoopBody r primaryBank annualRevenue) 0 accountDistribution.loan
  pure (checkings ++ savingsAccounts ++ creditCards ++ investments ++ loans)

/-- Uppercase a string (String.prototype.toUpperCase, ASCII range). -/
def jsUpper (s : String) : String := String.mk (s.toList.map Char.toUpper)

/-- Neutral location record (defaults for out-of-range indexing, which a
valid draw stream never reaches). -/
def defaultLocation : TransactionLocation :=
  ⟨none, none, none, none, none, none, none, none⟩

/-- Neutral payment metadata record. -/
def defaultMeta : PaymentMeta := ⟨none, none, none, none, none, none, none, none⟩

/-- Neutral transaction record (default for out-of-range indexing). -/
def defaultTransaction : Transaction :=
  ⟨"", "", Q.ofInt 0, "", none, [], "", false, none, "", "", "", "", none,
   defaultLocation, defaultMeta, none, none⟩

/-- Neutral account record (default for out-of-range indexing). -/
def defaultAccount : Account :=
  ⟨"", ⟨none, Q.ofInt 0, "", none, none⟩, "", "", "", "", AccountType.other⟩

/-- generateTransactionId from transaction-generator.ts (22 random
characters from the shared pool). -/
def generateTransactionId : GenM String := genIdAux r 22 ""

/-- generateDateInRange from transaction-generator.ts: one uniform draw of
daysAgo in [endDaysAgo, startDaysAgo), subtracted from today. -/
def generateDateInRange (today : Int) (startDaysAgo endDaysAgo : Int) : GenM Int := do
  let u ← rnd r
  let daysAgo := endDaysAgo + (u.mul (Q.ofInt (startDaysAgo - endDaysAgo))).floor
  pure (today - daysAgo)

/-- City pool of generateLocation. -/
def locCities : List String :=
  ["New York", "Los Angeles", "Chicago", "Houston", "Phoenix",
   "Philadelphia", "San Antonio", "San Diego", "Dallas", "San Jose"]

/-- Region pool of generateLocation. -/
def locRegions : List String :=
  ["NY", "CA", "IL", "TX", "AZ", "PA", "TX", "CA", "TX", "CA"]

/-- Postal-code pool of generateLocation. -/
def locPostal : List String :=
  ["10001", "90001", "60007", "77001", "85001", "19019", "78201", "92101", "75201", "95101"]

/-- Street pool of generateLocation. -/
def locStreets : List String :=
  ["Main St", "Broadway", "Market St", "Oak Ave", "Maple Dr"]

/-- generateLocation from transaction-generator.ts. -/
def generateLocation (merchant : String) : GenM TransactionLocation := do
  let ui ← rnd r
  let randomIndex := (ui.mul (Q.ofInt locCities.length)).floor.toNat
  if sIncludes merchant "AWS" || sIncludes merchant "Azure" || sIncludes merchant "Cloud" ||
     sIncludes merchant "Software" || sIncludes merchant "Digital" ||
     sIncludes merchant "Subscription" || sIncludes merchant "Online" then
    pure ⟨none, none, none, none, some "US", none, none, none⟩
  else if merchant == "Walmart" || merchant == "Target" || merchant == "Costco" then do
    let ua ← rnd r
    let address := natToStr (((Q.ofInt 1000).add (ua.mul (Q.ofInt 9000))).floor.toNat) ++ " Commercial Dr"
    let ulat ← rnd r
    let ulon ← rnd r
    let ust ← rnd r
    pure ⟨some address, some (locCities.getD randomIndex ""), some (locRegions.getD randomIndex ""),
          some (locPostal.getD randomIndex ""), some "US",
          some ((Q.ofInt 30).add (ulat.mul (Q.ofInt 15))),
          some ((Q.ofInt (-120)).add (ulon.mul (Q.ofInt 40))),
          some (natToStr (((Q.ofInt 100).add (ust.mul (Q.ofInt 900))).floor.toNat))⟩
  else do
    let ua ← rnd r
    let us ← rnd r
    let address := natToStr (((Q.ofInt 100).add (ua.mul (Q.ofInt 9900))).floor.toNat) ++ " " ++
      locStreets.getD ((us.mul (Q.ofInt 5)).floor.toNat) ""
    let ulat ← rnd r
    let ulon ← rnd r
    let uc ← rnd r
    let storeNumber ←
      if uc.ltB (Q.dec 3 1) then do
        let un ← rnd r
        pure (some (natToStr (((Q.ofInt 10).add (un.mul (Q.ofInt 990))).floor.toNat)))
      else pure none
    pure ⟨some address, some (locCities.getD randomIndex ""), some (locRegions.getD randomIndex ""),
          some (locPostal.getD randomIndex ""), some "US",
          some ((Q.ofInt 30).add (ulat.mul (Q.ofInt 15))),
          some ((Q.ofInt (-120)).add (ulon.mul (Q.ofInt 40))),
          storeNumber⟩

/-- generatePaymentMeta from transaction-generator.ts. -/
def generatePaymentMeta (type : String) : GenM PaymentMeta := do
  if type == "ACH" || type == "Transfer" then do
    let uref ← rnd r
    let refNum := "REF" ++ natToStr (((Q.ofInt 10000000).add (uref.mul (Q.ofInt 90000000))).floor.toNat)
    let proc ← randPick r "" ["ACH Network", "Stripe ACH", "Plaid Transfer"]
    let reason ← randPick r "" ["Payment", "Transfer", "Deposit", "Withdrawal"]
    let achClass ← randPick r "" ["CCD", "PPD", "WEB", "IAT"]
    pure ⟨some refNum, some "ACH", some proc, some reason, none, none, none, some achClass⟩
  else if type == "Check" then do
    let un ← rnd r
    pure ⟨none, some "Check", none, none, none, none,
          some (natToStr (((Q.ofInt 1000).add (un.mul (Q.ofInt 9000))).floor.toNat)), none⟩
  else if type == "Credit Card" then do
    let uref ← rnd r
    let refNum := "REF" ++ natToStr (((Q.ofInt 10000000).add (uref.mul (Q.ofInt 90000000))).floor.toNat)
    let proc ← randPick r "" ["Visa", "Mastercard", "Amex", "Discover"]
    pure ⟨some refNum, some "Credit Card", some proc, none, none, none, none, none⟩
  else if type == "Wire" then do
    let uref ← rnd r
    let refNum := "WIRE" ++ natToStr (((Q.ofInt 100000).add (uref.mul (Q.ofInt 900000))).floor.toNat)
    let proc ← randPick r "" ["Fedwire", "SWIFT", "CHIPS", "SEPA"]
    let reason ← randPick r "" ["Payment", "Transfer", "Deposit", "Settlement"]
    pure ⟨some refNum, some "Wire", some proc, some reason, none, none, none, none⟩
  else
    pure defaultMeta

/-- getRealisticMerchant from transaction-generator.ts. -/
def getRealisticMerchant (industry : String) : GenM String :=
  randPick r "" (industryVendors industry ++ COMMON_VENDORS)

/-- Location pool of createMerchantDescription. -/
def descLocations : List String :=
  ["NY", "CA", "TX", "IL", "FL", "WA", "MA", "CO", "GA", "OR"]

/-- First word of a merchant name (split(" ")[0]). -/
def firstWord (s : String) : String := (splitOnChar (Char.ofNat 32) s).getD 0 ""

/-- Abbreviate each word to its first one or two letters (one draw per word). -/
def abbrevWords : List String → String → GenM String
  | [], acc => pure acc
  | w :: ws, acc => do
    let u ← rnd r
    abbrevWords ws (acc ++ jsUpper (substrTo w (if u.ltB (Q.dec 5 1) then 1 else 2)))

/-- createMerchantDescription from transaction-generator.ts. -/
def createMerchantDescription (merchantName : String) (date : Int) : GenM String := do
  let location ← randPick r "" descLocations
  if sIncludes merchantName "AWS" || sIncludes merchantName "Amazon" then do
    let u ← rnd r
    pure ("AMZN*" ++ (if u.ltB (Q.dec 5 1) then "AWS" else "SERVICES") ++ " " ++ location)
  else if sIncludes merchantName "Microsoft" then
    pure ("MSFT*" ++ (if sIncludes merchantName "Azure" then "AZURE" else "M365") ++ " " ++ location)
  else if sIncludes merchantName "Google" then
    pure ("GOOGLE*" ++ (if sIncludes merchantName "Cloud" then "CLOUD" else "GSUITE"))
  else if sIncludes merchantName "Adobe" then pure "ADOBE*CREATIVE CLD"
  else if sIncludes merchantName "Slack" then pure "SLACK.COM"
  else if sIncludes merchantName "GitHub" then pure "GITHUB.COM"
  else if sIncludes merchantName "Heroku" then pure "HEROKU.COM"
  else if sIncludes merchantName "Shopify" then pure "SHOPIFY*MONTHLY"
  else if sIncludes merchantName "Square" then pure "SQ*SQUARE"
  else if sIncludes merchantName "UPS" then pure "UPS*SHIPPING"
  else if sIncludes merchantName "FedEx" then pure "FEDEX*SHIPPING"
  else if sIncludes merchantName "Zoom" then pure "ZOOM.US"
  else if sIncludes merchantName "LinkedIn" then pure "LINKEDIN*PREMIUM"
  else if sIncludes merchantName "Uber" || sIncludes merchantName "Lyft" then
    pure (jsUpper merchantName ++ "*RIDE " ++ pad2 (getDateJS date) ++ pad2 (getMonthJS date + 1))
  else if sIncludes merchantName "Marriott" || sIncludes merchantName "Hilton" then
    pure (jsUpper (firstWord merchantName) ++ " HOTELS")
  else if sIncludes merchantName "Airlines" then
    pure (jsUpper (firstWord merchantName) ++ " AIR")
  else if sIncludes merchantName "Insurance" then
    pure (jsUpper (firstWord merchantName) ++ " INS")
  else if sIncludes merchantName "Electric" || sIncludes merchantName "Utility" then
    pure (location ++ " POWER & LIGHT")
  else if sIncludes merchantName "Water" then pure (location ++ " WATER UTIL")
  else if sIncludes merchantName "Rent" then pure ("COMMERCIAL RENT " ++ location)
  else if sIncludes merchantName "Janitorial" then pure "CLEAN SVCS INC"
  else if sIncludes merchantName "Coffee" then pure "OFFICE COFFEE SVC"
  else if sIncludes merchantName "Snacks" then pure "SNACK DELIVERY SVC"
  else if sIncludes merchantName "Legal" then pure "LEGAL COUNSEL LLC"
  else if sIncludes merchantName "Accounting" then pure "ACCT SERVICES INC"
  else do
    let words := splitOnChar (Char.ofNat 32) merchantName
    let code ←
      if words.length == 1 then pure (jsUpper (substrTo merchantName 5))
      else abbrevWords r words ""
    let u1 ← rnd r
    let code := if u1.ltB (Q.dec 8 1) then code ++ " " ++ location else code
    let u2 ← rnd r
    let code ←
      if u2.ltB (Q.dec 4 1) then do
        let un ← rnd r
        pure (code ++ " REF#" ++ natToStr (((Q.ofInt 10000).add (un.mul (Q.ofInt 90000))).floor.toNat))
      else pure code
    let u3 ← rnd r
    let code :=
      if u3.ltB (Q.dec 3 1) then
        code ++ " " ++ pad2 (getMonthJS date + 1) ++ "/" ++ pad2 (getDateJS date)
      else code
    pure code

/-- determineCategories from transaction-generator.ts: a pure substring
classification of the merchant name into (category list, category id). -/
def determineCategories (merchantName : String) : List String × String :=
  if sIncludes merchantName "AWS" || sIncludes merchantName "Azure" ||
     sIncludes merchantName "Google Cloud" || sIncludes merchantName "Heroku" ||
     sIncludes merchantName "GitHub" || sIncludes merchantName "Slack" then
    (["Technology", "Software", "Cloud Services"], "10000000")
  else if sIncludes merchantName "Microsoft 365" || sIncludes merchantName "Google Workspace" ||
          sIncludes merchantName "Zoom" || sIncludes merchantName "Adobe" then
    (["Technology", "Software", "Productivity"], "10100000")
  else if sIncludes merchantName "Facebook Ads" || sIncludes merchantName "Google Ads" ||
          sIncludes merchantName "Instagram Ads" || sIncludes merchantName "LinkedIn" then
    (["Business Services", "Advertising", "Digital Marketing"], "13000000")
  else if sIncludes merchantName "Staples" || sIncludes merchantName "Office Depot" ||
          sIncludes merchantName "Amazon Business" then
    (["Shops", "Office Supplies"], "19043000")
  else if sIncludes merchantName "UPS" || sIncludes merchantName "FedEx" ||
          sIncludes merchantName "USPS" then
    (["Business Services", "Shipping", "Courier"], "13004000")
  else if sIncludes merchantName "Electric" || sIncludes merchantName "Water" ||
          sIncludes merchantName "Gas" then
    (["Service", "Utilities"], "18000000")
  else if sIncludes merchantName "Verizon" || sIncludes merchantName "AT&T" ||
          sIncludes merchantName "Comcast" || sIncludes merchantName "Internet" then
    (["Service", "Telecommunications"], "18009000")
  else if sIncludes merchantName "Rent" || sIncludes merchantName "Lease" ||
          sIncludes merchantName "Facilities" then
    (["Business Services", "Real Estate"], "13011000")
  else if sIncludes merchantName "Legal" || sIncludes merchantName "Accounting" ||
          sIncludes merchantName "Consulting" then
    (["Business Services", "Professional Services"], "13005000")
  else if sIncludes merchantName "Insurance" then
    (["Business Services", "Insurance"], "13001000")
  else if sIncludes merchantName "Airlines" || sIncludes merchantName "Hotel" ||
          sIncludes merchantName "Air" || sIncludes merchantName "Uber" ||
          sIncludes merchantName "Lyft" then
    (["Travel", "Business Travel"], "22001000")
  else
    (["Business Services", "Other"], "13000000")

/-- The hasAuthDate draw of generateBaseTransaction: when pending no draw
happens and the result is false, otherwise true with probability 0.7. -/
def baseHasAuth (pending : Bool) : GenM Bool :=
  if pending then pure false
  else do
    let u ← rnd r
    pure (u.ltB (Q.dec 7 1))

/-- The authorization-date computation of generateBaseTransaction: date
minus Math.floor(1 + Math.random() * 2) when an authorization date is
drawn. -/
def baseAuthDate (date : Int) (hasAuthDate : Bool) : GenM (Option Int) :=
  if hasAuthDate then do
    let u ← rnd r
    pure (some (date - ((Q.ofInt 1).add (u.mul (Q.ofInt 2))).floor))
  else pure none

/-- The payment-type selection of generateBaseTransaction. -/
def basePaymentType (account : Account) : GenM String :=
  match account.type with
  | AccountType.credit => pure "Credit Card"
  | _ => do
    let u1 ← rnd r
    if u1.ltB (Q.dec 7 1) then pure "ACH"
    else do
      let u2 ← rnd r
      pure (if u2.ltB (Q.dec 5 1) then "Wire" else "Check")

/-- generateBaseTransaction from transaction-generator.ts.  When pending,
no authorization draw happens and authorized_date is null; otherwise with
probability 0.7 the authorized date is the date minus one or two days. -/
def generateBaseTransaction (account : Account) (merchantName : String) (amount : Q) (date : Int) (pending : Bool) : GenM Transaction := do
  let merchantDescription ← createMerchantDescription r merchantName date
  let cats := determineCategories merchantName
  let hasAuthDate ← baseHasAuth r pending
  let authDate ← baseAuthDate r date hasAuthDate
  let paymentType ← basePaymentType r account
  let txId ← generateTransactionId r
  let loc ← generateLocation r merchantName
  let meta ← generatePaymentMeta r paymentType
  pure
    { transaction_id := txId
      account_id := account.account_id
      amount := amount
      iso_currency_code := "USD"
      unofficial_currency_code := none
      category := cats.1
      category_id := cats.2
      pending := pending
      pending_transaction_id := none
      original_description := merchantName
      merchant_name := merchantName
      name := merchantDescription
      date := formatPlaidDate date
      authorized_date := authDate.map formatPlaidDate
      location := loc
      payment_meta := meta
      account_owner := none
      transaction_code := none }

/-- Size-tier index used inside the transaction generator
({...}[profile.company_size] || 0). -/
def txSizeIndex (companySize : String) : Nat :=
  if companySize == "Startup (1-10)" then 0
  else if companySize == "Small (11-50)" then 1
  else if companySize == "Medium (51-200)" then 2
  else if companySize == "Large (201-1000)" then 3
  else if companySize == "Enterprise (1000+)" then 4
  else 0

/-- Deposit amount bands by size tier. -/
def depositSizes : List (Int × Int) :=
  [(500, 5000), (1000, 20000), (5000, 50000), (10000, 200000), (50000, 500000)]

/-- Deposit source pool of generateDepositTransaction. -/
def depositSources : List String :=
  ["Customer Payment", "Client Deposit", "Invoice Payment", "Wire Transfer",
   "ACH Deposit", "Check Deposit", "Square Transfer", "Stripe Payout",
   "PayPal Transfer", "Refund", "Interest Payment"]

/-- generateDepositTransaction from transaction-generator.ts; throws on a
non-depository account. -/
def generateDepositTransaction (now : Q) (account : Account) (profile : CompanyProfile) (date : Option Int) : GenM (Except String Transaction) := do
  match account.type with
  | AccountType.depository => do
    let sizeIndex := txSizeIndex profile.company_size
    let band := depositSizes.getD sizeIndex (0, 0)
    let u ← rnd r
    let amount := (Q.ofInt band.1).add (u.mul (Q.ofInt (band.2 - band.1)))
    let transactionDate ←
      match date with
      | some d => pure d
      | none => generateDateInRange r now.floor 730 0
    let merchantName ← randPick r "" depositSources
    let t ← generateBaseTransaction r account merchantName amount transactionDate false
    pure (Except.ok t)
  | _ => pure (Except.error "Deposits should only be generated for depository accounts")

/-- Payment amount bands by size tier. -/
def paymentSizes : List (Int × Int) :=
  [(50, 2000), (100, 5000), (500, 20000), (1000, 50000), (5000, 100000)]

/-- generatePaymentTransaction from transaction-generator.ts.  The pending
flag is drawn with probability 0.05. -/
def generatePaymentTransaction (now : Q) (account : Account) (profile : CompanyProfile) (date : Option Int) : GenM Transaction := do
  let merchantName ← getRealisticMerchant r profile.industry
  let sizeIndex := txSizeIndex profile.company_size
  let band := paymentSizes.getD sizeIndex (0, 0)
  let minPayment := Q.ofInt band.1
  let maxPayment := Q.ofInt band.2
  let u ← rnd r
  let amount :=
    if sIncludes merchantName "Rent" || sIncludes merchantName "Lease" then
      ((minPayment.mul (Q.ofInt 3)).add (u.mul ((maxPayment.mul (Q.ofInt 2)).sub (minPayment.mul (Q.ofInt 3))))).neg
    else if sIncludes merchantName "AWS" || sIncludes merchantName "Azure" ||
            sIncludes merchantName "Google Cloud" then
      ((minPayment.mul (Q.dec 15 1)).add (u.mul (maxPayment.sub (minPayment.mul (Q.dec 15 1))))).neg
    else if sIncludes merchantName "Insurance" || sIncludes merchantName "Health" then
      ((minPayment.mul (Q.ofInt 2)).add (u.mul (maxPayment.sub (minPayment.mul (Q.ofInt 2))))).neg
    else
      (minPayment.add (u.mul (maxPayment.sub minPayment))).neg
  let transactionDate ←
    match date with
    | some d => pure d
    | none => generateDateInRange r now.floor 730 0
  let up ← rnd r
  let isPending := up.ltB (Q.dec 5 2)
  generateBaseTransaction r account merchantName amount transactionDate isPending

/-- Run the deposit loop, propagating the (unreachable) deposit throw. -/
def forGenE {α : Type} (f : Nat → GenM (Except String α)) : Nat → Nat → GenM (Except String (List α))
  | _, 0 => pure (Except.ok [])
  | i, k + 1 => do
    let a ← f i
    match a with
    | Except.error e => pure (Except.error e)
    | Except.ok x => do
      let rest ← forGenE f (i + 1) k
      match rest with
      | Except.error e => pure (Except.error e)
      | Except.ok xs => pure (Except.ok (x :: xs))

/-- Comparator of the added.sort call: newest date first. -/
def txDateLe (a b : Transaction) : Bool :=
  decide (parsePlaidDate b.date ≤ parsePlaidDate a.date)

/-- One step of the modified-transactions loop: take a shallow copy of a
random added transaction and perturb exactly one of amount, pending or
category. -/
def modifyStep (added : List Transaction) : GenM Transaction := do
  let u ← rnd r
  let transactionToModify := added.getD ((u.mul (Q.ofInt added.length)).floor.toNat) defaultTransaction
  let um ← rnd r
  let modType := (um.mul (Q.ofInt 3)).floor.toNat
  if modType == 0 then do
    let ua ← rnd r
    pure { transactionToModify with
           amount := transactionToModify.amount.mul ((Q.dec 95 2).add (ua.mul (Q.dec 1 1))) }
  else if modType == 1 then
    pure { transactionToModify with pending := !transactionToModify.pending }
  else
    let cats := determineCategories transactionToModify.merchant_name
    pure { transactionToModify with category := cats.1, category_id := cats.2 }

/-- The modified-transactions loop (runs while i < count and i < length). -/
def modifiedLoop (added : List Transaction) : Nat → GenM (List Transaction)
  | 0 => pure []
  | k + 1 =>
    if added.length == 0 then pure []
    else do
      let t ← modifyStep r added
      let rest ← modifiedLoop added k
      pure (t :: rest)

/-- One step of the removed-transactions loop. -/
def removeStep (added : List Transaction) : GenM RemovedTransaction := do
  let u ← rnd r
  let transactionToRemove := added.getD ((u.mul (Q.ofInt added.length)).floor.toNat) defaultTransaction
  pure ⟨transactionToRemove.transaction_id, transactionToRemove.account_id⟩

/-- The removed-transactions loop (runs while i < count and i < length). -/
def removedLoop (added : List Transaction) : Nat → GenM (List RemovedTransaction)
  | 0 => pure []
  | k + 1 =>
    if added.length == 0 then pure []
    else do
      let t ← removeStep r added
      let rest ← removedLoop added k
      pure (t :: rest)

/-- Result triple of generateTransactionSet. -/
structure TxTriple where
  added : List Transaction
  modified : List Transaction
  removed : List RemovedTransaction

/-- Base transaction counts by size tier. -/
def baseCounts : List Nat := [50, 150, 400, 800, 1500]

/-- Depository filter of generateTransactionSet. -/
def isDepository (a : Account) : Bool :=
  match a.type with
  | AccountType.depository => true
  | _ => false

/-- Payment-eligible filter of generateTransactionSet (depository or credit). -/
def isPaymentEligible (a : Account) : Bool :=
  match a.type with
  | AccountType.depository => true
  | AccountType.credit => true
  | _ => false

/-- The explicit-count || tier-default resolution of generateTransactionSet
(JavaScript ||, so an explicit zero falls back to the tier default). -/
def countOr (o : Option Nat) (d : Nat) : Nat :=
  match o with
  | some n => if n == 0 then d else n
  | none => d

/-- One iteration of the deposit loop of generateTransactionSet. -/
def depositLoopBody (now : Q) (depositoryAccounts : List Account) (profile : CompanyProfile)
    (startArg endArg : Int) : Nat → GenM (Except String Transaction) := fun _ => do
  let account ← randPick r defaultAccount depositoryAccounts
  let date ← generateDateInRange r now.floor startArg endArg
  generateDepositTransaction r now account profile (some date)

/-- One iteration of the payment loop of generateTransactionSet. -/
def paymentLoopBody (now : Q) (paymentAccounts : List Account) (profile : CompanyProfile)
    (startArg endArg : Int) : Nat → GenM Transaction := fun _ => do
  let account ← randPick r defaultAccount paymentAccounts
  let date ← generateDateInRange r now.floor startArg endArg
  generatePaymentTransaction r now account profile (some date)

/-- The continuation of generateTransactionSet after the deposit loop: the
payment loop, the sort, and the modified/removed derivations (or the
propagated deposit throw). -/
def txSetAfterDeposits (now : Q) (paymentAccounts : List Account) (profile : CompanyProfile)
    (options : TransactionSetOptions) (baseCount depositCount : Nat) (startArg endArg : Int)
    (depositsE : Except String (List Transaction)) : GenM (Except String TxTriple) :=
  match depositsE with
  | Except.error e => pure (Except.error e)
  | Except.ok deposits => do
    let paymentCount : Nat := baseCount - depositCount
    let payments ← forGen (paymentLoopBody r now paymentAccounts profile startArg endArg) 0 paymentCount
    let added := (deposits ++ payments).mergeSort txDateLe
    let modifiedCount := countOr options.modifiedCount (((Q.ofInt baseCount).mul (Q.dec 5 2)).floor.toNat)
    let modified ← modifiedLoop r added modifiedCount
    let removedCount := countOr options.removedCount (((Q.ofInt baseCount).mul (Q.dec 2 2)).floor.toNat)
    let removed ← removedLoop r added removedCount
    pure (Except.ok ⟨added, modified, removed⟩)

/-- The main path of generateTransactionSet, after the account partition has
been checked non-empty. -/
def txSetCore (now : Q) (depositoryAccounts paymentAccounts : List Account)
    (profile : CompanyProfile) (options : TransactionSetOptions) (baseCount : Nat)
    (startArg endArg : Int) : GenM (Except String TxTriple) := do
  let ud ← rnd r
  let depositCount := ((Q.ofInt baseCount).mul ((Q.dec 2 1).add (ud.mul (Q.dec 1 1)))).floor.toNat
  let depositsE ← forGenE (depositLoopBody r now depositoryAccounts profile startArg endArg) 0 depositCount
  txSetAfterDeposits r now paymentAccounts profile options baseCount depositCount startArg endArg depositsE

/-- generateTransactionSet from transaction-generator.ts. -/
def generateTransactionSet (now : Q) (accounts : List Account) (profile : CompanyProfile) (options : TransactionSetOptions) : GenM (Except String TxTriple) := do
  let sizeIndex := txSizeIndex profile.company_size
  let baseCount : Nat := countOr options.addedCount (baseCounts.getD sizeIndex 0)
  let depositoryAccounts := accounts.filter isDepository
  let paymentAccounts := accounts.filter isPaymentEligible
  if depositoryAccounts.length == 0 || paymentAccounts.length == 0 then
    pure (Except.ok ⟨[], [], []⟩)
  else
    let startArg :=
      match options.startDate with
      | some sd => (now.sub (Q.ofInt sd)).floor
      | none => 730
    let endArg :=
      match options.endDate with
      | some ed => (now.sub (Q.ofInt ed)).floor
      | none => 0
    txSetCore r now depositoryAccounts paymentAccounts profile options baseCount startArg endArg

/-- generateRequestId from main-generator.ts:
"req_" plus Math.random().toString(36).substring(2, 15). -/
def generateRequestId : GenM String := do
  let u ← rnd r
  pure ("req_" ++ String.mk (b36Frac 13 u))

/-- The required-field presence test of generateFinancialData (JavaScript
falsiness: missing or empty strings fail). -/
def missingRequiredField (companyData : PartialCompanyProfile) : Bool :=
  jsOrStr companyData.company_name "" == "" || jsOrStr companyData.industry "" == "" ||
  jsOrStr companyData.business_model "" == "" || jsOrStr companyData.company_size "" == ""

/-- The account filter of generateFinancialData driven by the include_*
toggles. -/
def accountKeep (options : DataGenerationOptions) (account : Account) : Bool :=
  if !options.include_deposits && account.type == AccountType.depository then false
  else if !options.include_payments && account.type == AccountType.credit then false
  else if !options.include_investments && account.type == AccountType.investment then false
  else if !options.include_loans && account.type == AccountType.loan then false
  else true

/-- generateFinancialData from main-generator.ts. -/
def generateFinancialData (companyData : PartialCompanyProfile) (options : DataGenerationOptions) (now : Q) : GenM (Except String PlaidTransactionsResponse) := do
  if missingRequiredField companyData then
    pure (Except.error "Missing required company profile data")
  else do
    let companyProfile ← generateCompanyProfile r companyData
    let accounts ← generateAccountSet r companyProfile
    let filteredAccounts := accounts.filter (accountKeep options)
    if filteredAccounts.length == 0 then
      pure (Except.error "No accounts available. Please enable at least one account type in options.")
    else do
      let tsE ← generateTransactionSet r now filteredAccounts companyProfile
        ⟨some options.num_transactions, none, none, some options.start_date, some options.end_date⟩
      match tsE with
      | Except.error e => pure (Except.error e)
      | Except.ok ts => do
        let requestId ← generateRequestId r
        pure (Except.ok
          { accounts := filteredAccounts
            added := if options.include_payments then ts.added else []
            modified := ts.modified
            removed := ts.removed
            next_cursor := "end"
            has_more := false
            request_id := requestId
            transactions_update_status := "full_completion" })

end Generators

/-- Result record of validateFinancialData. -/
structure ValidationResult where
  valid : Bool
  errors : List String
  warnings : List String

/-- Errors contributed by one account in the validator's account loop.
The truthiness test !account.balances.current flags both null and zero
balances as missing balance information. -/
def accountErrorsAt (i : Nat) (a : Account) : List String :=
  (if a.account_id.toList.isEmpty then
    ["Account at index " ++ natToStr i ++ " missing account_id"]
   else []) ++
  (if !a.balances.current.truthy then
    ["Account " ++ a.account_id ++ " missing balance information"]
   else [])

/-- Warnings contributed by one account in the validator's account loop.
The account type is a closed non-empty enum, so the missing-type branch is
structurally unreachable but kept for fidelity. -/
def accountWarningsAt (a : Account) : List String :=
  (if a.name.toList.isEmpty then ["Account " ++ a.account_id ++ " missing name"] else []) ++
  (if (AccountType.str a.type).toList.isEmpty then ["Account " ++ a.account_id ++ " missing type"] else [])

/-- Errors contributed by one transaction in the validator's transaction
loop.  The amount null-check of the source cannot fire in the embedding
because amounts are always numbers. -/
def transactionErrorsAt (accountIds : List String) (i : Nat) (t : Transaction) : List String :=
  let label := if t.transaction_id.toList.isEmpty then natToStr i else t.transaction_id
  (if t.transaction_id.toList.isEmpty then
    ["Transaction at index " ++ natToStr i ++ " missing transaction_id"]
   else []) ++
  (if t.account_id.toList.isEmpty then
    ["Transaction " ++ label ++ " missing account_id"]
   else if !(accountIds.contains t.account_id) then
    ["Transaction " ++ label ++ " references non-existent account " ++ t.account_id]
   else []) ++
  (if t.date.toList.isEmpty then ["Transaction " ++ label ++ " missing date"] else [])

/-- Account-loop errors of the validator. -/
def validatorAccErrors (data : PlaidTransactionsResponse) : List String :=
  (data.accounts.enum.map (fun p => accountErrorsAt p.1 p.2)).flatten

/-- Transaction-loop errors of the validator. -/
def validatorTxErrors (data : PlaidTransactionsResponse) : List String :=
  (data.added.enum.map (fun p =>
    transactionErrorsAt (data.accounts.map (fun a => a.account_id)) p.1 p.2)).flatten

/-- Warnings of the validator (account warnings, then date-span warnings). -/
def validatorWarnings (data : PlaidTransactionsResponse) (now : Q) : List String :=
  let transactionDates := (data.added.map (fun t => parsePlaidDate t.date)).mergeSort (fun a b => decide (a ≤ b))
  let dateWarnings :=
    match transactionDates.head?, transactionDates.getLast? with
    | some earliest, some latest =>
      let daySpan := latest - earliest
      (if daySpan > 365 * 2 then
        ["Transaction date range unusually large: " ++ intToStr daySpan ++ " days"]
       else []) ++
      (if now.ltB (Q.ofInt latest) then ["Some transactions have future dates"] else [])
    | _, _ => []
  (data.accounts.map accountWarningsAt).flatten ++ dateWarnings

/-- validateFinancialData from the validation module; now is the current
instant in days used by the future-date warning. -/
def validateFinancialData (data : PlaidTransactionsResponse) (now : Q) : ValidationResult :=
  let headErrors :=
    (if data.accounts.isEmpty then ["Missing or empty accounts array"] else []) ++
    (if data.request_id.toList.isEmpty then ["Missing request_id"] else [])
  if !headErrors.isEmpty then ⟨false, headErrors, []⟩
  else
    let errors := validatorAccErrors data ++ validatorTxErrors data
    ⟨errors.isEmpty, errors, validatorWarnings data now⟩

/-- Added list of a transaction-set result (empty when the set threw). -/
def addedOf (e : Except String TxTriple) : List Transaction :=
  match e with
  | Except.ok t => t.added
  | Except.error _ => []

/-- Modified list of a transaction-set result. -/
def modifiedOf (e : Except String TxTriple) : List Transaction :=
  match e with
  | Except.ok t => t.modified
  | Except.error _ => []

/-- Removed list of a transaction-set result. -/
def removedOf (e : Except String TxTriple) : List RemovedTransaction :=
  match e with
  | Except.ok t => t.removed
  | Except.error _ => []

theorem run_bind {α β : Type} (x : GenM α) (f : α → GenM β) (s : Nat) :
    (x >>= f) s = f (x s).1 (x s).2 := rfl

theorem run_pure {α : Type} (a : α) (s : Nat) : (pure a : GenM α) s = (a, s) := rfl

theorem run_map {α β : Type} (g : α → β) (x : GenM α) (s : Nat) :
    (g <$> x) s = (g (x s).1, (x s).2) := rfl

theorem run_rnd (r : RandStream) (s : Nat) : rnd r s = (r s, s + 1) := rfl

theorem pair_fst {α : Type} (a : α) (s : Nat) : ((a, s) : α × Nat).1 = a := rfl

theorem pair_snd {α : Type} (a : α) (s : Nat) : ((a, s) : α × Nat).2 = s := rfl

theorem forGen_length {α : Type} (f : Nat → GenM α) (k : Nat) :
    ∀ (i s : Nat), ((forGen f i k) s).1.length = k := by
  induction k with
  | zero => intro i s; simp [forGen, run_pure]
  | succ n ih => intro i s; simp [forGen, run_bind, run_pure, run_map, ih]

theorem forGen_mem {α : Type} (f : Nat → GenM α) (k : Nat) :
    ∀ (i s : Nat) (a : α), a ∈ ((forGen f i k) s).1 → ∃ j s2, a = ((f j) s2).1 := by
  induction k with
  | zero => intro i s a h; simp [forGen, run_pure] at h
  | succ n ih =>
    intro i s a h
    simp only [forGen, run_bind, run_pure, run_map] at h
    rcases List.mem_cons.mp h with h1 | h2
    · exact ⟨i, s, h1⟩
    · exact ih (i + 1) _ a h2

theorem forGenE_ok {α : Type} (f : Nat → GenM (Except String α)) (k : Nat)
    (hf : ∀ j s, ∃ t, ((f j) s).1 = Except.ok t) :
    ∀ (i s : Nat), ∃ l, ((forGenE f i k) s).1 = Except.ok l ∧ l.length = k := by
  induction k with
  | zero => intro i s; exact ⟨[], rfl, rfl⟩
  | succ n ih =>
    intro i s
    obtain ⟨t, ht⟩ := hf i s
    obtain ⟨l, hl, hlen⟩ := ih (i + 1) ((f i) s).2
    refine ⟨t :: l, ?_, by simp [hlen]⟩
    simp only [forGenE, run_bind]
    rw [ht]
    simp only [run_bind, hl, run_pure]

theorem forGenE_mem {α : Type} (f : Nat → GenM (Except String α)) (k : Nat) :
    ∀ (i s : Nat) (l : List α), ((forGenE f i k) s).1 = Except.ok l →
      ∀ a ∈ l, ∃ j s2 , ((f j) s2).1 = Except.ok a := by
  induction k with
  | zero =>
    intro i s l hl a ha
    simp only [forGenE, run_pure] at hl
    cases hl
    simp at ha
  | succ n ih =>
    intro i s l hl a ha
    simp only [forGenE, run_bind] at hl
    cases hfi : ((f i) s).1 with
    | error e => rw [hfi] at hl; simp [run_pure] at hl
    | ok t =>
      rw [hfi] at hl
      simp only [run_bind] at hl
      cases hrest : ((forGenE f (i + 1) n) ((f i) s).2).1 with
      | error e => rw [hrest] at hl; simp [run_pure] at hl
      | ok xs =>
        rw [hrest] at hl
        simp only [run_pure] at hl
        cases hl
        rcases List.mem_cons.mp ha with h1 | h2
        · exact ⟨i, s, h1 ▸ hfi⟩
        · exact ih (i + 1) _ xs hrest a h2

theorem idx_floor_nonneg (u : Q) (n : Nat) (h0 : 0 ≤ u.val) :
    0 ≤ (u.mul (Q.ofInt n)).floor := by
  rw [Q.floor_val, Q.val_mul, Q.val_ofInt]
  have : (0 : ℚ) ≤ u.val * (n : ℚ) := by positivity
  exact Int.floor_nonneg.mpr this

theorem idx_floor_lt (u : Q) (n : Nat) (h1 : u.val < 1) (hn : 0 < n) :
    ((u.mul (Q.ofInt n)).floor).toNat < n := by
  have hlt : (u.mul (Q.ofInt n)).floor < (n : Int) := by
    rw [Q.floor_val, Q.val_mul, Q.val_ofInt]
    apply Int.floor_lt.mpr
    push_cast
    have hn2 : (0 : ℚ) < (n : ℚ) := by exact_mod_cast hn
    calc u.val * (n : ℚ) < 1 * (n : ℚ) := by
          exact mul_lt_mul_of_pos_right h1 hn2
      _ = (n : ℚ) := one_mul _
  omega

theorem randPick_mem {α : Type} (r : RandStream) (d : α) (l : List α) (s : Nat)
    (h1 : (r s).val < 1) (hl : l ≠ []) :
    ((randPick r d l) s).1 ∈ l := by
  have hn : 0 < l.length := List.length_pos.mpr hl
  have hidx : (((r s).mul (Q.ofInt l.length)).floor).toNat < l.length := idx_floor_lt _ _ h1 hn
  simp only [randPick, run_bind, run_rnd, run_pure]
  rw [List.getD_eq_getElem l d hidx]
  exact List.getElem_mem hidx

theorem txDateLe_sorted (l : List Transaction) :
    List.Sorted (fun a b => parsePlaidDate b.date ≤ parsePlaidDate a.date) (l.mergeSort txDateLe) := by
  have h := @List.sorted_mergeSort Transaction txDateLe
    (fun a b c hab hbc => by
      simp only [txDateLe, decide_eq_true_iff] at hab hbc ⊢
      exact le_trans hbc hab)
    (fun a b => by
      simp only [txDateLe, Bool.or_eq_true, decide_eq_true_iff]
      exact le_total (parsePlaidDate b.date) (parsePlaidDate a.date))
    l
  exact List.Pairwise.imp (fun hab => by
    simpa only [txDateLe, decide_eq_true_iff] using hab) h

theorem txSetAfterDeposits_sorted (r : RandStream) (now : Q) (pay : List Account)
    (profile : CompanyProfile) (options : TransactionSetOptions) (baseCount depositCount : Nat)
    (startArg endArg : Int) (dE : Except String (List Transaction)) (s : Nat) :
    List.Sorted (fun a b => parsePlaidDate b.date ≤ parsePlaidDate a.date)
      (addedOf (((txSetAfterDeposits r now pay profile options baseCount depositCount startArg endArg dE) s).1)) := by
  cases dE with
  | error e => simp [txSetAfterDeposits, run_pure, addedOf]
  | ok deposits =>
    simp only [txSetAfterDeposits, run_bind, run_pure, addedOf]
    exact txDateLe_sorted _

theorem txSetCore_added_sorted (r : RandStream) (now : Q) (dep pay : List Account)
    (profile : CompanyProfile) (options : TransactionSetOptions) (baseCount : Nat)
    (startArg endArg : Int) (s : Nat) :
    List.Sorted (fun a b => parsePlaidDate b.date ≤ parsePlaidDate a.date)
      (addedOf (((txSetCore r now dep pay profile options baseCount startArg endArg) s).1)) := by
  simp only [txSetCore, run_bind, run_rnd]
  exact txSetAfterDeposits_sorted r now pay profile options baseCount _ startArg endArg _ _

/-- C6: the added list of every transaction-set result is sorted by date
descending (newest first); a thrown or degenerate result is empty, hence
sorted. -/
theorem generateTransactionSet_added_sorted (r : RandStream) (now : Q) (accounts : List Account)
    (profile : CompanyProfile) (options : TransactionSetOptions) (s : Nat) :
    List.Sorted (fun a b => parsePlaidDate b.date ≤ parsePlaidDate a.date)
      (addedOf (((generateTransactionSet r now accounts profile options) s).1)) := by
  simp only [generateTransactionSet]
  split
  · simp [run_pure, addedOf]
  · exact txSetCore_added_sorted r now _ _ profile options _ _ _ s

theorem Q.truthy_eq_false_iff (a : Q) : a.truthy = false ↔ a.val = 0 := by
  have hd := a.den_ne
  rw [Q.truthy, Q.val, bne_eq_false_iff_eq, div_eq_zero_iff]
  constructor
  · intro h
    left
    exact_mod_cast h
  · intro h
    rcases h with h | h
    · exact_mod_cast h
    · exact absurd h hd

theorem listPrefixB_refl (l : List Char) : listPrefixB l l = true := by
  induction l with
  | nil => rfl
  | cons c cs ih => simp [listPrefixB, ih]

theorem listSubB_self (p : List Char) : listSubB p p = true := by
  cases p with
  | nil => rfl
  | cons c cs => simp [listSubB, listPrefixB_refl]

theorem listSubB_append_left (p m : List Char) (h : listSubB p m = true) :
    ∀ l, listSubB p (l ++ m) = true := by
  intro l
  induction l with
  | nil => simpa using h
  | cons c cs ih => simp [listSubB, ih]

theorem sIncludes_append_right (x y p : String) (h : sIncludes y p = true) :
    sIncludes (x ++ y) p = true := by
  simp only [sIncludes] at h ⊢
  have hxy : (x ++ y).toList = x.toList ++ y.toList := rfl
  rw [hxy]
  exact listSubB_append_left _ _ h _

theorem sIncludes_self (s : String) : sIncludes s s = true := listSubB_self _

/-- C10: an account whose current balance is exactly zero makes the
validator report structural corruption: the truthiness test
!account.balances.current cannot distinguish a zero balance from a missing
one, so validation fails with a missing-balance-information error. -/
theorem validateFinancialData_zero_balance (data : PlaidTransactionsResponse) (now : Q)
    (a : Account) (ha : a ∈ data.accounts) (hz : a.balances.current.val = 0)
    (hreq : data.request_id.toList ≠ []) :
    (validateFinancialData data now).valid = false ∧
      ∃ e ∈ (validateFinancialData data now).errors,
        sIncludes e "missing balance information" = true := by
  have hne : data.accounts ≠ [] := by
    intro h
    rw [h] at ha
    simp at ha
  have hreqd : ¬(data.request_id.data = []) := hreq
  have hval : validateFinancialData data now =
      ⟨(validatorAccErrors data ++ validatorTxErrors data).isEmpty,
        validatorAccErrors data ++ validatorTxErrors data, validatorWarnings data now⟩ := by
    simp [validateFinancialData, hne, hreqd]
  have hmem : "Account " ++ a.account_id ++ " missing balance information" ∈
      validatorAccErrors data := by
    obtain ⟨i, hi, hgi⟩ := List.mem_iff_getElem.mp ha
    apply List.mem_flatten.mpr
    refine ⟨accountErrorsAt i a, ?_, ?_⟩
    · apply List.mem_map.mpr
      refine ⟨(i, a), ?_, rfl⟩
      apply List.mem_iff_getElem.mpr
      refine ⟨i, by simpa using hi, ?_⟩
      simp [List.getElem_enum, hgi]
    · apply List.mem_append_right
      have htr : a.balances.current.truthy = false := (Q.truthy_eq_false_iff _).mpr hz
      rw [htr]
      simp
  have hmemE : "Account " ++ a.account_id ++ " missing balance information" ∈
      (validateFinancialData data now).errors := by
    rw [hval]
    exact List.mem_append_left _ hmem
  constructor
  · rw [hval]
    simp only [ValidationResult.valid]
    have : validatorAccErrors data ++ validatorTxErrors data ≠ [] :=
      List.ne_nil_of_mem (hval ▸ hmemE)
    simp [List.isEmpty_iff, this]
  · refine ⟨"Account " ++ a.account_id ++ " missing balance information", hmemE, ?_⟩
    have hsplit : ("Account " ++ a.account_id ++ " missing balance information" : String) =
        "Account " ++ (a.account_id ++ (" " ++ "missing balance information")) := by
      rw [String.append_assoc]
      rfl
    rw [hsplit]
    apply sIncludes_append_right
    apply sIncludes_append_right
    apply sIncludes_append_right
    exact sIncludes_self _

theorem forGen_map {α β : Type} (f : Nat → GenM α) (g : α → β) (c : Nat → β)
    (h : ∀ j s2, g (((f j) s2).1) = c j) (k : Nat) :
    ∀ (i s : Nat), (((forGen f i k) s).1).map g = (List.range' i k).map c := by
  induction k with
  | zero => intro i s; simp [forGen, run_pure]
  | succ n ih =>
    intro i s
    simp only [forGen, run_bind, run_pure, run_map, List.range', List.map_cons, List.map]
    rw [h, ih]

theorem generateBankAccount_typePair (r : RandStream) (b t : String) (bal : Option Q) (s : Nat) :
    ((((generateBankAccount r b t bal) s).1).type, (((generateBankAccount r b t bal) s).1).subtype) =
      (AccountType.depository, t) := by
  simp only [generateBankAccount, run_bind, run_rnd, run_pure, run_map]
  rcases bal with _ | v <;> (repeat' split) <;>
    simp_all [run_bind, run_rnd, run_pure, run_map]

theorem generateCreditCard_typePair (r : RandStream) (b : String) (lOpt bOpt : Option Q) (s : Nat) :
    ((((generateCreditCard r b lOpt bOpt) s).1).type, (((generateCreditCard r b lOpt bOpt) s).1).subtype) =
      (AccountType.credit, "credit card") := by
  simp only [generateCreditCard, run_bind, run_rnd, run_pure, run_map]
  rcases lOpt with _ | l <;> rcases bOpt with _ | v <;>
    try simp [run_bind, run_rnd, run_pure, run_map]
  all_goals split <;> simp [run_bind, run_rnd, run_pure, run_map]

theorem generateInvestmentAccount_typePair (r : RandStream) (b t : String) (bal : Option Q) (s : Nat) :
    ((((generateInvestmentAccount r b t bal) s).1).type, (((generateInvestmentAccount r b t bal) s).1).subtype) =
      (AccountType.investment, t) := by
  simp only [generateInvestmentAccount, run_bind, run_rnd, run_pure, run_map]
  rcases bal with _ | v <;> simp [run_bind, run_rnd, run_pure, run_map]

theorem generateLoanAccount_typePair (r : RandStream) (b t : String) (bal : Option Q) (s : Nat) :
    ((((generateLoanAccount r b t bal) s).1).type, (((generateLoanAccount r b t bal) s).1).subtype) =
      ((if t == "line of credit" then AccountType.credit else AccountType.loan), t) := by
  simp only [generateLoanAccount, run_bind, run_rnd, run_pure, run_map]
  rcases bal with _ | v <;> split <;>
    simp_all [run_bind, run_rnd, run_pure, run_map]

theorem generateAccountSet_decomp (r : RandStream) (p : CompanyProfile) (s : Nat) :
    ∃ (pb : String) (s1 s2 s3 s4 s5 : Nat),
      ((generateAccountSet r p) s).1 =
        ((forGen (checkingLoopBody r pb (jsOrQ p.annual_revenue (Q.ofInt 1000000))) 0 (accountDistFor p.company_size).checking) s1).1 ++
        ((forGen (savingsLoopBody r pb (jsOrQ p.annual_revenue (Q.ofInt 1000000))) 0 (accountDistFor p.company_size).savings) s2).1 ++
        ((forGen (creditLoopBody r pb (jsOrQ p.annual_revenue (Q.ofInt 1000000))) 0 (accountDistFor p.company_size).credit) s3).1 ++
        ((forGen (investmentLoopBody r pb (jsOrQ p.annual_revenue (Q.ofInt 1000000))) 0 (accountDistFor p.company_size).investment) s4).1 ++
        ((forGen (loanLoopBody r pb (jsOrQ p.annual_revenue (Q.ofInt 1000000))) 0 (accountDistFor p.company_size).loan) s5).1 := by
  simp only [generateAccountSet, run_bind, run_rnd, run_pure, run_map, pair_fst]
  exact ⟨_, _, _, _, _, _, rfl⟩

/-- C2 (amended): for a Medium-tier profile the account generator returns
exactly 7 accounts: 2 checking, 1 savings, 2 credit cards, 1 brokerage
investment and 1 line of credit.  The line of credit is typed "credit", so
no account has type "loan". -/
theorem generateAccountSet_medium (r : RandStream) (profile : CompanyProfile)
    (hsz : profile.company_size = "Medium (51-200)") (s : Nat) :
    (((generateAccountSet r profile) s).1).length = 7 ∧
    (((generateAccountSet r profile) s).1).map (fun a => (a.type, a.subtype)) =
      [(AccountType.depository, "checking"), (AccountType.depository, "checking"),
       (AccountType.depository, "savings"),
       (AccountType.credit, "credit card"), (AccountType.credit, "credit card"),
       (AccountType.investment, "brokerage"), (AccountType.credit, "line of credit")] := by
  have hdist : accountDistFor profile.company_size = (⟨7, 2, 1, 2, 1, 1⟩ : AccountDist) := by
    rw [hsz]
    rfl
  obtain ⟨pb, s1, s2, s3, s4, s5, hdec⟩ := generateAccountSet_decomp r profile s
  suffices hmap : (((generateAccountSet r profile) s).1).map (fun a => (a.type, a.subtype)) =
      [(AccountType.depository, "checking"), (AccountType.depository, "checking"),
       (AccountType.depository, "savings"),
       (AccountType.credit, "credit card"), (AccountType.credit, "credit card"),
       (AccountType.investment, "brokerage"), (AccountType.credit, "line of credit")] by
    refine ⟨?_, hmap⟩
    have := congrArg List.length hmap
    simpa using this
  rw [hdec, hdist]
  simp only [List.map_append]
  rw [forGen_map _ _ (fun _ => (AccountType.depository, "checking"))
    (fun j sx => by
      simp only [checkingLoopBody, run_bind, run_rnd]
      exact generateBankAccount_typePair r _ "checking" _ _)]
  rw [forGen_map _ _ (fun _ => (AccountType.depository, "savings"))
    (fun j sx => by
      simp only [savingsLoopBody, run_bind, run_rnd]
      exact generateBankAccount_typePair r _ "savings" _ _)]
  rw [forGen_map _ _ (fun _ => (AccountType.credit, "credit card"))
    (fun j sx => by
      simp only [creditLoopBody, run_bind, run_rnd]
      rcases Bool.eq_false_or_eq_true (j == 0) with hj | hj <;>
        simp only [hj, if_true, if_false, Bool.false_eq_true, run_bind, run_rnd, run_pure] <;>
        exact generateCreditCard_typePair r _ _ _ _)]
  rw [forGen_map _ _ (fun j => (AccountType.investment, investmentTypes.getD (j % investmentTypes.length) ""))
    (fun j sx => by
      simp only [investmentLoopBody, run_bind, run_rnd]
      exact generateInvestmentAccount_typePair r _ _ _ _)]
  rw [forGen_map _ _ (fun j =>
      ((if loanTypes.getD (j % loanTypes.length) "" == "line of credit" then AccountType.credit
        else AccountType.loan), loanTypes.getD (j % loanTypes.length) ""))
    (fun j sx => by
      simp only [loanLoopBody, run_bind, run_rnd]
      exact generateLoanAccount_typePair r _ _ _ _)]
  rfl

theorem Q.val_abs (a : Q) : a.abs.val = |a.val| := by
  have hd := a.den_pos
  rw [Q.abs, Q.val, Q.val, abs_div, abs_of_pos hd]
  norm_cast

theorem generateBankAccount_type (r : RandStream) (b t : String) (bal : Option Q) (s : Nat) :
    (((generateBankAccount r b t bal) s).1).type = AccountType.depository :=
  congrArg Prod.fst (generateBankAccount_typePair r b t bal s)

theorem generateBankAccount_limit (r : RandStream) (b t : String) (bal : Option Q) (s : Nat) :
    (((generateBankAccount r b t bal) s).1).balances.limit = none := by
  simp only [generateBankAccount, run_bind, run_rnd, run_pure, run_map]
  rcases bal with _ | v <;> (repeat' split) <;>
    simp_all [run_bind, run_rnd, run_pure, run_map]

theorem generateCreditCard_type (r : RandStream) (b : String) (lOpt bOpt : Option Q) (s : Nat) :
    (((generateCreditCard r b lOpt bOpt) s).1).type = AccountType.credit :=
  congrArg Prod.fst (generateCreditCard_typePair r b lOpt bOpt s)

theorem generateCreditCard_balances (r : RandStream) (bank : String) (l b : Q) (s : Nat) :
    ∃ lim : Q,
      (((generateCreditCard r bank (some l) (some b)) s).1).balances.available = some (lim.add b) ∧
      (((generateCreditCard r bank (some l) (some b)) s).1).balances.current = b ∧
      (((generateCreditCard r bank (some l) (some b)) s).1).balances.limit = some lim := by
  simp only [generateCreditCard, run_bind, run_rnd, run_pure, run_map]
  split <;> exact ⟨_, rfl, rfl, rfl⟩

theorem generateInvestmentAccount_type (r : RandStream) (b t : String) (bal : Option Q) (s : Nat) :
    (((generateInvestmentAccount r b t bal) s).1).type = AccountType.investment :=
  congrArg Prod.fst (generateInvestmentAccount_typePair r b t bal s)

theorem generateLoanAccount_line_fields (r : RandStream) (bank : String) (b : Q) (s : Nat) :
    (((generateLoanAccount r bank "line of credit" (some b)) s).1).type = AccountType.credit ∧
    (((generateLoanAccount r bank "line of credit" (some b)) s).1).balances.available = some (b.abs.add b) ∧
    (((generateLoanAccount r bank "line of credit" (some b)) s).1).balances.current = b ∧
    (((generateLoanAccount r bank "line of credit" (some b)) s).1).balances.limit = some b.abs := by
  simp only [generateLoanAccount, run_bind, run_rnd, run_pure, run_map]
  refine ⟨?_, ?_, ?_, ?_⟩ <;> first | rfl | trivial

theorem generateLoanAccount_other_fields (r : RandStream) (bank lt : String) (bal : Option Q) (s : Nat)
    (h : (lt == "line of credit") = false) :
    (((generateLoanAccount r bank lt bal) s).1).type = AccountType.loan ∧
    (((generateLoanAccount r bank lt bal) s).1).balances.limit = none := by
  simp only [generateLoanAccount, run_bind, run_rnd, run_pure, run_map]
  have hne : ¬(lt = "line of credit") := by
    intro he
    rw [he] at h
    simp at h
  rcases bal with _ | v <;> (repeat' split) <;> simp_all [run_bind, run_rnd, run_pure, run_map]

theorem floorMul_val_nonneg (x y : Q) (hx : 0 ≤ x.val) (hy : 0 ≤ y.val) :
    0 ≤ (Q.ofInt ((x.mul y).floor)).val := by
  rw [Q.val_ofInt, Q.floor_val, Q.val_mul]
  have : (0 : ℤ) ≤ ⌊x.val * y.val⌋ := Int.floor_nonneg.mpr (mul_nonneg hx hy)
  exact_mod_cast this

theorem negFloorMul_val_nonpos (x y : Q) (hx : 0 ≤ x.val) (hy : 0 ≤ y.val) :
    (Q.ofInt (-((x.mul y).floor))).val ≤ 0 := by
  rw [Q.val_ofInt, Q.floor_val, Q.val_mul]
  have : (0 : ℤ) ≤ ⌊x.val * y.val⌋ := Int.floor_nonneg.mpr (mul_nonneg hx hy)
  have h2 : (-⌊x.val * y.val⌋ : ℤ) ≤ 0 := by omega
  exact_mod_cast h2

theorem factor_val_nonneg (a u b : Q) (ha : 0 ≤ a.val) (hu : 0 ≤ u.val) (hb : 0 ≤ b.val) :
    0 ≤ ((a.add (u.mul b)).val) := by
  rw [Q.val_add, Q.val_mul]
  exact add_nonneg ha (mul_nonneg hu hb)

theorem jsOrQ_rev_nonneg (o : Option Q) (h : ∀ v, o = some v → 0 ≤ v.val) :
    0 ≤ (jsOrQ o (Q.ofInt 1000000)).val := by
  rcases o with _ | v
  · rw [jsOrQ, Q.val_ofInt]
    norm_num
  · rw [jsOrQ]
    split
    · exact h v rfl
    · rw [Q.val_ofInt]
      norm_num

/-- The per-type balance invariant of the specification: credit accounts
satisfy available = limit + current with non-positive current; depository
accounts carry no limit. -/
def BalanceShape (a : Account) : Prop :=
  (a.type = AccountType.credit →
    ∃ av lim, a.balances.available = some av ∧ a.balances.limit = some lim ∧
      av.val = lim.val + a.balances.current.val ∧ a.balances.current.val ≤ 0) ∧
  (a.type = AccountType.depository → a.balances.limit = none)

set_option maxHeartbeats 1000000 in
/-- C3: every account produced by generateAccountSet satisfies the
per-type balance shape: credit accounts have available = limit + current
with current ≤ 0, and depository accounts have a null limit.  The revenue
hypothesis reflects the data model (annual_revenue is a derived positive
number). -/
theorem generateAccountSet_balance_shape (r : RandStream) (hr : OkStream r)
    (profile : CompanyProfile)
    (hrev : ∀ v, profile.annual_revenue = some v → 0 ≤ v.val) (s : Nat) :
    ∀ a ∈ ((generateAccountSet r profile) s).1, BalanceShape a := by
  have hrev0 : 0 ≤ (jsOrQ profile.annual_revenue (Q.ofInt 1000000)).val := jsOrQ_rev_nonneg _ hrev
  have hd52 : 0 ≤ (Q.dec 5 2).val := by rw [Q.val_dec]; norm_num
  have hd22 : 0 ≤ (Q.dec 2 2).val := by rw [Q.val_dec]; norm_num
  have hd31 : 0 ≤ (Q.dec 3 1).val := by rw [Q.val_dec]; norm_num
  have hd41 : 0 ≤ (Q.dec 4 1).val := by rw [Q.val_dec]; norm_num
  have hd11 : 0 ≤ (Q.dec 1 1).val := by rw [Q.val_dec]; norm_num
  intro a ha
  obtain ⟨pb, s1, s2, s3, s4, s5, hdec⟩ := generateAccountSet_decomp r profile s
  rw [hdec] at ha
  simp only [List.mem_append, or_assoc] at ha
  rcases ha with h1 | h2 | h3 | h4 | h5
  · -- checking accounts
    obtain ⟨j, sx, hEq⟩ := forGen_mem _ _ _ _ _ h1
    subst hEq
    simp only [checkingLoopBody, run_bind, run_rnd]
    refine ⟨?_, fun _ => generateBankAccount_limit _ _ _ _ _⟩
    intro hcred
    rw [generateBankAccount_type] at hcred
    exact absurd hcred (by intro h; cases h)
  · -- savings accounts
    obtain ⟨j, sx, hEq⟩ := forGen_mem _ _ _ _ _ h2
    subst hEq
    simp only [savingsLoopBody, run_bind, run_rnd]
    refine ⟨?_, fun _ => generateBankAccount_limit _ _ _ _ _⟩
    intro hcred
    rw [generateBankAccount_type] at hcred
    exact absurd hcred (by intro h; cases h)
  · -- credit cards
    obtain ⟨j, sx, hEq⟩ := forGen_mem _ _ _ _ _ h3
    subst hEq
    rcases Bool.eq_false_or_eq_true (j == 0) with hj | hj <;>
      simp only [creditLoopBody, hj, if_true, if_false, Bool.false_eq_true,
        run_bind, run_rnd, run_pure] <;>
    · refine ⟨?_, ?_⟩
      · intro _
        obtain ⟨lim, hav, hcur, hlim⟩ := generateCreditCard_balances r _ _ _ _
        refine ⟨lim.add _, lim, hav, hlim, by rw [Q.val_add, hcur], ?_⟩
        rw [hcur]
        apply negFloorMul_val_nonpos
        · first
          | exact floorMul_val_nonneg _ _ hrev0 hd52
          | exact floorMul_val_nonneg _ _ hrev0 hd22
        · exact factor_val_nonneg _ _ _ hd31 (hr _).1 hd41
      · intro hdep
        rw [generateCreditCard_type] at hdep
        exact absurd hdep (by intro h; cases h)
  · -- investment accounts
    obtain ⟨j, sx, hEq⟩ := forGen_mem _ _ _ _ _ h4
    subst hEq
    simp only [investmentLoopBody, run_bind, run_rnd]
    refine ⟨?_, ?_⟩
    · intro hcred
      rw [generateInvestmentAccount_type] at hcred
      exact absurd hcred (by intro h; cases h)
    · intro hdep
      rw [generateInvestmentAccount_type] at hdep
      exact absurd hdep (by intro h; cases h)
  · -- loan accounts
    obtain ⟨j, sx, hEq⟩ := forGen_mem _ _ _ _ _ h5
    subst hEq
    simp only [loanLoopBody, run_bind, run_rnd]
    rcases Bool.eq_false_or_eq_true (loanTypes.getD (j % loanTypes.length) "" == "line of credit")
      with hlt | hlt
    swap
    · -- commercial / construction / mortgage: typed loan
      obtain ⟨hty, hlim⟩ := generateLoanAccount_other_fields r _ _ _ _ hlt
      refine ⟨?_, ?_⟩
      · intro hcred
        rw [hty] at hcred
        exact absurd hcred (by intro h; cases h)
      · intro hdep
        rw [hty] at hdep
        exact absurd hdep (by intro h; cases h)
    · -- line of credit: typed credit with limit |balance|
      have hlt2 : loanTypes.getD (j % loanTypes.length) "" = "line of credit" := by
        exact beq_iff_eq.mp hlt
      simp only [hlt2, beq_self_eq_true, if_true]
      refine ⟨?_, ?_⟩
      · intro _
        obtain ⟨hty, hav, hcur, hlim⟩ := generateLoanAccount_line_fields r _ _ _
        refine ⟨_, _, hav, hlim, by rw [Q.val_add, hcur], ?_⟩
        rw [hcur]
        apply negFloorMul_val_nonpos
        · exact hrev0
        · exact factor_val_nonneg _ _ _ hd11 (hr _).1 hd31
      · intro hdep
        obtain ⟨hty, _, _, _⟩ := generateLoanAccount_line_fields r _ _ _
        rw [hty] at hdep
        exact absurd hdep (by intro h; cases h)

/-- A concrete Medium-tier technology profile. -/
def mediumProfile : CompanyProfile :=
  { company_name := "Acme Technology"
    industry := "Technology"
    business_model := "SaaS"
    company_size := "Medium (51-200)"
    founding_date := 18262
    location := some "New York, NY"
    annual_revenue := some (Q.ofInt 10000000) }

/-- The all-zero draw stream (every Math.random() call returns 0). -/
def zeroStream : RandStream := fun _ => Q.ofInt 0

theorem zeroStream_ok : OkStream zeroStream := by
  intro n
  constructor <;> simp [zeroStream, Q.val_ofInt]

/-- Witness for the amended C2 at a concrete Medium profile and stream. -/
theorem generateAccountSet_medium_witness :
    (((generateAccountSet zeroStream mediumProfile) 0).1).length = 7 ∧
    (((generateAccountSet zeroStream mediumProfile) 0).1).map (fun a => (a.type, a.subtype)) =
      [(AccountType.depository, "checking"), (AccountType.depository, "checking"),
       (AccountType.depository, "savings"),
       (AccountType.credit, "credit card"), (AccountType.credit, "credit card"),
       (AccountType.investment, "brokerage"), (AccountType.credit, "line of credit")] :=
  generateAccountSet_medium zeroStream mediumProfile rfl 0

/-- Counterexample for C2 as stated: a Medium profile yields 7 accounts but
none of them has type "loan" (the loan slot becomes a credit-typed line of
credit). -/
theorem generateAccountSet_medium_no_loan_type :
    (((generateAccountSet zeroStream mediumProfile) 0).1).length = 7 ∧
    ((((generateAccountSet zeroStream mediumProfile) 0).1).filter
      (fun a => a.type == AccountType.loan)).length = 0 := by
  exact ⟨rfl, rfl⟩

theorem c3lenPos : 0 < (((generateAccountSet zeroStream mediumProfile) 0).1).length := by
  have h : (((generateAccountSet zeroStream mediumProfile) 0).1).length = 7 := rfl
  rw [h]
  norm_num

/-- Witness for C3 at a concrete Medium profile, stream and account. -/
theorem generateAccountSet_balance_shape_witness :
    BalanceShape ((((generateAccountSet zeroStream mediumProfile) 0).1).get ⟨0, c3lenPos⟩) :=
  generateAccountSet_balance_shape zeroStream zeroStream_ok mediumProfile
    (fun v hv => by
      have h3 : v = Q.ofInt 10000000 := (Option.some.inj hv).symm
      rw [h3, Q.val_ofInt]
      norm_num) 0 _
    (List.get_mem _ 0 c3lenPos)

/-- Concrete zero-balance account for the validator witness. -/
def c10Account : Account :=
  { account_id := "acctZero00000000000000"
    balances :=
      { available := some (Q.ofInt 0)
        current := Q.ofInt 0
        iso_currency_code := "USD"
        limit := none
        unofficial_currency_code := none }
    mask := "1234"
    name := "Primary Checking"
    official_name := "Business Complete Checking"
    subtype := "checking"
    type := AccountType.depository }

/-- Concrete response containing the zero-balance account. -/
def c10Data : PlaidTransactionsResponse :=
  { accounts := [c10Account]
    added := []
    modified := []
    removed := []
    next_cursor := "end"
    has_more := false
    request_id := "req_test"
    transactions_update_status := "full_completion" }

/-- Witness for C10 at a concrete response with a zero current balance. -/
theorem validateFinancialData_zero_balance_witness :
    (validateFinancialData c10Data (Q.ofInt 0)).valid = false ∧
      ∃ e ∈ (validateFinancialData c10Data (Q.ofInt 0)).errors,
        sIncludes e "missing balance information" = true :=
  validateFinancialData_zero_balance c10Data (Q.ofInt 0) c10Account
    (by simp [c10Data])
    (by simp [c10Account, Q.val_ofInt])
    (by decide)

theorem generateLoanAccount_type (r : RandStream) (b t : String) (bal : Option Q) (s : Nat) :
    (((generateLoanAccount r b t bal) s).1).type =
      (if t == "line of credit" then AccountType.credit else AccountType.loan) :=
  congrArg Prod.fst (generateLoanAccount_typePair r b t bal s)

theorem generateAccountSet_type_ne_other (r : RandStream) (profile : CompanyProfile) (s : Nat) :
    ∀ a ∈ ((generateAccountSet r profile) s).1, a.type ≠ AccountType.other := by
  intro a ha
  obtain ⟨pb, s1, s2, s3, s4, s5, hdec⟩ := generateAccountSet_decomp r profile s
  rw [hdec] at ha
  simp only [List.mem_append, or_assoc] at ha
  rcases ha with h1 | h2 | h3 | h4 | h5
  · obtain ⟨j, sx, hEq⟩ := forGen_mem _ _ _ _ _ h1
    subst hEq
    simp only [checkingLoopBody, run_bind, run_rnd]
    rw [generateBankAccount_type]
    decide
  · obtain ⟨j, sx, hEq⟩ := forGen_mem _ _ _ _ _ h2
    subst hEq
    simp only [savingsLoopBody, run_bind, run_rnd]
    rw [generateBankAccount_type]
    decide
  · obtain ⟨j, sx, hEq⟩ := forGen_mem _ _ _ _ _ h3
    subst hEq
    rcases Bool.eq_false_or_eq_true (j == 0) with hj | hj <;>
      simp only [creditLoopBody, hj, if_true, if_false, Bool.false_eq_true,
        run_bind, run_rnd, run_pure] <;>
    · rw [generateCreditCard_type]
      decide
  · obtain ⟨j, sx, hEq⟩ := forGen_mem _ _ _ _ _ h4
    subst hEq
    simp only [investmentLoopBody, run_bind, run_rnd]
    rw [generateInvestmentAccount_type]
    decide
  · obtain ⟨j, sx, hEq⟩ := forGen_mem _ _ _ _ _ h5
    subst hEq
    simp only [loanLoopBody, run_bind, run_rnd]
    rw [generateLoanAccount_type]
    split <;> decide

theorem accountKeep_all_off (options : DataGenerationOptions)
    (hd : options.include_deposits = false) (hp : options.include_payments = false)
    (hi : options.include_investments = false) (hl : options.include_loans = false)
    (a : Account) (h : a.type ≠ AccountType.other) :
    accountKeep options a = false := by
  cases hty : a.type <;> simp_all [accountKeep]

theorem filter_keep_all_off (r : RandStream) (options : DataGenerationOptions)
    (hd : options.include_deposits = false) (hp : options.include_payments = false)
    (hi : options.include_investments = false) (hl : options.include_loans = false) :
    ∀ (cp : CompanyProfile) (s1 : Nat),
      (((generateAccountSet r cp) s1).1).filter (accountKeep options) = [] := by
  intro cp s1
  rw [List.filter_eq_nil_iff]
  intro a ha
  rw [accountKeep_all_off options hd hp hi hl a (generateAccountSet_type_ne_other r cp s1 a ha)]
  simp

/-- C7: for every complete company profile, running the generator with all
four include_* toggles off fails with an error mentioning
"No accounts available" and produces no partial output. -/
theorem generateFinancialData_all_flags_off (r : RandStream) (companyData : PartialCompanyProfile)
    (hm : missingRequiredField companyData = false) (options : DataGenerationOptions)
    (hd : options.include_deposits = false) (hp : options.include_payments = false)
    (hi : options.include_investments = false) (hl : options.include_loans = false)
    (now : Q) (s : Nat) :
    ∃ e s2, (generateFinancialData r companyData options now) s = (Except.error e, s2) ∧
      sIncludes e "No accounts available" = true := by
  simp only [generateFinancialData, hm, Bool.false_eq_true, if_false, run_bind, run_pure]
  rw [filter_keep_all_off r options hd hp hi hl]
  exact ⟨_, _, rfl, rfl⟩

/-- A complete partial profile for the C7 witness. -/
def c7CompanyData : PartialCompanyProfile :=
  { company_name := some "Acme Technology"
    industry := some "Technology"
    business_model := some "SaaS"
    company_size := some "Medium (51-200)"
    founding_date := none
    location := none
    annual_revenue := none }

/-- Options with every include_* toggle off. -/
def c7Options : DataGenerationOptions :=
  { num_transactions := 100
    start_date := 19358
    end_date := 19722
    include_deposits := false
    include_payments := false
    include_investments := false
    include_loans := false }

/-- Witness for C7 at a concrete complete profile and all-off options. -/
theorem generateFinancialData_all_flags_off_witness :
    ∃ e s2, (generateFinancialData zeroStream c7CompanyData c7Options (Q.ofInt 19750)) 0 =
      (Except.error e, s2) ∧ sIncludes e "No accounts available" = true :=
  generateFinancialData_all_flags_off zeroStream c7CompanyData rfl c7Options rfl rfl rfl rfl
    (Q.ofInt 19750) 0

theorem generateBaseTransaction_pending (r : RandStream) (a : Account) (m : String)
    (amt : Q) (d : Int) (p : Bool) (s : Nat) :
    (((generateBaseTransaction r a m amt d p) s).1).pending = p := by
  simp only [generateBaseTransaction, run_bind, run_pure, run_map]

theorem baseHasAuth_true (r : RandStream) (s : Nat) : (baseHasAuth r true) s = (false, s) := rfl

theorem baseHasAuth_false (r : RandStream) (s : Nat) :
    (baseHasAuth r false) s = ((r s).ltB (Q.dec 7 1), s + 1) := rfl

theorem baseAuthDate_false (r : RandStream) (d : Int) (s : Nat) :
    (baseAuthDate r d false) s = (none, s) := rfl

theorem baseAuthDate_true (r : RandStream) (d : Int) (s : Nat) :
    (baseAuthDate r d true) s =
      (some (d - ((Q.ofInt 1).add ((r s).mul (Q.ofInt 2))).floor), s + 1) := rfl

theorem generateBaseTransaction_authorized (r : RandStream) (a : Account) (m : String)
    (amt : Q) (d : Int) (p : Bool) (s : Nat) :
    (((generateBaseTransaction r a m amt d p) s).1).authorized_date =
      (((baseAuthDate r d (((baseHasAuth r p) (((createMerchantDescription r m d) s).2)).1))
        (((baseHasAuth r p) (((createMerchantDescription r m d) s).2)).2)).1).map formatPlaidDate := by
  simp only [generateBaseTransaction, run_bind, run_pure, run_map]

theorem generateBaseTransaction_auth_of_pending (r : RandStream) (a : Account) (m : String)
    (amt : Q) (d : Int) (s : Nat) :
    (((generateBaseTransaction r a m amt d true) s).1).authorized_date = none := by
  rw [generateBaseTransaction_authorized, baseHasAuth_true]
  rfl

theorem one_add_two_mul_floor (u : Q) (h0 : 0 ≤ u.val) (h1 : u.val < 1) :
    ((Q.ofInt 1).add (u.mul (Q.ofInt 2))).floor = 1 ∨
    ((Q.ofInt 1).add (u.mul (Q.ofInt 2))).floor = 2 := by
  rw [Q.floor_val, Q.val_add, Q.val_mul, Q.val_ofInt, Q.val_ofInt]
  push_cast
  have h2 : (1 : ℤ) ≤ ⌊(1 : ℚ) + u.val * 2⌋ := Int.le_floor.mpr (by push_cast; linarith)
  have h3 : ⌊(1 : ℚ) + u.val * 2⌋ < 3 := Int.floor_lt.mpr (by push_cast; linarith)
  omega

theorem generateBaseTransaction_auth_not_pending (r : RandStream) (hr : OkStream r)
    (a : Account) (m : String) (amt : Q) (d : Int) (s : Nat) :
    (((generateBaseTransaction r a m amt d false) s).1).authorized_date = none ∨
    ∃ k : Int, (k = 1 ∨ k = 2) ∧
      (((generateBaseTransaction r a m amt d false) s).1).authorized_date =
        some (formatPlaidDate (d - k)) := by
  rw [generateBaseTransaction_authorized, baseHasAuth_false]
  rcases Bool.eq_false_or_eq_true
      ((r (((createMerchantDescription r m d) s).2)).ltB (Q.dec 7 1)) with hc | hc <;>
    rw [hc]
  · exact Or.inr
      ⟨((Q.ofInt 1).add ((r (((createMerchantDescription r m d) s).2 + 1)).mul (Q.ofInt 2))).floor,
        one_add_two_mul_floor _ (hr _).1 (hr _).2, rfl⟩
  · exact Or.inl rfl

theorem generateDepositTransaction_ok_pending (r : RandStream) (now : Q) (account : Account)
    (profile : CompanyProfile) (d : Int) (s : Nat)
    (hty : account.type = AccountType.depository) :
    ∃ t s2, (generateDepositTransaction r now account profile (some d)) s = (Except.ok t, s2) ∧
      t.pending = false := by
  simp only [generateDepositTransaction, hty, run_bind, run_pure, run_rnd, run_map]
  refine ⟨_, _, rfl, ?_⟩
  exact generateBaseTransaction_pending _ _ _ _ _ _ _

theorem generatePaymentTransaction_pending (r : RandStream) (now : Q) (account : Account)
    (profile : CompanyProfile) (d : Int) (s : Nat) :
    (((generatePaymentTransaction r now account profile (some d)) s).1).pending =
      (r (s + 2)).ltB (Q.dec 5 2) := by
  simp only [generatePaymentTransaction, getRealisticMerchant, randPick,
    run_bind, run_pure, run_rnd, run_map, pair_fst, pair_snd]
  exact generateBaseTransaction_pending _ _ _ _ _ _ _

/-- C4 (amended): the pending flag of a base transaction is exactly its
pending argument; deposit transactions are never pending; a payment
transaction is pending exactly when its dedicated draw is below 0.05; a
pending transaction has a null authorized_date; a non-pending one has an
authorized_date that is either null or the transaction date minus one or
two days. -/
theorem generateTransaction_pending_authorized (r : RandStream) (hr : OkStream r)
    (account : Account) (m : String) (amt : Q) (d : Int) (p : Bool)
    (now : Q) (profile : CompanyProfile) (s : Nat)
    (hty : account.type = AccountType.depository) :
    (((generateBaseTransaction r account m amt d p) s).1).pending = p ∧
    (((generateBaseTransaction r account m amt d true) s).1).authorized_date = none ∧
    ((((generateBaseTransaction r account m amt d false) s).1).authorized_date = none ∨
      ∃ k : Int, (k = 1 ∨ k = 2) ∧
        (((generateBaseTransaction r account m amt d false) s).1).authorized_date =
          some (formatPlaidDate (d - k))) ∧
    (∃ t s2, (generateDepositTransaction r now account profile (some d)) s = (Except.ok t, s2) ∧
      t.pending = false) ∧
    (((generatePaymentTransaction r now account profile (some d)) s).1).pending =
      (r (s + 2)).ltB (Q.dec 5 2) :=
  ⟨generateBaseTransaction_pending r account m amt d p s,
   generateBaseTransaction_auth_of_pending r account m amt d s,
   generateBaseTransaction_auth_not_pending r hr account m amt d s,
   generateDepositTransaction_ok_pending r now account profile d s hty,
   generatePaymentTransaction_pending r now account profile d s⟩

/-- Witness for the amended C4 at a concrete account, merchant and stream. -/
theorem generateTransaction_pending_authorized_witness :
    (((generateBaseTransaction zeroStream c10Account "Staples" (Q.ofInt 100) 19000 false) 0).1).pending = false ∧
    (((generateBaseTransaction zeroStream c10Account "Staples" (Q.ofInt 100) 19000 true) 0).1).authorized_date = none ∧
    ((((generateBaseTransaction zeroStream c10Account "Staples" (Q.ofInt 100) 19000 false) 0).1).authorized_date = none ∨
      ∃ k : Int, (k = 1 ∨ k = 2) ∧
        (((generateBaseTransaction zeroStream c10Account "Staples" (Q.ofInt 100) 19000 false) 0).1).authorized_date =
          some (formatPlaidDate (19000 - k))) ∧
    (∃ t s2, (generateDepositTransaction zeroStream (Q.ofInt 19750) c10Account mediumProfile (some 19000)) 0 =
      (Except.ok t, s2) ∧ t.pending = false) ∧
    (((generatePaymentTransaction zeroStream (Q.ofInt 19750) c10Account mediumProfile (some 19000)) 0).1).pending =
      ((zeroStream (0 + 2)).ltB (Q.dec 5 2)) :=
  generateTransaction_pending_authorized zeroStream zeroStream_ok c10Account "Staples"
    (Q.ofInt 100) 19000 false (Q.ofInt 19750) mediumProfile 0 rfl

/-- Counterexample for C4 as stated: a pending transaction has a null
authorized_date, not an authorized_date equal to the transaction date. -/
theorem generateBaseTransaction_pending_auth_null :
    (((generateBaseTransaction zeroStream c10Account "Staples" (Q.ofInt 100) 19000 true) 0).1).pending = true ∧
    (((generateBaseTransaction zeroStream c10Account "Staples" (Q.ofInt 100) 19000 true) 0).1).authorized_date = none ∧
    (((generateBaseTransaction zeroStream c10Account "Staples" (Q.ofInt 100) 19000 true) 0).1).authorized_date ≠
      some ((((generateBaseTransaction zeroStream c10Account "Staples" (Q.ofInt 100) 19000 true) 0).1).date) := by
  refine ⟨rfl, rfl, ?_⟩
  intro h
  exact Option.noConfusion h

/-- The three one-field perturbations the modified-transactions loop applies
to a chosen added transaction: amount scaled by 0.95 + u·0.1, pending
toggled, or the category pair recomputed. -/
def ModOf (u t : Transaction) : Prop :=
  (∃ v : Q, t = { u with amount := u.amount.mul ((Q.dec 95 2).add (v.mul (Q.dec 1 1))) }) ∨
  t = { u with pending := !u.pending } ∨
  t = { u with category := (determineCategories u.merchant_name).1,
               category_id := (determineCategories u.merchant_name).2 }

theorem modifyStep_mem (r : RandStream) (hr : OkStream r) (added : List Transaction)
    (hne : added ≠ []) (s : Nat) :
    ∃ u ∈ added, ModOf u (((modifyStep r added) s).1) := by
  have hn : 0 < added.length := List.length_pos.mpr hne
  have hidx : (((r s).mul (Q.ofInt added.length)).floor).toNat < added.length :=
    idx_floor_lt _ _ (hr s).2 hn
  simp only [modifyStep, run_bind, run_rnd, run_pure]
  rw [List.getD_eq_getElem added defaultTransaction hidx]
  refine ⟨_, List.getElem_mem hidx, ?_⟩
  rcases Bool.eq_false_or_eq_true ((((r (s + 1)).mul (Q.ofInt 3)).floor).toNat == 0) with h0 | h0
  · simp only [h0, if_true, run_bind, run_rnd, run_pure]
    exact Or.inl ⟨r (s + 2), rfl⟩
  · simp only [h0, Bool.false_eq_true, if_false]
    rcases Bool.eq_false_or_eq_true ((((r (s + 1)).mul (Q.ofInt 3)).floor).toNat == 1) with h1 | h1
    · simp only [h1, if_true, run_pure]
      exact Or.inr (Or.inl rfl)
    · simp only [h1, Bool.false_eq_true, if_false, run_pure]
      exact Or.inr (Or.inr rfl)

theorem removeStep_mem (r : RandStream) (hr : OkStream r) (added : List Transaction)
    (hne : added ≠ []) (s : Nat) :
    ∃ u ∈ added, ((removeStep r added) s).1 =
      (⟨u.transaction_id, u.account_id⟩ : RemovedTransaction) := by
  have hn : 0 < added.length := List.length_pos.mpr hne
  have hidx : (((r s).mul (Q.ofInt added.length)).floor).toNat < added.length :=
    idx_floor_lt _ _ (hr s).2 hn
  simp only [removeStep, run_bind, run_rnd, run_pure]
  rw [List.getD_eq_getElem added defaultTransaction hidx]
  exact ⟨_, List.getElem_mem hidx, rfl⟩

theorem modifiedLoop_mem (r : RandStream) (hr : OkStream r) (added : List Transaction) (k : Nat) :
    ∀ (s : Nat) (t : Transaction), t ∈ ((modifiedLoop r added k) s).1 →
      ∃ u ∈ added, ModOf u t := by
  induction k with
  | zero => intro s t h; simp [modifiedLoop, run_pure] at h
  | succ n ih =>
    intro s t h
    rcases Bool.eq_false_or_eq_true (added.length == 0) with hl | hl
    · simp only [modifiedLoop, hl, if_true, run_pure] at h
      simp at h
    · simp only [modifiedLoop, hl, Bool.false_eq_true, if_false,
        run_bind, run_pure, run_map] at h
      have hne : added ≠ [] := by
        intro he
        rw [he] at hl
        simp at hl
      rcases List.mem_cons.mp h with h1 | h2
      · rw [h1]
        exact modifyStep_mem r hr added hne _
      · exact ih _ _ h2

theorem removedLoop_mem (r : RandStream) (hr : OkStream r) (added : List Transaction) (k : Nat) :
    ∀ (s : Nat) (t : RemovedTransaction), t ∈ ((removedLoop r added k) s).1 →
      ∃ u ∈ added, t = (⟨u.transaction_id, u.account_id⟩ : RemovedTransaction) := by
  induction k with
  | zero => intro s t h; simp [removedLoop, run_pure] at h
  | succ n ih =>
    intro s t h
    rcases Bool.eq_false_or_eq_true (added.length == 0) with hl | hl
    · simp only [removedLoop, hl, if_true, run_pure] at h
      simp at h
    · simp only [removedLoop, hl, Bool.false_eq_true, if_false,
        run_bind, run_pure, run_map] at h
      have hne : added ≠ [] := by
        intro he
        rw [he] at hl
        simp at hl
      rcases List.mem_cons.mp h with h1 | h2
      · obtain ⟨u, hu, he⟩ := removeStep_mem r hr added hne s
        exact ⟨u, hu, h1.trans he⟩
      · exact ih _ _ h2

theorem txSetAfterDeposits_frame (r : RandStream) (hr : OkStream r) (now : Q)
    (pay : List Account) (profile : CompanyProfile) (options : TransactionSetOptions)
    (baseCount depositCount : Nat) (startArg endArg : Int)
    (dE : Except String (List Transaction)) (s : Nat) :
    (∀ t ∈ modifiedOf (((txSetAfterDeposits r now pay profile options baseCount depositCount startArg endArg dE) s).1),
      ∃ u ∈ addedOf (((txSetAfterDeposits r now pay profile options baseCount depositCount startArg endArg dE) s).1),
        ModOf u t) ∧
    (∀ rm ∈ removedOf (((txSetAfterDeposits r now pay profile options baseCount depositCount startArg endArg dE) s).1),
      ∃ u ∈ addedOf (((txSetAfterDeposits r now pay profile options baseCount depositCount startArg endArg dE) s).1),
        rm = (⟨u.transaction_id, u.account_id⟩ : RemovedTransaction)) := by
  cases dE with
  | error e =>
    constructor <;> intro x hx <;>
      simp [txSetAfterDeposits, run_pure, modifiedOf, removedOf] at hx
  | ok deposits =>
    simp only [txSetAfterDeposits, run_bind, run_pure, run_rnd, run_map,
      modifiedOf, addedOf, removedOf]
    constructor
    · intro t ht
      exact modifiedLoop_mem r hr _ _ _ t ht
    · intro rm hrm
      exact removedLoop_mem r hr _ _ _ rm hrm

theorem txSetCore_frame (r : RandStream) (hr : OkStream r) (now : Q)
    (dep pay : List Account) (profile : CompanyProfile) (options : TransactionSetOptions)
    (baseCount : Nat) (startArg endArg : Int) (s : Nat) :
    (∀ t ∈ modifiedOf (((txSetCore r now dep pay profile options baseCount startArg endArg) s).1),
      ∃ u ∈ addedOf (((txSetCore r now dep pay profile options baseCount startArg endArg) s).1),
        ModOf u t) ∧
    (∀ rm ∈ removedOf (((txSetCore r now dep pay profile options baseCount startArg endArg) s).1),
      ∃ u ∈ addedOf (((txSetCore r now dep pay profile options baseCount startArg endArg) s).1),
        rm = (⟨u.transaction_id, u.account_id⟩ : RemovedTransaction)) := by
  simp only [txSetCore, run_bind, run_rnd]
  exact txSetAfterDeposits_frame r hr now pay profile options baseCount _ startArg endArg _ _

/-- C8: inside generateTransactionSet, the modified and removed lists are
pure derivations that leave the added list intact: every modified entry is a
copy of some added transaction with exactly one of amount, pending or
category perturbed, and every removed entry is only the
transaction_id/account_id pair of some added transaction.  The added list the
result carries is the sorted list computed before either derivation. -/
theorem generateTransactionSet_frame (r : RandStream) (hr : OkStream r) (now : Q)
    (accounts : List Account) (profile : CompanyProfile) (options : TransactionSetOptions)
    (s : Nat) :
    (∀ t ∈ modifiedOf (((generateTransactionSet r now accounts profile options) s).1),
      ∃ u ∈ addedOf (((generateTransactionSet r now accounts profile options) s).1),
        ModOf u t) ∧
    (∀ rm ∈ removedOf (((generateTransactionSet r now accounts profile options) s).1),
      ∃ u ∈ addedOf (((generateTransactionSet r now accounts profile options) s).1),
        rm = (⟨u.transaction_id, u.account_id⟩ : RemovedTransaction)) := by
  simp only [generateTransactionSet, run_bind, run_pure]
  rcases Bool.eq_false_or_eq_true
      (((accounts.filter isDepository).length == 0) ||
        ((accounts.filter isPaymentEligible).length == 0)) with hc | hc <;>
    simp only [hc, if_true, if_false, Bool.false_eq_true]
  · constructor <;> intro x hx <;> simp [modifiedOf, removedOf, run_pure] at hx
  · exact txSetCore_frame r hr now _ _ profile options _ _ _ s

/-- Transaction-set options for the C8 witness: one added, one modified and
one removed transaction over an explicit date window. -/
def c8Options : TransactionSetOptions :=
  { addedCount := some 1
    modifiedCount := some 1
    removedCount := some 1
    startDate := some 19000
    endDate := some 19100 }

theorem modifiedLoop_length (r : RandStream) (added : List Transaction)
    (h : (added.length == 0) = false) (k : Nat) :
    ∀ s, (((modifiedLoop r added k) s).1).length = k := by
  induction k with
  | zero => intro s; rfl
  | succ n ih =>
    intro s
    simp only [modifiedLoop, h, Bool.false_eq_true, if_false, run_bind, run_pure, run_map]
    simp [ih]

theorem removedLoop_length (r : RandStream) (added : List Transaction)
    (h : (added.length == 0) = false) (k : Nat) :
    ∀ s, (((removedLoop r added k) s).1).length = k := by
  induction k with
  | zero => intro s; rfl
  | succ n ih =>
    intro s
    simp only [removedLoop, h, Bool.false_eq_true, if_false, run_bind, run_pure, run_map]
    simp [ih]

theorem depositLoopBody_ok (r : RandStream) (hr : OkStream r) (now : Q)
    (dep : List Account) (profile : CompanyProfile) (sa ea : Int)
    (hdep : ∀ a ∈ dep, a.type = AccountType.depository) (hne : dep ≠ []) :
    ∀ j s, ∃ t, (((depositLoopBody r now dep profile sa ea) j) s).1 = Except.ok t := by
  intro j s
  simp only [depositLoopBody, run_bind, run_rnd, run_pure]
  have hacc := randPick_mem r defaultAccount dep s (hr s).2 hne
  obtain ⟨t, s2, ht, _⟩ :=
    generateDepositTransaction_ok_pending r now _ profile _ _ (hdep _ hacc)
  exact ⟨t, by rw [ht]⟩

theorem depositCount_le (u : Q) (h0 : 0 ≤ u.val) (h1 : u.val < 1) (n : Nat) :
    ((((Q.ofInt n).mul ((Q.dec 2 1).add (u.mul (Q.dec 1 1)))).floor)).toNat ≤ n := by
  have hval : ((Q.ofInt n).mul ((Q.dec 2 1).add (u.mul (Q.dec 1 1)))).val ≤ (n : ℚ) := by
    rw [Q.val_mul, Q.val_ofInt, Q.val_add, Q.val_mul, Q.val_dec, Q.val_dec]
    have hn : (0 : ℚ) ≤ ((n : Int) : ℚ) := by positivity
    have hfac : (2 : ℚ) / 10 ^ 1 + u.val * ((1 : ℚ) / 10 ^ 1) ≤ 1 := by
      norm_num
      linarith
    calc ((n : Int) : ℚ) * ((2 : ℚ) / 10 ^ 1 + u.val * ((1 : ℚ) / 10 ^ 1))
        ≤ ((n : Int) : ℚ) * 1 := by
          exact mul_le_mul_of_nonneg_left hfac hn
      _ = ((n : Int) : ℚ) := mul_one _
      _ = (n : ℚ) := by push_cast; ring
  have hfl : ((Q.ofInt n).mul ((Q.dec 2 1).add (u.mul (Q.dec 1 1)))).floor ≤ (n : Int) := by
    rw [Q.floor_val]
    calc ⌊((Q.ofInt n).mul ((Q.dec 2 1).add (u.mul (Q.dec 1 1)))).val⌋
        ≤ ⌊(n : ℚ)⌋ := Int.floor_le_floor hval
      _ = (n : Int) := Int.floor_natCast n
  omega

theorem txSetAfterDeposits_lengths (r : RandStream) (now : Q) (pay : List Account)
    (profile : CompanyProfile) (options : TransactionSetOptions)
    (baseCount depositCount : Nat) (sa ea : Int) (deposits : List Transaction)
    (hdc : deposits.length = depositCount) (hle : depositCount ≤ baseCount)
    (hb0 : baseCount ≠ 0) (s : Nat) :
    ∃ res s2, (txSetAfterDeposits r now pay profile options baseCount depositCount sa ea
        (Except.ok deposits)) s = (Except.ok res, s2) ∧
      res.added.length = baseCount ∧
      res.modified.length = countOr options.modifiedCount
        ((((Q.ofInt baseCount).mul (Q.dec 5 2)).floor).toNat) ∧
      res.removed.length = countOr options.removedCount
        ((((Q.ofInt baseCount).mul (Q.dec 2 2)).floor).toNat) := by
  simp only [txSetAfterDeposits, run_bind, run_pure, run_rnd, run_map]
  refine ⟨_, _, rfl, ?_, ?_, ?_⟩
  · rw [List.length_mergeSort, List.length_append, forGen_length, hdc]
    omega
  · have ha : ((deposits ++
        ((forGen (paymentLoopBody r now pay profile sa ea) 0 (baseCount - depositCount)) s).1).mergeSort
          txDateLe).length = baseCount := by
      rw [List.length_mergeSort, List.length_append, forGen_length, hdc]
      omega
    obtain ⟨b, rfl⟩ := Nat.exists_eq_succ_of_ne_zero hb0
    rw [modifiedLoop_length r _ (by rw [ha]; rfl)]
  · have ha : ((deposits ++
        ((forGen (paymentLoopBody r now pay profile sa ea) 0 (baseCount - depositCount)) s).1).mergeSort
          txDateLe).length = baseCount := by
      rw [List.length_mergeSort, List.length_append, forGen_length, hdc]
      omega
    obtain ⟨b, rfl⟩ := Nat.exists_eq_succ_of_ne_zero hb0
    rw [removedLoop_length r _ (by rw [ha]; rfl)]

theorem txSetCore_lengths (r : RandStream) (hr : OkStream r) (now : Q)
    (dep pay : List Account) (profile : CompanyProfile) (options : TransactionSetOptions)
    (baseCount : Nat) (sa ea : Int) (s : Nat)
    (hdep : ∀ a ∈ dep, a.type = AccountType.depository) (hne : dep ≠ [])
    (hb0 : baseCount ≠ 0) :
    ∃ res s2, (txSetCore r now dep pay profile options baseCount sa ea) s =
        (Except.ok res, s2) ∧
      res.added.length = baseCount ∧
      res.modified.length = countOr options.modifiedCount
        ((((Q.ofInt baseCount).mul (Q.dec 5 2)).floor).toNat) ∧
      res.removed.length = countOr options.removedCount
        ((((Q.ofInt baseCount).mul (Q.dec 2 2)).floor).toNat) := by
  simp only [txSetCore, run_bind, run_rnd]
  obtain ⟨l, hl, hlen⟩ := forGenE_ok (depositLoopBody r now dep profile sa ea)
    ((((Q.ofInt baseCount).mul ((Q.dec 2 1).add ((r s).mul (Q.dec 1 1)))).floor).toNat)
    (depositLoopBody_ok r hr now dep profile sa ea hdep hne) 0 (s + 1)
  rw [hl]
  exact txSetAfterDeposits_lengths r now pay profile options baseCount _ sa ea l hlen
    (depositCount_le (r s) (hr s).1 (hr s).2 baseCount) hb0 _

theorem generateTransactionSet_lengths (r : RandStream) (hr : OkStream r) (now : Q)
    (accounts : List Account) (profile : CompanyProfile) (options : TransactionSetOptions)
    (s : Nat) (n : Nat) (hn : options.addedCount = some n) (hn0 : n ≠ 0)
    (a0 : Account) (ha0 : a0 ∈ accounts) (hty0 : a0.type = AccountType.depository) :
    ∃ res s2, (generateTransactionSet r now accounts profile options) s =
        (Except.ok res, s2) ∧
      res.added.length = n ∧
      res.modified.length = countOr options.modifiedCount
        ((((Q.ofInt n).mul (Q.dec 5 2)).floor).toNat) ∧
      res.removed.length = countOr options.removedCount
        ((((Q.ofInt n).mul (Q.dec 2 2)).floor).toNat) := by
  have hmemd : a0 ∈ accounts.filter isDepository :=
    List.mem_filter.mpr ⟨ha0, by simp [isDepository, hty0]⟩
  have hmemp : a0 ∈ accounts.filter isPaymentEligible :=
    List.mem_filter.mpr ⟨ha0, by simp [isPaymentEligible, hty0]⟩
  have hdne : accounts.filter isDepository ≠ [] := by
    intro h
    rw [h] at hmemd
    simp at hmemd
  have hpne : accounts.filter isPaymentEligible ≠ [] := by
    intro h
    rw [h] at hmemp
    simp at hmemp
  have hcond : (((accounts.filter isDepository).length == 0) ||
      ((accounts.filter isPaymentEligible).length == 0)) = false := by
    obtain ⟨k1, hk1⟩ := Nat.exists_eq_succ_of_ne_zero
      (Nat.pos_iff_ne_zero.mp (List.length_pos.mpr hdne))
    obtain ⟨k2, hk2⟩ := Nat.exists_eq_succ_of_ne_zero
      (Nat.pos_iff_ne_zero.mp (List.length_pos.mpr hpne))
    rw [hk1, hk2]
    rfl
  have hfilterdep : ∀ a ∈ accounts.filter isDepository, a.type = AccountType.depository := by
    intro a ha
    have h2 := (List.mem_filter.mp ha).2
    cases hat : a.type <;> simp [isDepository, hat] at h2 ⊢
  have hbase : countOr options.addedCount (baseCounts.getD (txSizeIndex profile.company_size) 0) = n := by
    rw [hn]
    obtain ⟨m, rfl⟩ := Nat.exists_eq_succ_of_ne_zero hn0
    rfl
  simp only [generateTransactionSet, run_bind, run_pure, hcond, Bool.false_eq_true, if_false]
  rw [hbase]
  exact txSetCore_lengths r hr now _ _ profile options n _ _ s hfilterdep hdne hn0

theorem c8mlen :
    0 < (modifiedOf (((generateTransactionSet zeroStream (Q.ofInt 19750) [c10Account]
      mediumProfile c8Options) 0).1)).length := by
  obtain ⟨res, s2, heq, _, hm, _⟩ := generateTransactionSet_lengths zeroStream zeroStream_ok
    (Q.ofInt 19750) [c10Account] mediumProfile c8Options 0 1 rfl one_ne_zero
    c10Account (by simp) rfl
  have h1 : ((generateTransactionSet zeroStream (Q.ofInt 19750) [c10Account]
      mediumProfile c8Options) 0).1 = Except.ok res := by rw [heq]
  rw [h1]
  simp only [modifiedOf]
  rw [hm]
  norm_num [countOr, c8Options]

theorem c8rlen :
    0 < (removedOf (((generateTransactionSet zeroStream (Q.ofInt 19750) [c10Account]
      mediumProfile c8Options) 0).1)).length := by
  obtain ⟨res, s2, heq, _, _, hrm⟩ := generateTransactionSet_lengths zeroStream zeroStream_ok
    (Q.ofInt 19750) [c10Account] mediumProfile c8Options 0 1 rfl one_ne_zero
    c10Account (by simp) rfl
  have h1 : ((generateTransactionSet zeroStream (Q.ofInt 19750) [c10Account]
      mediumProfile c8Options) 0).1 = Except.ok res := by rw [heq]
  rw [h1]
  simp only [removedOf]
  rw [hrm]
  norm_num [countOr, c8Options]

/-- Witness for C8 at a concrete account list, profile, options and stream. -/
theorem generateTransactionSet_frame_witness :
    (∃ u ∈ addedOf (((generateTransactionSet zeroStream (Q.ofInt 19750) [c10Account]
        mediumProfile c8Options) 0).1),
      ModOf u ((modifiedOf (((generateTransactionSet zeroStream (Q.ofInt 19750) [c10Account]
        mediumProfile c8Options) 0).1)).get ⟨0, c8mlen⟩)) ∧
    (∃ u ∈ addedOf (((generateTransactionSet zeroStream (Q.ofInt 19750) [c10Account]
        mediumProfile c8Options) 0).1),
      ((removedOf (((generateTransactionSet zeroStream (Q.ofInt 19750) [c10Account]
        mediumProfile c8Options) 0).1)).get ⟨0, c8rlen⟩) =
        (⟨u.transaction_id, u.account_id⟩ : RemovedTransaction)) :=
  ⟨(generateTransactionSet_frame zeroStream zeroStream_ok (Q.ofInt 19750) [c10Account]
      mediumProfile c8Options 0).1 _ (List.get_mem _ 0 c8mlen),
   (generateTransactionSet_frame zeroStream zeroStream_ok (Q.ofInt 19750) [c10Account]
      mediumProfile c8Options 0).2 _ (List.get_mem _ 0 c8rlen)⟩

theorem accountDistFor_checking_pos (cs : String) : 0 < (accountDistFor cs).checking := by
  rw [accountDistFor]
  rcases h : sizeToAccountCount.find? (fun p => p.1 == cs) with _ | ⟨k, d⟩
  · simp [h]
  · have hmem := List.mem_of_find?_eq_some h
    simp only [sizeToAccountCount, List.mem_cons, List.not_mem_nil, or_false] at hmem
    rcases hmem with h1 | h1 | h1 | h1 | h1 <;>
      · have hd := congrArg Prod.snd h1
        simp only [h] at hd ⊢
        simp [hd]

theorem generateAccountSet_exists_depository (r : RandStream) (p : CompanyProfile) (s : Nat) :
    ∃ a ∈ ((generateAccountSet r p) s).1, a.type = AccountType.depository := by
  obtain ⟨pb, s1, s2, s3, s4, s5, hdec⟩ := generateAccountSet_decomp r p s
  have hlen : (((forGen (checkingLoopBody r pb (jsOrQ p.annual_revenue (Q.ofInt 1000000))) 0
      (accountDistFor p.company_size).checking) s1).1).length =
      (accountDistFor p.company_size).checking := forGen_length _ _ _ _
  obtain ⟨a, ha⟩ := List.exists_mem_of_length_pos
    (by rw [hlen]; exact accountDistFor_checking_pos p.company_size)
  refine ⟨a, ?_, ?_⟩
  · rw [hdec]
    exact List.mem_append_left _ (List.mem_append_left _ (List.mem_append_left _
      (List.mem_append_left _ ha)))
  · obtain ⟨j, sx, hEq⟩ := forGen_mem _ _ _ _ _ ha
    subst hEq
    simp only [checkingLoopBody, run_bind, run_rnd]
    exact generateBankAccount_type r pb "checking" _ _

set_option maxHeartbeats 1000000 in
/-- C1 (amended): when both include_deposits and include_payments are on,
the generator succeeds for every complete company profile and nonzero
num_transactions, and the response's added list has exactly
options.num_transactions entries.  (Without include_payments the response's
added list is emptied, and without include_deposits the account partition
inside the transaction generator can be empty: the count contract only holds
on this flag combination.) -/
theorem generateFinancialData_added_length (r : RandStream) (hr : OkStream r)
    (companyData : PartialCompanyProfile) (hm : missingRequiredField companyData = false)
    (options : DataGenerationOptions) (hdep : options.include_deposits = true)
    (hpay : options.include_payments = true) (hn0 : options.num_transactions ≠ 0)
    (now : Q) (s : Nat) :
    ∃ res s2, (generateFinancialData r companyData options now) s = (Except.ok res, s2) ∧
      res.added.length = options.num_transactions := by
  simp only [generateFinancialData, hm, Bool.false_eq_true, if_false, run_bind, run_pure]
  obtain ⟨a, haMem, haTy⟩ := generateAccountSet_exists_depository r
    (((generateCompanyProfile r companyData) s).1) (((generateCompanyProfile r companyData) s).2)
  have haF : a ∈ (((generateAccountSet r (((generateCompanyProfile r companyData) s).1))
      (((generateCompanyProfile r companyData) s).2)).1).filter (accountKeep options) :=
    List.mem_filter.mpr ⟨haMem, by simp [accountKeep, haTy, hdep]⟩
  have hFne : (((generateAccountSet r (((generateCompanyProfile r companyData) s).1))
      (((generateCompanyProfile r companyData) s).2)).1).filter (accountKeep options) ≠ [] := by
    intro h
    rw [h] at haF
    simp at haF
  have hcondF : (((((generateAccountSet r (((generateCompanyProfile r companyData) s).1))
      (((generateCompanyProfile r companyData) s).2)).1).filter (accountKeep options)).length
      == 0) = false := by
    obtain ⟨k1, hk1⟩ := Nat.exists_eq_succ_of_ne_zero
      (Nat.pos_iff_ne_zero.mp (List.length_pos.mpr hFne))
    rw [hk1]
    rfl
  simp only [hcondF, Bool.false_eq_true, if_false, run_bind, run_pure]
  obtain ⟨res, s3, heq, hal, _, _⟩ := generateTransactionSet_lengths r hr now
    ((((generateAccountSet r (((generateCompanyProfile r companyData) s).1))
      (((generateCompanyProfile r companyData) s).2)).1).filter (accountKeep options))
    (((generateCompanyProfile r companyData) s).1)
    ⟨some options.num_transactions, none, none, some options.start_date, some options.end_date⟩
    (((generateAccountSet r (((generateCompanyProfile r companyData) s).1))
      (((generateCompanyProfile r companyData) s).2)).2)
    options.num_transactions rfl hn0 a haF haTy
  have h1 : ((generateTransactionSet r now
      ((((generateAccountSet r (((generateCompanyProfile r companyData) s).1))
        (((generateCompanyProfile r companyData) s).2)).1).filter (accountKeep options))
      (((generateCompanyProfile r companyData) s).1)
      ⟨some options.num_transactions, none, none, some options.start_date, some options.end_date⟩)
      (((generateAccountSet r (((generateCompanyProfile r companyData) s).1))
        (((generateCompanyProfile r companyData) s).2)).2)).1 = Except.ok res := by rw [heq]
  rw [h1]
  simp only [run_bind, run_pure]
  refine ⟨_, _, rfl, ?_⟩
  simp only [hpay, if_true]
  exact hal

/-- Options with deposits and payments on, for the amended C1 witness. -/
def c1AllOptions : DataGenerationOptions :=
  { num_transactions := 100
    start_date := 19358
    end_date := 19722
    include_deposits := true
    include_payments := true
    include_investments := false
    include_loans := false }

/-- Witness for the amended C1 at a concrete profile, options and stream. -/
theorem generateFinancialData_added_length_witness :
    ∃ res s2, (generateFinancialData zeroStream c7CompanyData c1AllOptions (Q.ofInt 19750)) 0 =
      (Except.ok res, s2) ∧ res.added.length = c1AllOptions.num_transactions :=
  generateFinancialData_added_length zeroStream zeroStream_ok c7CompanyData rfl
    c1AllOptions rfl rfl (by norm_num [c1AllOptions]) (Q.ofInt 19750) 0

/-- The added length of a generation result, none when the run threw. -/
def respAddedLen (e : Except String PlaidTransactionsResponse) : Option Nat :=
  match e with
  | Except.ok res => some res.added.length
  | Except.error _ => none

/-- Options within the input contract whose include_payments toggle is off
(deposits stay on, so accounts remain after filtering). -/
def c1NoPayOptions : DataGenerationOptions :=
  { num_transactions := 10
    start_date := 19358
    end_date := 19722
    include_deposits := true
    include_payments := false
    include_investments := false
    include_loans := false }

set_option maxRecDepth 4000 in
/-- Counterexample for C1 as stated: with num_transactions = 10 inside the
schema range, a valid start/end window and include flags that leave three
depository accounts, the run succeeds but the response's added list is empty
because the main generator replaces it with [] when include_payments is
false. -/
theorem generateFinancialData_added_length_counterexample :
    c1NoPayOptions.num_transactions = 10 ∧
    c1NoPayOptions.start_date < c1NoPayOptions.end_date ∧
    respAddedLen (((generateFinancialData zeroStream c7CompanyData c1NoPayOptions
      (Q.ofInt 19750)) 0).1) = some 0 :=
  ⟨rfl, by norm_num [c1NoPayOptions], rfl⟩

set_option maxHeartbeats 800000 in
/-- C5 (amended): generateDateInRange draws its date uniformly: the result
is exactly today − (endDaysAgo + ⌊u·(startDaysAgo − endDaysAgo)⌋) for the
single draw u, and in particular always lies in the window
[today − startDaysAgo, today − endDaysAgo].  No power-1.5 recency skew is
applied. -/
theorem generateDateInRange_uniform (r : RandStream) (hr : OkStream r)
    (today sa ea : Int) (hle : ea ≤ sa) (s : Nat) :
    ((generateDateInRange r today sa ea) s).1 =
      today - (ea + (((r s).mul (Q.ofInt (sa - ea))).floor)) ∧
    today - sa ≤ ((generateDateInRange r today sa ea) s).1 ∧
    ((generateDateInRange r today sa ea) s).1 ≤ today - ea := by
  have hform : ((generateDateInRange r today sa ea) s).1 =
      today - (ea + (((r s).mul (Q.ofInt (sa - ea))).floor)) := by
    simp only [generateDateInRange, run_bind, run_rnd, run_pure]
  have hD : (0 : ℚ) ≤ ((sa - ea : Int) : ℚ) := by
    have : (0 : Int) ≤ sa - ea := by omega
    exact_mod_cast this
  have h0 : 0 ≤ ((r s).mul (Q.ofInt (sa - ea))).floor := by
    rw [Q.floor_val, Q.val_mul, Q.val_ofInt]
    exact Int.floor_nonneg.mpr (mul_nonneg (hr s).1 hD)
  have h1 : ((r s).mul (Q.ofInt (sa - ea))).floor ≤ sa - ea := by
    rw [Q.floor_val, Q.val_mul, Q.val_ofInt]
    calc ⌊(r s).val * ((sa - ea : Int) : ℚ)⌋
        ≤ ⌊((sa - ea : Int) : ℚ)⌋ :=
          Int.floor_le_floor (mul_le_of_le_one_left hD (le_of_lt (hr s).2))
      _ = sa - ea := Int.floor_intCast _
  refine ⟨hform, ?_, ?_⟩ <;> rw [hform] <;> omega

/-- Witness for the amended C5 at a concrete stream and window. -/
theorem generateDateInRange_uniform_witness :
    ((generateDateInRange zeroStream 20000 730 0) 0).1 =
      20000 - (0 + (((zeroStream 0).mul (Q.ofInt (730 - 0))).floor)) ∧
    20000 - 730 ≤ ((generateDateInRange zeroStream 20000 730 0) 0).1 ∧
    ((generateDateInRange zeroStream 20000 730 0) 0).1 ≤ 20000 - 0 :=
  generateDateInRange_uniform zeroStream zeroStream_ok 20000 730 0 (by norm_num) 0

/-- The day-offset formula the specification describes for transaction
dates: daysAgo = floor(random()^1.5 · maxDays).  Modelled from the spec's
words, to be compared with the code's generateDateInRange. -/
noncomputable def specRecencyDaysAgo (u : ℝ) (maxDays : ℕ) : ℤ :=
  ⌊u ^ (1.5 : ℝ) * (maxDays : ℝ)⌋

/-- The all-one-quarter draw stream. -/
def quarterStream : RandStream := fun _ => Q.dec 25 2

theorem spec_quarter_pow : ((1 : ℝ)/4) ^ (1.5 : ℝ) = 1/8 := by
  have h2 : ((1 : ℝ)/4) = ((1 : ℝ)/2) ^ ((2 : ℕ) : ℝ) := by
    rw [Real.rpow_natCast]
    norm_num
  rw [h2, ← Real.rpow_mul (by norm_num : (0:ℝ) ≤ 1/2)]
  have h3 : ((2 : ℕ) : ℝ) * (1.5 : ℝ) = ((3 : ℕ) : ℝ) := by norm_num
  rw [h3, Real.rpow_natCast]
  norm_num

/-- Counterexample for C5 as stated: at a draw of u = 0.25 over the default
730-day window, the code's date is today − 182 (uniform), while the spec's
floor(u^1.5·730) recency formula gives today − 91: the code applies no
recency bias. -/
theorem generateDateInRange_not_recency_biased :
    (quarterStream 0).val = 1/4 ∧
    ((generateDateInRange quarterStream 20000 730 0) 0).1 = 20000 - 182 ∧
    20000 - specRecencyDaysAgo (1/4 : ℝ) 730 = 20000 - 91 ∧
    (20000 - 182 : Int) ≠ 20000 - 91 := by
  refine ⟨by norm_num [quarterStream, Q.val_dec], rfl, ?_, by norm_num⟩
  have hfl : specRecencyDaysAgo (1/4 : ℝ) 730 = 91 := by
    show ⌊((1:ℝ)/4) ^ (1.5 : ℝ) * ((730 : ℕ) : ℝ)⌋ = 91
    rw [spec_quarter_pow]
    rw [show ((1:ℝ)/8) * ((730 : ℕ) : ℝ) = 365/4 by norm_num]
    rw [Int.floor_eq_iff]
    norm_num
  rw [hfl]

/-- The double-quote character. -/
def qChar : Char := Char.ofNat 34

/-- The backslash character. -/
def bsChar : Char := Char.ofNat 92

/-- The newline character. -/
def nlChar : Char := Char.ofNat 10

mutual
/-- JSON value tree: the view JSON.stringify takes of a generation result. -/
inductive Json
  | null : Json
  | bool (b : Bool) : Json
  | num (q : Q) : Json
  | str (s : String) : Json
  | arr (xs : JsonItems) : Json
  | obj (fs : JsonFields) : Json

/-- Items of a JSON array. -/
inductive JsonItems
  | nil : JsonItems
  | cons (hd : Json) (tl : JsonItems) : JsonItems

/-- Fields of a JSON object, in insertion order. -/
inductive JsonFields
  | nil : JsonFields
  | cons (k : String) (v : Json) (tl : JsonFields) : JsonFields
end

/-- Hexadecimal digit character (lowercase). -/
def hexChar (d : Nat) : Char := if d < 10 then natDigitChar d else Char.ofNat (87 + d)

/-- JSON escaping of one character (JSON.stringify's string quoting). -/
def escChar (c : Char) : List Char :=
  if c == qChar then [bsChar, qChar]
  else if c == bsChar then [bsChar, bsChar]
  else if c == nlChar then [bsChar, 'n']
  else if c == Char.ofNat 9 then [bsChar, 't']
  else if c == Char.ofNat 13 then [bsChar, 'r']
  else if c == Char.ofNat 8 then [bsChar, 'b']
  else if c == Char.ofNat 12 then [bsChar, 'f']
  else if c.toNat < 32 then [bsChar, 'u', '0', '0', hexChar (c.toNat / 16), hexChar (c.toNat % 16)]
  else [c]

/-- JSON rendering of a string: quote, escaped characters, quote. -/
def jcStr (s : String) : List Char := qChar :: (s.toList.map escChar).flatten ++ [qChar]

/-- Decimal digit characters of a natural number (30 digits of fuel). -/
def natChars (n : Nat) : List Char := (natDigitsRev 30 n).reverse

/-- Leading zeros making a digit list exactly k characters wide. -/
def padZeros (k : Nat) (l : List Char) : List Char := List.replicate (k - l.length) '0' ++ l

/-- The exponent k with d = 10^k, when there is one (fuel 30). -/
def pow10Exp : Nat → Nat → Option Nat
  | _, 1 => some 0
  | 0, _ => none
  | fuel + 1, d => if d % 10 == 0 then (pow10Exp fuel (d / 10)).map (· + 1) else none

/-- Exact shortest decimal rendering of a canonical decimal value: the
Number serialisation JSON.stringify applies to the finite-decimal values
the generator produces. -/
def printNumChars (q : Q) : List Char :=
  let e := (pow10Exp 30 q.den).getD 0
  let a := q.num.natAbs
  let sign : List Char := if q.num < 0 then ['-'] else []
  if e == 0 then sign ++ natChars a
  else sign ++ natChars (a / 10 ^ e) ++ '.' :: padZeros e (natChars (a % 10 ^ e))

/-- A value printNumChars renders exactly and the number parser reads back
unchanged: the denominator is the power of ten of the written fraction
width, the last fraction digit is not zero, and the magnitude fits the
digit fuel. -/
def Q.canonDec (q : Q) : Bool :=
  match pow10Exp 30 q.den with
  | none => false
  | some e => ((e == 0) || (q.num.natAbs % 10 != 0)) && decide (q.num.natAbs < 10 ^ 30)

/-- k spaces. -/
def spacesChars (k : Nat) : List Char := List.replicate k ' '

mutual
/-- JSON.stringify(value, null, 2): the two-space-indented rendering, at a
given current indent. -/
def jcVal (ind : Nat) : Json → List Char
  | Json.null => ['n', 'u', 'l', 'l']
  | Json.bool true => ['t', 'r', 'u', 'e']
  | Json.bool false => ['f', 'a', 'l', 's', 'e']
  | Json.num q => printNumChars q
  | Json.str s => jcStr s
  | Json.arr JsonItems.nil => ['[', ']']
  | Json.arr (JsonItems.cons hd tl) =>
    '[' :: nlChar :: spacesChars (ind + 2) ++ jcVal (ind + 2) hd ++ jcItems (ind + 2) tl ++
      nlChar :: spacesChars ind ++ [']']
  | Json.obj JsonFields.nil => ['{', '}']
  | Json.obj (JsonFields.cons k v tl) =>
    '{' :: nlChar :: spacesChars (ind + 2) ++ jcStr k ++ ':' :: ' ' :: jcVal (ind + 2) v ++
      jcFields (ind + 2) tl ++ nlChar :: spacesChars ind ++ ['}']

/-- The remaining items of a non-empty array: comma, newline, indent,
item. -/
def jcItems (ind : Nat) : JsonItems → List Char
  | JsonItems.nil => []
  | JsonItems.cons hd tl =>
    ',' :: nlChar :: spacesChars ind ++ jcVal ind hd ++ jcItems ind tl

/-- The remaining fields of a non-empty object. -/
def jcFields (ind : Nat) : JsonFields → List Char
  | JsonFields.nil => []
  | JsonFields.cons k v tl =>
    ',' :: nlChar :: spacesChars ind ++ jcStr k ++ ':' :: ' ' :: jcVal ind v ++ jcFields ind tl
end

/-- The whitespace JSON.stringify emits (JSON.parse skips any of it). -/
def isWsChar (c : Char) : Bool := c == ' ' || c == nlChar

/-- Drop leading whitespace. -/
def skipWs : List Char → List Char
  | [] => []
  | c :: cs => if isWsChar c then skipWs cs else c :: cs

/-- Decimal digit test. -/
def isDigitChar (c : Char) : Bool := 48 ≤ c.toNat && c.toNat ≤ 57

/-- Longest digit prefix and the rest. -/
def takeDigits : List Char → List Char × List Char
  | [] => ([], [])
  | c :: cs =>
    if isDigitChar c then
      let r := takeDigits cs
      (c :: r.1, r.2)
    else ([], c :: cs)

/-- Numeric value of a hexadecimal digit character. -/
def hexVal (c : Char) : Nat := if c.toNat < 97 then c.toNat - 48 else c.toNat - 87

/-- JSON number literal: optional minus, digits, optional fraction.  The
parsed value is numerator over the written power of ten. -/
def parseNumChars (l : List Char) : Option (Q × List Char) :=
  let p := match l with
    | c :: cs => if c == '-' then (true, cs) else (false, l)
    | [] => (false, l)
  match takeDigits p.2 with
  | ([], _) => none
  | (ds, rest1) =>
    match rest1 with
    | c :: cs =>
      if c == '.' then
        match takeDigits cs with
        | ([], _) => none
        | (fs, rest2) =>
          some (⟨(if p.1 then -1 else 1) * (parseNatChars (ds ++ fs) : Int),
                 10 ^ fs.length, pow_pos (by norm_num) _⟩, rest2)
      else some (⟨(if p.1 then -1 else 1) * (parseNatChars ds : Int), 1, Nat.one_pos⟩, c :: cs)
    | [] => some (⟨(if p.1 then -1 else 1) * (parseNatChars ds : Int), 1, Nat.one_pos⟩, [])

/-- JSON string body after the opening quote: characters up to the closing
quote, unescaping what JSON.stringify escapes. -/
def parseStrChars : List Char → Option (List Char × List Char)
  | [] => none
  | c :: cs =>
    if c == qChar then some ([], cs)
    else if c == bsChar then
      match cs with
      | [] => none
      | c2 :: cs2 =>
        if c2 == 'n' then (parseStrChars cs2).map (fun r => (nlChar :: r.1, r.2))
        else if c2 == 't' then (parseStrChars cs2).map (fun r => (Char.ofNat 9 :: r.1, r.2))
        else if c2 == 'r' then (parseStrChars cs2).map (fun r => (Char.ofNat 13 :: r.1, r.2))
        else if c2 == 'b' then (parseStrChars cs2).map (fun r => (Char.ofNat 8 :: r.1, r.2))
        else if c2 == 'f' then (parseStrChars cs2).map (fun r => (Char.ofNat 12 :: r.1, r.2))
        else if c2 == 'u' then
          match cs2 with
          | h1 :: h2 :: h3 :: h4 :: cs6 =>
            (parseStrChars cs6).map (fun r =>
              (Char.ofNat (((hexVal h1 * 16 + hexVal h2) * 16 + hexVal h3) * 16 + hexVal h4) :: r.1, r.2))
          | _ => none
        else (parseStrChars cs2).map (fun r => (c2 :: r.1, r.2))
    else (parseStrChars cs).map (fun r => (c :: r.1, r.2))

mutual
/-- JSON.parse on the grammar JSON.stringify emits (fuel-bounded). -/
def parseVal : Nat → List Char → Option (Json × List Char)
  | 0, _ => none
  | fuel + 1, l =>
    match skipWs l with
    | [] => none
    | c :: cs =>
      if c == 'n' then
        match cs with
        | 'u' :: 'l' :: 'l' :: rest => some (Json.null, rest)
        | _ => none
      else if c == 't' then
        match cs with
        | 'r' :: 'u' :: 'e' :: rest => some (Json.bool true, rest)
        | _ => none
      else if c == 'f' then
        match cs with
        | 'a' :: 'l' :: 's' :: 'e' :: rest => some (Json.bool false, rest)
        | _ => none
      else if c == qChar then
        (parseStrChars cs).map (fun r => (Json.str (String.mk r.1), r.2))
      else if c == '[' then
        (parseItems fuel cs).map (fun r => (Json.arr r.1, r.2))
      else if c == '{' then
        (parseFields fuel cs).map (fun r => (Json.obj r.1, r.2))
      else
        (parseNumChars (c :: cs)).map (fun r => (Json.num r.1, r.2))

/-- Array items after the opening bracket, up to and including the closing
bracket. -/
def parseItems : Nat → List Char → Option (JsonItems × List Char)
  | 0, _ => none
  | fuel + 1, l =>
    match skipWs l with
    | [] => none
    | c :: cs =>
      if c == ']' then some (JsonItems.nil, cs)
      else
        (parseVal fuel (c :: cs)).bind (fun vr =>
          match skipWs vr.2 with
          | [] => none
          | c2 :: cs2 =>
            if c2 == ',' then
              (parseItems fuel cs2).map (fun r => (JsonItems.cons vr.1 r.1, r.2))
            else if c2 == ']' then some (JsonItems.cons vr.1 JsonItems.nil, cs2)
            else none)

/-- Object fields after the opening brace, up to and including the closing
brace. -/
def parseFields : Nat → List Char → Option (JsonFields × List Char)
  | 0, _ => none
  | fuel + 1, l =>
    match skipWs l with
    | [] => none
    | c :: cs =>
      if c == '}' then some (JsonFields.nil, cs)
      else if c == qChar then
        (parseStrChars cs).bind (fun kr =>
          match skipWs kr.2 with
          | [] => none
          | c2 :: cs2 =>
            if c2 == ':' then
              (parseVal fuel cs2).bind (fun vr =>
                match skipWs vr.2 with
                | [] => none
                | c3 :: cs3 =>
                  if c3 == ',' then
                    (parseFields fuel cs3).map
                      (fun r => (JsonFields.cons (String.mk kr.1) vr.1 r.1, r.2))
                  else if c3 == '}' then
                    some (JsonFields.cons (String.mk kr.1) vr.1 JsonFields.nil, cs3)
                  else none)
            else none)
      else none
end

/-- A character JSON.stringify writes unescaped. -/
def safeChar (c : Char) : Bool := !(c == qChar) && !(c == bsChar) && decide (32 ≤ c.toNat)

/-- A string JSON.stringify writes verbatim between quotes. -/
def safeStr (s : String) : Bool := s.toList.all safeChar

mutual
/-- Every string is escape-free and every number canonical decimal: on such
trees printing and parsing are exact inverses. -/
def jsonSafe : Json → Bool
  | Json.null => true
  | Json.bool _ => true
  | Json.num q => Q.canonDec q
  | Json.str s => safeStr s
  | Json.arr xs => itemsSafe xs
  | Json.obj fs => fieldsSafe fs

/-- jsonSafe over array items. -/
def itemsSafe : JsonItems → Bool
  | JsonItems.nil => true
  | JsonItems.cons hd tl => jsonSafe hd && itemsSafe tl

/-- jsonSafe over object fields. -/
def fieldsSafe : JsonFields → Bool
  | JsonFields.nil => true
  | JsonFields.cons k v tl => safeStr k && jsonSafe v && fieldsSafe tl
end

mutual
/-- Parser fuel adequate for a value. -/
def jsize : Json → Nat
  | Json.null => 1
  | Json.bool _ => 1
  | Json.num _ => 1
  | Json.str _ => 1
  | Json.arr xs => isize xs + 1
  | Json.obj fs => fsize fs + 1

/-- Parser fuel adequate for array items. -/
def isize : JsonItems → Nat
  | JsonItems.nil => 1
  | JsonItems.cons hd tl => jsize hd + isize tl + 1

/-- Parser fuel adequate for object fields. -/
def fsize : JsonFields → Nat
  | JsonFields.nil => 1
  | JsonFields.cons _ v tl => jsize v + fsize tl + 1
end

/-- A tail a JSON number may be followed by: nothing, or a character that
neither extends the digits nor opens a fraction. -/
def restOk : List Char → Bool
  | [] => true
  | c :: _ => !(isDigitChar c) && !(c == '.')
theorem Q.ext (a b : Q) (h1 : a.num = b.num) (h2 : a.den = b.den) : a = b := by
  cases a
  cases b
  cases h1
  cases h2
  rfl

theorem natDigitChar_isDigit (d : Nat) (h : d < 10) : isDigitChar (natDigitChar d) = true := by
  interval_cases d <;> rfl

theorem digitVal_natDigitChar (d : Nat) (h : d < 10) : digitVal (natDigitChar d) = d := by
  interval_cases d <;> rfl

theorem parseNatChars_cons (c : Char) (l : List Char) :
    parseNatChars (c :: l) = List.foldl (fun acc x => acc * 10 + digitVal x) (digitVal c) l := by
  simp [parseNatChars]

theorem foldl_digits_acc (l : List Char) :
    ∀ acc : Nat, List.foldl (fun a c => a * 10 + digitVal c) acc l =
      acc * 10 ^ l.length + parseNatChars l := by
  induction l with
  | nil => intro acc; simp [parseNatChars]
  | cons c cs ih =>
    intro acc
    have h1 := ih (acc * 10 + digitVal c)
    have h2 := ih (digitVal c)
    simp only [List.foldl_cons] at h1 ⊢
    rw [h1, parseNatChars_cons, h2, List.length_cons]
    ring

theorem parseNatChars_append (l1 l2 : List Char) :
    parseNatChars (l1 ++ l2) = parseNatChars l1 * 10 ^ l2.length + parseNatChars l2 := by
  rw [parseNatChars, parseNatChars, List.foldl_append]
  exact foldl_digits_acc l2 _

theorem parse_replicate_zero (k : Nat) : parseNatChars (List.replicate k '0') = 0 := by
  induction k with
  | zero => rfl
  | succ n ih =>
    rw [List.replicate_succ, parseNatChars_cons]
    have h := foldl_digits_acc (List.replicate n '0') (digitVal '0')
    rw [h, ih]
    simp [digitVal]

theorem natDigitsRev_spec (fuel : Nat) : ∀ n, n < 10 ^ fuel → 0 < fuel →
    natDigitsRev fuel n ≠ [] ∧
    (∀ c ∈ natDigitsRev fuel n, isDigitChar c = true) ∧
    parseNatChars ((natDigitsRev fuel n).reverse) = n ∧
    (natDigitsRev fuel n).length ≤ fuel := by
  induction fuel with
  | zero => intro n h h0; omega
  | succ f ih =>
    intro n h _
    rw [natDigitsRev]
    by_cases hn : n < 10
    · simp only [if_pos hn]
      refine ⟨by simp, ?_, ?_, by simp⟩
      · intro c hc
        simp only [List.mem_singleton] at hc
        rw [hc]
        exact natDigitChar_isDigit n hn
      · simp [parseNatChars, digitVal_natDigitChar n hn]
    · simp only [if_neg hn]
      have hdiv : n / 10 < 10 ^ f := by
        rw [Nat.div_lt_iff_lt_mul (by norm_num)]
        calc n < 10 ^ (f + 1) := h
          _ = 10 ^ f * 10 := by rw [pow_succ]
      have hf : 0 < f := by
        rcases Nat.eq_zero_or_pos f with h0 | h0
        · rw [h0] at hdiv
          simp at hdiv
          omega
        · exact h0
      obtain ⟨hne, hdig, hparse, hlen⟩ := ih (n / 10) hdiv hf
      refine ⟨by simp, ?_, ?_, by simpa using hlen⟩
      · intro c hc
        rcases List.mem_cons.mp hc with h1 | h2
        · rw [h1]
          exact natDigitChar_isDigit _ (Nat.mod_lt n (by norm_num))
        · exact hdig c h2
      · rw [List.reverse_cons, parseNatChars_append, hparse]
        have : parseNatChars [natDigitChar (n % 10)] = n % 10 := by
          simp [parseNatChars, digitVal_natDigitChar _ (Nat.mod_lt n (by norm_num))]
        rw [this]
        simp only [List.length_singleton, pow_one]
        omega

theorem natChars_spec (n : Nat) (h : n < 10 ^ 30) :
    natChars n ≠ [] ∧ (∀ c ∈ natChars n, isDigitChar c = true) ∧
    parseNatChars (natChars n) = n := by
  obtain ⟨h1, h2, h3, _⟩ := natDigitsRev_spec 30 n h (by norm_num)
  refine ⟨by simpa [natChars] using h1, ?_, h3⟩
  intro c hc
  exact h2 c (by simpa [natChars] using hc)

theorem natChars_length_le (n k : Nat) (h : n < 10 ^ k) (hk : 0 < k) (hk30 : k ≤ 30) :
    (natChars n).length ≤ k := by
  obtain ⟨_, _, _, hlen⟩ := natDigitsRev_spec k n h hk
  have hmono : ∀ f2 f1 m, f1 ≤ f2 → m < 10 ^ f1 → 0 < f1 →
      natDigitsRev f2 m = natDigitsRev f1 m := by
    intro f2
    induction f2 with
    | zero => intro f1 m hle hm h1; omega
    | succ g ihg =>
      intro f1 m hle hm h1
      obtain ⟨f0, rfl⟩ := Nat.exists_eq_succ_of_ne_zero (Nat.pos_iff_ne_zero.mp h1)
      rw [natDigitsRev, natDigitsRev]
      by_cases hlt : m < 10
      · simp [hlt]
      · simp only [if_neg hlt]
        have hdiv : m / 10 < 10 ^ f0 := by
          rw [Nat.div_lt_iff_lt_mul (by norm_num)]
          calc m < 10 ^ (f0 + 1) := hm
            _ = 10 ^ f0 * 10 := by rw [pow_succ]
        have hf0 : 0 < f0 := by
          rcases Nat.eq_zero_or_pos f0 with hz | hz
          · rw [hz] at hdiv
            simp at hdiv
            omega
          · exact hz
        rw [ihg f0 (m / 10) (by omega) hdiv hf0]
  rw [natChars, hmono 30 k n hk30 h hk]
  simpa using hlen

theorem takeDigits_append (ds : List Char) (hds : ∀ c ∈ ds, isDigitChar c = true)
    (rest : List Char) (hrest : restOk rest = true) :
    takeDigits (ds ++ rest) = (ds, rest) := by
  induction ds with
  | nil =>
    rcases rest with _ | ⟨c, cs⟩
    · rfl
    · simp only [restOk, Bool.and_eq_true, Bool.not_eq_true'] at hrest
      simp [takeDigits, hrest.1]
  | cons c cs ih =>
    have hc := hds c (by simp)
    simp only [List.cons_append, takeDigits, hc, if_true, List.append_eq]
    rw [ih (fun x hx => hds x (by simp [hx]))]

theorem pow10Exp_spec (fuel : Nat) : ∀ d e, pow10Exp fuel d = some e → d = 10 ^ e ∧ e ≤ fuel := by
  induction fuel with
  | zero =>
    intro d e h
    by_cases hd : d = 1
    · subst hd
      simp only [pow10Exp] at h
      cases h
      exact ⟨rfl, le_refl 0⟩
    · rw [show pow10Exp 0 d = none by
        rcases d with _ | d2
        · rfl
        · rcases d2 with _ | d3
          · exact absurd rfl hd
          · rfl] at h
      cases h
  | succ f ih =>
    intro d e h
    by_cases hd : d = 1
    · subst hd
      simp only [pow10Exp] at h
      cases h
      exact ⟨rfl, by omega⟩
    · have hstep : pow10Exp (f + 1) d =
          (if d % 10 == 0 then (pow10Exp f (d / 10)).map (· + 1) else none) := by
        rcases d with _ | d2
        · rfl
        · rcases d2 with _ | d3
          · exact absurd rfl hd
          · rfl
      rw [hstep] at h
      rcases Bool.eq_false_or_eq_true (d % 10 == 0) with hm | hm
      · rw [hm] at h
        simp at h
        obtain ⟨e0, hmap, he⟩ := h
        obtain ⟨hval, hle⟩ := ih (d / 10) e0 hmap
        have hdvd : d % 10 = 0 := beq_iff_eq.mp hm
        constructor
        · rw [← he]
          calc d = d / 10 * 10 + d % 10 := by omega
            _ = 10 ^ e0 * 10 := by rw [hval, hdvd]; ring
            _ = 10 ^ (e0 + 1) := by rw [pow_succ]
        · omega
      · rw [hm] at h
        simp at h

theorem skipWs_spaces (k : Nat) (l : List Char) :
    skipWs (spacesChars k ++ l) = skipWs l := by
  induction k with
  | zero => rfl
  | succ n ih =>
    rw [spacesChars, List.replicate_succ]
    simpa [skipWs, isWsChar] using ih

theorem skipWs_nl (l : List Char) : skipWs (nlChar :: l) = skipWs l := rfl

theorem skipWs_head (c : Char) (h : isWsChar c = false) (l : List Char) :
    skipWs (c :: l) = c :: l := by
  simp [skipWs, h]

theorem escChar_safe (c : Char) (h : safeChar c = true) : escChar c = [c] := by
  simp only [safeChar, Bool.and_eq_true, Bool.not_eq_true', decide_eq_true_eq] at h
  obtain ⟨⟨h1, h2⟩, h3⟩ := h
  have ectl : ∀ x : Char, x.toNat < 32 → (c == x) = false := by
    intro x hx
    rcases Bool.eq_false_or_eq_true (c == x) with hy | hy
    · exfalso
      rw [beq_iff_eq.mp hy] at h3
      omega
    · exact hy
  rw [escChar, if_neg (by simp [h1]), if_neg (by simp [h2]),
    if_neg (by rw [ectl nlChar (by decide)]; simp),
    if_neg (by rw [ectl (Char.ofNat 9) (by decide)]; simp),
    if_neg (by rw [ectl (Char.ofNat 13) (by decide)]; simp),
    if_neg (by rw [ectl (Char.ofNat 8) (by decide)]; simp),
    if_neg (by rw [ectl (Char.ofNat 12) (by decide)]; simp), if_neg (by omega)]

theorem parseStr_safe (l : List Char) (h : ∀ c ∈ l, safeChar c = true) (rest : List Char) :
    parseStrChars ((l.map escChar).flatten ++ (qChar :: rest)) = some (l, rest) := by
  induction l with
  | nil =>
    show parseStrChars (qChar :: rest) = some ([], rest)
    rw [parseStrChars.eq_def]
    simp
  | cons c cs ih =>
    have hc := h c (by simp)
    have hcq : (c == qChar) = false := by
      simp only [safeChar, Bool.and_eq_true, Bool.not_eq_true'] at hc
      exact hc.1.1
    have hcb : (c == bsChar) = false := by
      simp only [safeChar, Bool.and_eq_true, Bool.not_eq_true'] at hc
      exact hc.1.2
    rw [List.map_cons, List.flatten_cons, escChar_safe c hc, List.append_assoc,
      List.singleton_append, parseStrChars.eq_def]
    simp only [hcq, hcb, Bool.false_eq_true, if_false]
    rw [ih (fun x hx => h x (by simp [hx]))]
    rfl

theorem digit_ne_minus (c : Char) (h : isDigitChar c = true) : (c == '-') = false := by
  simp only [isDigitChar, Bool.and_eq_true, decide_eq_true_eq] at h
  rcases Bool.eq_false_or_eq_true (c == '-') with hx | hx
  · exfalso
    rw [beq_iff_eq.mp hx] at h
    exact absurd h.1 (by decide)
  · exact hx

theorem digit_ne_dot (c : Char) (h : isDigitChar c = true) : (c == '.') = false := by
  simp only [isDigitChar, Bool.and_eq_true, decide_eq_true_eq] at h
  rcases Bool.eq_false_or_eq_true (c == '.') with hx | hx
  · exfalso
    rw [beq_iff_eq.mp hx] at h
    exact absurd h.1 (by decide)
  · exact hx

/-- The head of the list is not a digit (what ends a digit run). -/
def headNonDigit : List Char → Bool
  | [] => true
  | c :: _ => !(isDigitChar c)

theorem restOk_headNonDigit (l : List Char) (h : restOk l = true) : headNonDigit l = true := by
  rcases l with _ | ⟨c, cs⟩
  · rfl
  · simp only [restOk, Bool.and_eq_true] at h
    simp [headNonDigit, h.1]

theorem takeDigits_append2 (ds : List Char) (hds : ∀ c ∈ ds, isDigitChar c = true)
    (rest : List Char) (hrest : headNonDigit rest = true) :
    takeDigits (ds ++ rest) = (ds, rest) := by
  induction ds with
  | nil =>
    rcases rest with _ | ⟨c, cs⟩
    · rfl
    · simp only [headNonDigit, Bool.not_eq_true'] at hrest
      simp [takeDigits, hrest]
  | cons c cs ih =>
    have hc := hds c (by simp)
    simp only [List.cons_append, takeDigits, hc, if_true, List.append_eq]
    rw [ih (fun x hx => hds x (by simp [hx]))]

theorem parseNumChars_digits (neg : Bool) (ds : List Char) (hne : ds ≠ [])
    (hds : ∀ c ∈ ds, isDigitChar c = true)
    (rest : List Char) (hrest : restOk rest = true) :
    parseNumChars ((if neg then ['-'] else []) ++ ds ++ rest) =
      some (⟨(if neg then -1 else 1) * (parseNatChars ds : Int), 1, Nat.one_pos⟩, rest) := by
  obtain ⟨c0, cs0, rfl⟩ : ∃ c0 cs0, ds = c0 :: cs0 := by
    rcases ds with _ | ⟨x, xs⟩
    · exact absurd rfl hne
    · exact ⟨x, xs, rfl⟩
  have hc0 : isDigitChar c0 = true := hds c0 (by simp)
  have htd : takeDigits ((c0 :: cs0) ++ rest) = (c0 :: cs0, rest) :=
    takeDigits_append2 _ hds rest (restOk_headNonDigit rest hrest)
  have hrest2 : ∀ c1 cs1, rest = c1 :: cs1 → (c1 == '.') = false := by
    intro c1 cs1 hr
    rw [hr] at hrest
    simp only [restOk, Bool.and_eq_true, Bool.not_eq_true'] at hrest
    exact hrest.2
  cases neg
  · simp only [if_false, List.nil_append, List.cons_append, parseNumChars,
      digit_ne_minus c0 hc0, Bool.false_eq_true, List.append_eq]
    simp only [List.cons_append, List.nil_append, List.append_eq] at htd ⊢
    rw [htd]
    rcases rest with _ | ⟨c1, cs1⟩
    · rfl
    · simp [hrest2 c1 cs1 rfl]
  · simp only [if_true, List.cons_append, List.singleton_append, List.nil_append,
      parseNumChars, List.append_eq]
    have hm : (('-' : Char) == '-') = true := by decide
    simp only [hm, if_true]
    simp only [List.cons_append, List.nil_append, List.append_eq] at htd ⊢
    rw [htd]
    rcases rest with _ | ⟨c1, cs1⟩
    · rfl
    · simp [hrest2 c1 cs1 rfl]

theorem parseNumChars_frac (neg : Bool) (ds fs : List Char) (hne : ds ≠ []) (hfne : fs ≠ [])
    (hds : ∀ c ∈ ds, isDigitChar c = true) (hfs : ∀ c ∈ fs, isDigitChar c = true)
    (rest : List Char) (hrest : restOk rest = true) :
    parseNumChars ((if neg then ['-'] else []) ++ ds ++ '.' :: fs ++ rest) =
      some (⟨(if neg then -1 else 1) * (parseNatChars (ds ++ fs) : Int),
             10 ^ fs.length, pow_pos (by norm_num) _⟩, rest) := by
  obtain ⟨c0, cs0, rfl⟩ : ∃ c0 cs0, ds = c0 :: cs0 := by
    rcases ds with _ | ⟨x, xs⟩
    · exact absurd rfl hne
    · exact ⟨x, xs, rfl⟩
  obtain ⟨f0, fs0, rfl⟩ : ∃ f0 fs0, fs = f0 :: fs0 := by
    rcases fs with _ | ⟨x, xs⟩
    · exact absurd rfl hfne
    · exact ⟨x, xs, rfl⟩
  have hc0 : isDigitChar c0 = true := hds c0 (by simp)
  have htd : takeDigits ((c0 :: cs0) ++ ('.' :: ((f0 :: fs0) ++ rest))) =
      (c0 :: cs0, '.' :: ((f0 :: fs0) ++ rest)) :=
    takeDigits_append2 _ hds ('.' :: ((f0 :: fs0) ++ rest))
      (by simp only [headNonDigit]; decide)
  have htf : takeDigits ((f0 :: fs0) ++ rest) = (f0 :: fs0, rest) :=
    takeDigits_append2 _ hfs rest (restOk_headNonDigit rest hrest)
  have hdot : (('.' : Char) == '.') = true := by decide
  cases neg
  · simp only [if_false, List.nil_append, List.cons_append, parseNumChars,
      digit_ne_minus c0 hc0, Bool.false_eq_true, List.append_eq]
    simp only [List.append_assoc, List.cons_append, List.nil_append, List.append_eq] at htd htf ⊢
    rw [htd]
    simp only [hdot, if_true, List.append_eq]
    rw [htf]
    simp
  · simp only [if_true, List.cons_append, List.singleton_append, List.nil_append,
      parseNumChars, List.append_eq]
    have hm : (('-' : Char) == '-') = true := by decide
    simp only [hm, if_true]
    simp only [List.append_assoc, List.cons_append, List.nil_append, List.append_eq] at htd htf ⊢
    rw [htd]
    simp only [hdot, if_true, List.append_eq]
    rw [htf]
    simp

theorem obind_some {α β : Type} (a : α) (f : α → Option β) :
    (Option.some a).bind f = f a := rfl

theorem digit_ne (c x : Char) (h : isDigitChar c = true)
    (hx : x.toNat < 48 ∨ 57 < x.toNat) : (c == x) = false := by
  simp only [isDigitChar, Bool.and_eq_true, decide_eq_true_eq] at h
  rcases Bool.eq_false_or_eq_true (c == x) with hy | hy
  · exfalso
    rw [beq_iff_eq.mp hy] at h
    omega
  · exact hy

theorem digit_notWs (c : Char) (h : isDigitChar c = true) : isWsChar c = false := by
  simp only [isWsChar, digit_ne c ' ' h (Or.inl (by decide)),
    digit_ne c nlChar h (Or.inl (by decide)), Bool.or_self]

theorem parseNum_print (q : Q) (hq : Q.canonDec q = true) (rest : List Char)
    (hrest : restOk rest = true) :
    parseNumChars (printNumChars q ++ rest) = some (q, rest) := by
  simp only [Q.canonDec] at hq
  rcases hp : pow10Exp 30 q.den with _ | e
  · rw [hp] at hq
    simp at hq
  · rw [hp] at hq
    simp only [Bool.and_eq_true, Bool.or_eq_true, decide_eq_true_eq, bne_iff_ne,
      beq_iff_eq] at hq
    obtain ⟨-, ha30⟩ := hq
    obtain ⟨hden, he30⟩ := pow10Exp_spec 30 q.den e hp
    by_cases he : e = 0
    · subst he
      have hden1 : q.den = 1 := by simpa using hden
      have hprint : printNumChars q =
          (if q.num < 0 then ['-'] else []) ++ natChars q.num.natAbs := by
        simp [printNumChars, hp]
      obtain ⟨hne, hdig, hval⟩ := natChars_spec q.num.natAbs ha30
      rw [hprint]
      by_cases hn : q.num < 0
      · rw [if_pos hn]
        have h2 := parseNumChars_digits true (natChars q.num.natAbs) hne hdig rest hrest
        rw [show (if (true : Bool) then ['-'] else ([] : List Char)) = ['-'] from rfl] at h2
        rw [h2]
        refine congrArg (fun x => some (x, rest)) (Q.ext _ _ ?_ ?_)
        · show (if (true : Bool) then (-1 : Int) else 1) *
            (parseNatChars (natChars q.num.natAbs) : Int) = q.num
          rw [show (if (true : Bool) then (-1 : Int) else 1) = -1 from rfl, hval]
          omega
        · show (1 : Nat) = q.den
          omega
      · rw [if_neg hn]
        have h2 := parseNumChars_digits false (natChars q.num.natAbs) hne hdig rest hrest
        rw [show (if (false : Bool) then ['-'] else ([] : List Char)) = [] from rfl] at h2
        rw [h2]
        refine congrArg (fun x => some (x, rest)) (Q.ext _ _ ?_ ?_)
        · show (if (false : Bool) then (-1 : Int) else 1) *
            (parseNatChars (natChars q.num.natAbs) : Int) = q.num
          rw [show (if (false : Bool) then (-1 : Int) else 1) = 1 from rfl, hval]
          omega
        · show (1 : Nat) = q.den
          omega
    · have hepos : 0 < e := Nat.pos_of_ne_zero he
      have hbe : (e == 0) = false := by simpa using he
      have hsub : q.num.natAbs % 10 ^ e < 10 ^ e :=
        Nat.mod_lt _ (pow_pos (by norm_num) e)
      have hdivlt : q.num.natAbs / 10 ^ e < 10 ^ 30 :=
        lt_of_le_of_lt (Nat.div_le_self _ _) ha30
      have hmodlt : q.num.natAbs % 10 ^ e < 10 ^ 30 :=
        lt_of_lt_of_le hsub (Nat.pow_le_pow_right (by norm_num) he30)
      obtain ⟨hdne, hddig, hdval⟩ := natChars_spec (q.num.natAbs / 10 ^ e) hdivlt
      obtain ⟨hmne, hmdig, hmval⟩ := natChars_spec (q.num.natAbs % 10 ^ e) hmodlt
      have hmlen : (natChars (q.num.natAbs % 10 ^ e)).length ≤ e :=
        natChars_length_le (q.num.natAbs % 10 ^ e) e hsub hepos he30
      have hfs_def : padZeros e (natChars (q.num.natAbs % 10 ^ e)) =
          List.replicate (e - (natChars (q.num.natAbs % 10 ^ e)).length) '0' ++
            natChars (q.num.natAbs % 10 ^ e) := rfl
      have hflen : (padZeros e (natChars (q.num.natAbs % 10 ^ e))).length = e := by
        rw [hfs_def, List.length_append, List.length_replicate]
        omega
      have hfne : padZeros e (natChars (q.num.natAbs % 10 ^ e)) ≠ [] := by
        intro hcon
        have hL := congrArg List.length hcon
        rw [hflen] at hL
        simp at hL
        omega
      have hfdig : ∀ c ∈ padZeros e (natChars (q.num.natAbs % 10 ^ e)),
          isDigitChar c = true := by
        intro c hc
        rw [hfs_def] at hc
        rcases List.mem_append.mp hc with h | h
        · rw [List.eq_of_mem_replicate h]
          decide
        · exact hmdig c h
      have hfval : parseNatChars (padZeros e (natChars (q.num.natAbs % 10 ^ e))) =
          q.num.natAbs % 10 ^ e := by
        rw [hfs_def, parseNatChars_append, parse_replicate_zero, hmval]
        simp
      have hdm : q.num.natAbs / 10 ^ e * 10 ^ e + q.num.natAbs % 10 ^ e = q.num.natAbs := by
        rw [Nat.mul_comm]
        exact Nat.div_add_mod q.num.natAbs (10 ^ e)
      have hprint : printNumChars q =
          (if q.num < 0 then ['-'] else []) ++ natChars (q.num.natAbs / 10 ^ e) ++
            '.' :: padZeros e (natChars (q.num.natAbs % 10 ^ e)) := by
        simp [printNumChars, hp, hbe]
      rw [hprint]
      by_cases hn : q.num < 0
      · rw [if_pos hn]
        have h2 := parseNumChars_frac true (natChars (q.num.natAbs / 10 ^ e))
          (padZeros e (natChars (q.num.natAbs % 10 ^ e))) hdne hfne hddig hfdig rest hrest
        rw [show (if (true : Bool) then ['-'] else ([] : List Char)) = ['-'] from rfl] at h2
        simp only [List.append_assoc, List.cons_append, List.nil_append] at h2 ⊢
        rw [h2]
        refine congrArg (fun x => some (x, rest)) (Q.ext _ _ ?_ ?_)
        · show (if (true : Bool) then (-1 : Int) else 1) *
            (parseNatChars (natChars (q.num.natAbs / 10 ^ e) ++
              padZeros e (natChars (q.num.natAbs % 10 ^ e))) : Int) = q.num
          rw [show (if (true : Bool) then (-1 : Int) else 1) = -1 from rfl,
            parseNatChars_append, hdval, hfval, hflen, hdm]
          omega
        · show (10 : Nat) ^ (padZeros e (natChars (q.num.natAbs % 10 ^ e))).length = q.den
          rw [hflen, hden]
      · rw [if_neg hn]
        have h2 := parseNumChars_frac false (natChars (q.num.natAbs / 10 ^ e))
          (padZeros e (natChars (q.num.natAbs % 10 ^ e))) hdne hfne hddig hfdig rest hrest
        rw [show (if (false : Bool) then ['-'] else ([] : List Char)) = [] from rfl] at h2
        simp only [List.append_assoc, List.cons_append, List.nil_append] at h2 ⊢
        rw [h2]
        refine congrArg (fun x => some (x, rest)) (Q.ext _ _ ?_ ?_)
        · show (if (false : Bool) then (-1 : Int) else 1) *
            (parseNatChars (natChars (q.num.natAbs / 10 ^ e) ++
              padZeros e (natChars (q.num.natAbs % 10 ^ e))) : Int) = q.num
          rw [show (if (false : Bool) then (-1 : Int) else 1) = 1 from rfl,
            parseNatChars_append, hdval, hfval, hflen, hdm]
          omega
        · show (10 : Nat) ^ (padZeros e (natChars (q.num.natAbs % 10 ^ e))).length = q.den
          rw [hflen, hden]

theorem printNumChars_form (q : Q) (hq : Q.canonDec q = true) :
    ∃ c cs, printNumChars q = c :: cs ∧ (isDigitChar c = true ∨ c = '-') := by
  simp only [Q.canonDec] at hq
  rcases hp : pow10Exp 30 q.den with _ | e
  · rw [hp] at hq
    simp at hq
  · rw [hp] at hq
    simp only [Bool.and_eq_true, Bool.or_eq_true, decide_eq_true_eq, bne_iff_ne,
      beq_iff_eq] at hq
    obtain ⟨-, ha30⟩ := hq
    simp only [printNumChars, hp, Option.getD_some]
    rcases Bool.eq_false_or_eq_true (e == 0) with hbe | hbe
    swap
    · simp only [hbe, Bool.false_eq_true, if_false]
      have hdivlt : q.num.natAbs / 10 ^ e < 10 ^ 30 :=
        lt_of_le_of_lt (Nat.div_le_self _ _) ha30
      obtain ⟨hne, hdig, -⟩ := natChars_spec (q.num.natAbs / 10 ^ e) hdivlt
      by_cases hn : q.num < 0
      · rw [if_pos hn]
        exact ⟨'-', natChars (q.num.natAbs / 10 ^ e) ++
          '.' :: padZeros e (natChars (q.num.natAbs % 10 ^ e)), by simp, Or.inr rfl⟩
      · rw [if_neg hn]
        obtain ⟨c0, cs0, hc⟩ : ∃ c0 cs0, natChars (q.num.natAbs / 10 ^ e) = c0 :: cs0 := by
          rcases hx : natChars (q.num.natAbs / 10 ^ e) with _ | ⟨x, xs⟩
          · exact absurd hx hne
          · exact ⟨x, xs, rfl⟩
        refine ⟨c0, cs0 ++ '.' :: padZeros e (natChars (q.num.natAbs % 10 ^ e)), ?_,
          Or.inl (hdig c0 (by rw [hc]; exact List.mem_cons_self c0 cs0))⟩
        rw [hc]
        simp
    · simp only [hbe, if_true]
      obtain ⟨hne, hdig, -⟩ := natChars_spec q.num.natAbs ha30
      by_cases hn : q.num < 0
      · rw [if_pos hn]
        exact ⟨'-', natChars q.num.natAbs, by simp, Or.inr rfl⟩
      · rw [if_neg hn]
        obtain ⟨c0, cs0, hc⟩ : ∃ c0 cs0, natChars q.num.natAbs = c0 :: cs0 := by
          rcases hx : natChars q.num.natAbs with _ | ⟨x, xs⟩
          · exact absurd hx hne
          · exact ⟨x, xs, rfl⟩
        exact ⟨c0, cs0, by rw [hc]; simp, Or.inl (hdig c0 (by rw [hc]; exact List.mem_cons_self c0 cs0))⟩

/-- What follows the opening bracket of a printed non-empty or empty array. -/
def jcArrBody (ind : Nat) : JsonItems → List Char
  | JsonItems.nil => [']']
  | JsonItems.cons hd tl =>
    nlChar :: spacesChars (ind + 2) ++ jcVal (ind + 2) hd ++ jcItems (ind + 2) tl ++
      nlChar :: spacesChars ind ++ [']']

/-- What follows the opening brace of a printed object. -/
def jcObjBody (ind : Nat) : JsonFields → List Char
  | JsonFields.nil => ['}']
  | JsonFields.cons k v tl =>
    nlChar :: spacesChars (ind + 2) ++ jcStr k ++ ':' :: ' ' :: jcVal (ind + 2) v ++
      jcFields (ind + 2) tl ++ nlChar :: spacesChars ind ++ ['}']

theorem jcVal_arr (ind : Nat) (xs : JsonItems) :
    jcVal ind (Json.arr xs) = '[' :: jcArrBody ind xs := by
  cases xs <;> rfl

theorem jcVal_obj (ind : Nat) (fs : JsonFields) :
    jcVal ind (Json.obj fs) = '{' :: jcObjBody ind fs := by
  cases fs <;> rfl

theorem skipWs_indent (k : Nat) (c : Char) (h : isWsChar c = false) (l : List Char) :
    skipWs (nlChar :: (spacesChars k ++ (c :: l))) = c :: l := by
  rw [skipWs_nl, skipWs_spaces, skipWs_head c h]

theorem jcVal_head (ind : Nat) (v : Json) (hs : jsonSafe v = true) :
    ∃ c cs, jcVal ind v = c :: cs ∧ isWsChar c = false ∧ (c == ']') = false := by
  cases v with
  | null => exact ⟨'n', ['u', 'l', 'l'], rfl, rfl, rfl⟩
  | bool b =>
    cases b
    · exact ⟨'f', ['a', 'l', 's', 'e'], rfl, rfl, rfl⟩
    · exact ⟨'t', ['r', 'u', 'e'], rfl, rfl, rfl⟩
  | num q =>
    obtain ⟨c, cs, hpc, hdc⟩ := printNumChars_form q hs
    refine ⟨c, cs, hpc, ?_, ?_⟩
    · rcases hdc with hd | hd
      · exact digit_notWs c hd
      · subst hd
        rfl
    · rcases hdc with hd | hd
      · exact digit_ne c ']' hd (Or.inr (by decide))
      · subst hd
        rfl
  | str s =>
    refine ⟨qChar, (s.toList.map escChar).flatten ++ [qChar], ?_, rfl, rfl⟩
    rw [show jcVal ind (Json.str s) = jcStr s from rfl, jcStr, List.cons_append]
  | arr xs =>
    refine ⟨'[', jcArrBody ind xs, ?_, rfl, rfl⟩
    rw [jcVal_arr]
  | obj fs =>
    refine ⟨'{', jcObjBody ind fs, ?_, rfl, rfl⟩
    rw [jcVal_obj]

theorem parseVal_nullStep (fuel : Nat) (rest : List Char) :
    parseVal (fuel + 1) ('n' :: ('u' :: ('l' :: ('l' :: rest)))) = some (Json.null, rest) := rfl

theorem parseVal_trueStep (fuel : Nat) (rest : List Char) :
    parseVal (fuel + 1) ('t' :: ('r' :: ('u' :: ('e' :: rest)))) = some (Json.bool true, rest) := rfl

theorem parseVal_falseStep (fuel : Nat) (rest : List Char) :
    parseVal (fuel + 1) ('f' :: ('a' :: ('l' :: ('s' :: ('e' :: rest))))) =
      some (Json.bool false, rest) := rfl

theorem parseVal_strStep (fuel : Nat) (x : List Char) :
    parseVal (fuel + 1) (qChar :: x) =
      (parseStrChars x).map (fun r => (Json.str (String.mk r.1), r.2)) := rfl

theorem parseVal_arrStep (fuel : Nat) (x : List Char) :
    parseVal (fuel + 1) ('[' :: x) =
      (parseItems fuel x).map (fun r => (Json.arr r.1, r.2)) := rfl

theorem parseVal_objStep (fuel : Nat) (x : List Char) :
    parseVal (fuel + 1) ('{' :: x) =
      (parseFields fuel x).map (fun r => (Json.obj r.1, r.2)) := rfl

theorem parseItems_rbStep (fuel : Nat) (rest : List Char) :
    parseItems (fuel + 1) (']' :: rest) = some (JsonItems.nil, rest) := rfl

theorem parseFields_rbStep (fuel : Nat) (rest : List Char) :
    parseFields (fuel + 1) ('}' :: rest) = some (JsonFields.nil, rest) := rfl

theorem parseVal_numStep (fuel : Nat) (c : Char) (cs : List Char)
    (h : isDigitChar c = true ∨ c = '-') :
    parseVal (fuel + 1) (c :: cs) =
      (parseNumChars (c :: cs)).map (fun r => (Json.num r.1, r.2)) := by
  rcases h with h | h
  · have hw : isWsChar c = false := digit_notWs c h
    simp only [parseVal]
    rw [skipWs_head c hw]
    simp only [digit_ne c 'n' h (Or.inr (by decide)), digit_ne c 't' h (Or.inr (by decide)),
      digit_ne c 'f' h (Or.inr (by decide)), digit_ne c qChar h (Or.inl (by decide)),
      digit_ne c '[' h (Or.inr (by decide)), digit_ne c '{' h (Or.inr (by decide)),
      Bool.false_eq_true, if_false]
  · subst h
    rfl

theorem parseVal_ws (fuel : Nat) (c : Char) (h : isWsChar c = true) (l : List Char) :
    parseVal fuel (c :: l) = parseVal fuel l := by
  cases fuel
  · rfl
  · simp only [parseVal]
    rw [show skipWs (c :: l) = skipWs l from by simp [skipWs, h]]

theorem parse_print (fuel : Nat) :
    (∀ v ind rest, jsonSafe v = true → restOk rest = true → jsize v ≤ fuel →
      parseVal fuel (jcVal ind v ++ rest) = some (v, rest)) ∧
    (∀ xs ind rest, itemsSafe xs = true → restOk rest = true → isize xs ≤ fuel →
      parseItems fuel (jcArrBody ind xs ++ rest) = some (xs, rest)) ∧
    (∀ fs ind rest, fieldsSafe fs = true → restOk rest = true → fsize fs ≤ fuel →
      parseFields fuel (jcObjBody ind fs ++ rest) = some (fs, rest)) := by
  induction fuel with
  | zero =>
    refine ⟨fun v _ _ _ _ hsz => absurd hsz ?_, fun xs _ _ _ _ hsz => absurd hsz ?_,
      fun fs _ _ _ _ hsz => absurd hsz ?_⟩
    · cases v <;> simp [jsize]
    · cases xs <;> simp [isize]
    · cases fs <;> simp [fsize]
  | succ fuel ih =>
    obtain ⟨ih1, ih2, ih3⟩ := ih
    refine ⟨?_, ?_, ?_⟩
    · intro v ind rest hsafe hrest hsz
      cases v with
      | null =>
        rw [show jcVal ind Json.null = ['n', 'u', 'l', 'l'] from rfl]
        simp only [List.cons_append, List.nil_append]
        exact parseVal_nullStep fuel rest
      | bool b =>
        cases b
        · rw [show jcVal ind (Json.bool false) = ['f', 'a', 'l', 's', 'e'] from rfl]
          simp only [List.cons_append, List.nil_append]
          exact parseVal_falseStep fuel rest
        · rw [show jcVal ind (Json.bool true) = ['t', 'r', 'u', 'e'] from rfl]
          simp only [List.cons_append, List.nil_append]
          exact parseVal_trueStep fuel rest
      | num q =>
        have hq : Q.canonDec q = true := hsafe
        obtain ⟨c, cs, hpc, hdc⟩ := printNumChars_form q hq
        have h3 := parseNum_print q hq rest hrest
        rw [hpc] at h3
        simp only [List.cons_append] at h3
        rw [show jcVal ind (Json.num q) = printNumChars q from rfl, hpc]
        simp only [List.cons_append]
        rw [parseVal_numStep fuel c (cs ++ rest) hdc, h3]
        rfl
      | str s =>
        have hss : safeStr s = true := hsafe
        rw [show jcVal ind (Json.str s) = jcStr s from rfl, jcStr]
        simp only [List.cons_append, List.append_assoc, List.singleton_append, List.nil_append]
        rw [parseVal_strStep,
          parseStr_safe s.toList (by simpa [safeStr, List.all_eq_true] using hss) rest]
        rfl
      | arr xs =>
        have hxs : itemsSafe xs = true := hsafe
        rw [jcVal_arr]
        simp only [List.cons_append]
        rw [parseVal_arrStep,
          ih2 xs ind rest hxs hrest (by simp only [jsize] at hsz; omega)]
        rfl
      | obj fs =>
        have hfs : fieldsSafe fs = true := hsafe
        rw [jcVal_obj]
        simp only [List.cons_append]
        rw [parseVal_objStep,
          ih3 fs ind rest hfs hrest (by simp only [jsize] at hsz; omega)]
        rfl
    · intro xs ind rest hsafe hrest hsz
      cases xs with
      | nil =>
        rw [show jcArrBody ind JsonItems.nil = [']'] from rfl]
        simp only [List.singleton_append, List.nil_append]
        exact parseItems_rbStep fuel rest
      | cons hd tl =>
        simp only [itemsSafe, Bool.and_eq_true] at hsafe
        obtain ⟨hshd, hstl⟩ := hsafe
        simp only [isize] at hsz
        obtain ⟨c0, cs0, hjc, hw0, hb0⟩ := jcVal_head (ind + 2) hd hshd
        have hro : restOk (jcItems (ind + 2) tl ++
            (nlChar :: (spacesChars ind ++ (']' :: rest)))) = true := by
          cases tl
          · rfl
          · rfl
        have h1 := ih1 hd (ind + 2)
          (jcItems (ind + 2) tl ++ (nlChar :: (spacesChars ind ++ (']' :: rest))))
          hshd hro (by omega)
        rw [hjc] at h1
        simp only [List.cons_append, List.append_assoc] at h1
        rw [show jcArrBody ind (JsonItems.cons hd tl) =
          nlChar :: spacesChars (ind + 2) ++ jcVal (ind + 2) hd ++ jcItems (ind + 2) tl ++
            nlChar :: spacesChars ind ++ [']'] from rfl, hjc]
        simp only [List.cons_append, List.append_assoc, List.nil_append,
          List.singleton_append, List.nil_append]
        simp only [parseItems]
        rw [skipWs_indent (ind + 2) c0 hw0]
        simp only [hb0, Bool.false_eq_true, if_false]
        rw [h1]
        simp only [obind_some]
        cases tl with
        | nil =>
          simp only [jcItems, List.nil_append]
          rw [skipWs_indent ind ']' rfl rest]
          have hx1 : ((']' : Char) == ',') = false := rfl
          have hx2 : ((']' : Char) == ']') = true := rfl
          simp only [hx1, hx2, Bool.false_eq_true, if_false, if_true]
        | cons hd2 tl2 =>
          simp only [jcItems, List.cons_append, List.append_assoc]
          rw [skipWs_head ',' rfl]
          have hc1 : ((',' : Char) == ',') = true := rfl
          simp only [hc1, if_true]
          have h2 := ih2 (JsonItems.cons hd2 tl2) ind rest hstl hrest (by omega)
          rw [show jcArrBody ind (JsonItems.cons hd2 tl2) =
            nlChar :: spacesChars (ind + 2) ++ jcVal (ind + 2) hd2 ++
              jcItems (ind + 2) tl2 ++ nlChar :: spacesChars ind ++ [']'] from rfl] at h2
          simp only [List.cons_append, List.append_assoc, List.singleton_append, List.nil_append] at h2
          rw [h2]
          rfl
    · intro fs ind rest hsafe hrest hsz
      cases fs with
      | nil =>
        rw [show jcObjBody ind JsonFields.nil = ['}'] from rfl]
        simp only [List.singleton_append, List.nil_append]
        exact parseFields_rbStep fuel rest
      | cons k v tl =>
        simp only [fieldsSafe, Bool.and_eq_true] at hsafe
        obtain ⟨⟨hsk, hsv⟩, hstl⟩ := hsafe
        simp only [fsize] at hsz
        have hrov : restOk (jcFields (ind + 2) tl ++
            (nlChar :: (spacesChars ind ++ ('}' :: rest)))) = true := by
          cases tl
          · rfl
          · rfl
        have h1 := ih1 v (ind + 2)
          (jcFields (ind + 2) tl ++ (nlChar :: (spacesChars ind ++ ('}' :: rest))))
          hsv hrov (by omega)
        rw [show jcObjBody ind (JsonFields.cons k v tl) =
          nlChar :: spacesChars (ind + 2) ++ jcStr k ++ ':' :: ' ' :: jcVal (ind + 2) v ++
            jcFields (ind + 2) tl ++ nlChar :: spacesChars ind ++ ['}'] from rfl, jcStr]
        simp only [List.cons_append, List.append_assoc, List.nil_append,
          List.singleton_append, List.nil_append]
        simp only [parseFields]
        rw [skipWs_indent (ind + 2) qChar rfl]
        have hq1 : (qChar == '}') = false := rfl
        have hq2 : (qChar == qChar) = true := rfl
        simp only [hq1, hq2, Bool.false_eq_true, if_false, if_true]
        rw [parseStr_safe k.toList (by simpa [safeStr, List.all_eq_true] using hsk)]
        simp only [obind_some]
        rw [skipWs_head ':' rfl]
        have hcol : ((':' : Char) == ':') = true := rfl
        simp only [hcol, if_true]
        rw [parseVal_ws fuel ' ' rfl, h1]
        simp only [obind_some]
        cases tl with
        | nil =>
          simp only [jcFields, List.nil_append]
          rw [skipWs_indent ind '}' rfl rest]
          have hy1 : (('}' : Char) == ',') = false := rfl
          have hy2 : (('}' : Char) == '}') = true := rfl
          simp only [hy1, hy2, Bool.false_eq_true, if_false, if_true]
          rfl
        | cons k2 v2 tl2 =>
          simp only [jcFields, List.cons_append, List.append_assoc]
          rw [skipWs_head ',' rfl]
          have hc1 : ((',' : Char) == ',') = true := rfl
          simp only [hc1, if_true]
          have h2 := ih3 (JsonFields.cons k2 v2 tl2) ind rest hstl hrest (by omega)
          rw [show jcObjBody ind (JsonFields.cons k2 v2 tl2) =
            nlChar :: spacesChars (ind + 2) ++ jcStr k2 ++
              ':' :: ' ' :: jcVal (ind + 2) v2 ++ jcFields (ind + 2) tl2 ++
              nlChar :: spacesChars ind ++ ['}'] from rfl] at h2
          simp only [List.cons_append, List.append_assoc, List.singleton_append, List.nil_append] at h2
          rw [h2]
          rfl

/-- JsonItems view of a list of values. -/
def jItems : List Json → JsonItems
  | [] => JsonItems.nil
  | x :: xs => JsonItems.cons x (jItems xs)

/-- JSON view of a nullable string. -/
def jStrOpt : Option String → Json
  | none => Json.null
  | some s => Json.str s

/-- JSON view of a nullable number. -/
def jNumOpt : Option Q → Json
  | none => Json.null
  | some q => Json.num q

/-- JSON.stringify's view of an account balance block, fields in the order
of the object literals in account-generator.ts. -/
def encodeBalances (b : AccountBalance) : Json :=
  Json.obj (JsonFields.cons "available" (jNumOpt b.available)
    (JsonFields.cons "current" (Json.num b.current)
      (JsonFields.cons "iso_currency_code" (Json.str b.iso_currency_code)
        (JsonFields.cons "limit" (jNumOpt b.limit)
          (JsonFields.cons "unofficial_currency_code" (jStrOpt b.unofficial_currency_code)
            JsonFields.nil)))))

/-- JSON.stringify's view of an account, fields in the order of the object
literals in account-generator.ts. -/
def encodeAccount (a : Account) : Json :=
  Json.obj (JsonFields.cons "account_id" (Json.str a.account_id)
    (JsonFields.cons "balances" (encodeBalances a.balances)
      (JsonFields.cons "mask" (Json.str a.mask)
        (JsonFields.cons "name" (Json.str a.name)
          (JsonFields.cons "official_name" (Json.str a.official_name)
            (JsonFields.cons "subtype" (Json.str a.subtype)
              (JsonFields.cons "type" (Json.str a.type.str) JsonFields.nil)))))))

/-- JSON.stringify's view of a transaction location (generateLocation's
literal order). -/
def encodeLocation (loc : TransactionLocation) : Json :=
  Json.obj (JsonFields.cons "address" (jStrOpt loc.address)
    (JsonFields.cons "city" (jStrOpt loc.city)
      (JsonFields.cons "region" (jStrOpt loc.region)
        (JsonFields.cons "postal_code" (jStrOpt loc.postal_code)
          (JsonFields.cons "country" (jStrOpt loc.country)
            (JsonFields.cons "lat" (jNumOpt loc.lat)
              (JsonFields.cons "lon" (jNumOpt loc.lon)
                (JsonFields.cons "store_number" (jStrOpt loc.store_number)
                  JsonFields.nil))))))))

/-- JSON.stringify's view of payment metadata (generatePaymentMeta's
literal order). -/
def encodePaymentMeta (p : PaymentMeta) : Json :=
  Json.obj (JsonFields.cons "reference_number" (jStrOpt p.reference_number)
    (JsonFields.cons "payment_method" (jStrOpt p.payment_method)
      (JsonFields.cons "payment_processor" (jStrOpt p.payment_processor)
        (JsonFields.cons "reason" (jStrOpt p.reason)
          (JsonFields.cons "payee_id" (jStrOpt p.payee_id)
            (JsonFields.cons "payer_id" (jStrOpt p.payer_id)
              (JsonFields.cons "check_number" (jStrOpt p.check_number)
                (JsonFields.cons "ach_class" (jStrOpt p.ach_class)
                  JsonFields.nil))))))))

/-- JSON.stringify's view of a transaction (generateBaseTransaction's
literal order). -/
def encodeTransaction (t : Transaction) : Json :=
  Json.obj (JsonFields.cons "transaction_id" (Json.str t.transaction_id)
    (JsonFields.cons "account_id" (Json.str t.account_id)
      (JsonFields.cons "amount" (Json.num t.amount)
        (JsonFields.cons "iso_currency_code" (Json.str t.iso_currency_code)
          (JsonFields.cons "unofficial_currency_code" (jStrOpt t.unofficial_currency_code)
            (JsonFields.cons "category" (Json.arr (jItems (t.category.map Json.str)))
              (JsonFields.cons "category_id" (Json.str t.category_id)
                (JsonFields.cons "pending" (Json.bool t.pending)
                  (JsonFields.cons "pending_transaction_id" (jStrOpt t.pending_transaction_id)
                    (JsonFields.cons "original_description" (Json.str t.original_description)
                      (JsonFields.cons "merchant_name" (Json.str t.merchant_name)
                        (JsonFields.cons "name" (Json.str t.name)
                          (JsonFields.cons "date" (Json.str t.date)
                            (JsonFields.cons "authorized_date" (jStrOpt t.authorized_date)
                              (JsonFields.cons "location" (encodeLocation t.location)
                                (JsonFields.cons "payment_meta" (encodePaymentMeta t.payment_meta)
                                  (JsonFields.cons "account_owner" (jStrOpt t.account_owner)
                                    (JsonFields.cons "transaction_code" (jStrOpt t.transaction_code)
                                      JsonFields.nil))))))))))))))))))

/-- JSON.stringify's view of a removed-transaction stub. -/
def encodeRemoved (r : RemovedTransaction) : Json :=
  Json.obj (JsonFields.cons "transaction_id" (Json.str r.transaction_id)
    (JsonFields.cons "account_id" (Json.str r.account_id) JsonFields.nil))

/-- JSON.stringify's view of the full generation result, fields in the
order of the return literal of generateFinancialData. -/
def encodeResponse (d : PlaidTransactionsResponse) : Json :=
  Json.obj (JsonFields.cons "accounts" (Json.arr (jItems (d.accounts.map encodeAccount)))
    (JsonFields.cons "added" (Json.arr (jItems (d.added.map encodeTransaction)))
      (JsonFields.cons "modified" (Json.arr (jItems (d.modified.map encodeTransaction)))
        (JsonFields.cons "removed" (Json.arr (jItems (d.removed.map encodeRemoved)))
          (JsonFields.cons "next_cursor" (Json.str d.next_cursor)
            (JsonFields.cons "has_more" (Json.bool d.has_more)
              (JsonFields.cons "request_id" (Json.str d.request_id)
                (JsonFields.cons "transactions_update_status"
                  (Json.str d.transactions_update_status) JsonFields.nil))))))))

/-- formatDataForDownload: JSON.stringify(data, null, 2) on the response. -/
def formatDataForDownload (d : PlaidTransactionsResponse) : String :=
  String.mk (jcVal 0 (encodeResponse d))

/-- C9: for every generation result whose strings are escape-free and whose
numbers are canonical finite decimals (which is what the generator emits),
JSON.parse applied to the string formatDataForDownload produces returns a
value deep-equal to the original result: the parsed tree is exactly the
JSON encoding of the result, with no input left over. -/
theorem formatDataForDownload_roundtrip (d : PlaidTransactionsResponse)
    (h : jsonSafe (encodeResponse d) = true) :
    parseVal (jsize (encodeResponse d)) ((formatDataForDownload d).toList) =
      some (encodeResponse d, []) := by
  have hmain := (parse_print (jsize (encodeResponse d))).1 (encodeResponse d) 0 [] h rfl le_rfl
  rw [List.append_nil] at hmain
  exact hmain

/-- Concrete account for the witness. -/
def c9Account : Account :=
  { account_id := "acc_001"
  , balances := ⟨some (Q.dec 250075 2), Q.dec 250075 2, "USD", none, none⟩
  , mask := "1234"
  , name := "Business Checking"
  , official_name := "First National Business Checking"
  , subtype := "checking"
  , type := AccountType.depository }

/-- Concrete transaction for the witness. -/
def c9Tx : Transaction :=
  { transaction_id := "tx_001"
  , account_id := "acc_001"
  , amount := Q.dec (-1255) 2
  , iso_currency_code := "USD"
  , unofficial_currency_code := none
  , category := ["Food and Drink", "Restaurants"]
  , category_id := "13005000"
  , pending := false
  , pending_transaction_id := none
  , original_description := "STARBUCKS"
  , merchant_name := "Starbucks"
  , name := "STARBUCKS PURCHASE 2024-01-05"
  , date := "2024-01-05"
  , authorized_date := some "2024-01-04"
  , location := ⟨some "100 Main St", some "New York", some "NY", some "10001",
      some "US", some (Q.dec 405 1), some (Q.dec (-739) 1), none⟩
  , payment_meta := ⟨some "REF12345678", some "ACH", some "ACH Network", some "Payment",
      none, none, none, some "CCD"⟩
  , account_owner := none
  , transaction_code := none }

/-- Concrete response for the witness. -/
def c9Data : PlaidTransactionsResponse :=
  { accounts := [c9Account]
  , added := [c9Tx]
  , modified := []
  , removed := [⟨"tx_000", "acc_001"⟩]
  , next_cursor := "end"
  , has_more := false
  , request_id := "req_abc123"
  , transactions_update_status := "full_completion" }

set_option maxRecDepth 8000 in
/-- Witness for C9: a concrete response with an account, a transaction and
a removed stub round-trips; the safety hypothesis holds by computation. -/
theorem formatDataForDownload_roundtrip_witness :
    jsonSafe (encodeResponse c9Data) = true ∧
    parseVal (jsize (encodeResponse c9Data)) ((formatDataForDownload c9Data).toList) =
      some (encodeResponse c9Data, []) :=
  ⟨by decide, formatDataForDownload_roundtrip c9Data (by decide)⟩

end Cosmic
